import Mathlib

/-! GVCP proxy / GVSP sink of aravis: a shallow embedding.

Sources embedded here:

* `src/src/arvgvcpproxy.c`          (standalone GVCP proxy)
* `src/src/arvgvcpproxy-backend.c`  (backend factory, fake backend)
* `src/gst/gstaravissink.c`         (GStreamer sink: GVCP engine and GVSP framer)

Conventions.  C unsigned integers are `Nat`, `gint64` is `Int`; wrap-around is
written out where it can occur.  Out-parameters become components of the
returned tuple.  Calls to `g_socket_send_to` become entries of a `sent`
list.  Every reading of `g_get_real_time ()` is an explicit argument.
-/

namespace Aravis

/-! ## Constants and collaborators that the sources only reference -/

/-- Constants of `arvgvcpprivate.h`, `arvgvspprivate.h` and `arvfakecamera.h`.
Those headers are not among the sources, so each macro is a parameter; the
field names are the macro names without the `ARV_` head.  The last field is
the byte order of the host, which decides what `g_htonl` does. -/
structure ArvConstants where
  GVBS_CONTROL_CHANNEL_PRIVILEGE_OFFSET : Nat
  GVBS_HEARTBEAT_TIMEOUT_OFFSET : Nat
  GVBS_STREAM_CHANNEL_0_IP_ADDRESS_OFFSET : Nat
  GVBS_STREAM_CHANNEL_0_PORT_OFFSET : Nat
  GVBS_STREAM_CHANNEL_0_PACKET_SIZE_OFFSET : Nat
  GVBS_STREAM_CHANNEL_0_PACKET_SIZE_POS : Nat
  GVBS_STREAM_CHANNEL_0_PACKET_SIZE_MASK : Nat
  GVBS_DISCOVERY_DATA_SIZE : Nat
  GVCP_PACKET_TYPE_CMD : Nat
  GVSP_MINIMUM_PACKET_SIZE : Nat
  GVSP_MAXIMUM_PACKET_SIZE : Nat
  GVSP_PACKET_PROTOCOL_OVERHEAD : Nat
  FAKE_CAMERA_REGISTER_SENSOR_WIDTH : Nat
  FAKE_CAMERA_REGISTER_SENSOR_HEIGHT : Nat
  FAKE_CAMERA_REGISTER_WIDTH : Nat
  FAKE_CAMERA_REGISTER_HEIGHT : Nat
  FAKE_CAMERA_REGISTER_X_OFFSET : Nat
  FAKE_CAMERA_REGISTER_Y_OFFSET : Nat
  FAKE_CAMERA_REGISTER_BINNING_HORIZONTAL : Nat
  FAKE_CAMERA_REGISTER_BINNING_VERTICAL : Nat
  FAKE_CAMERA_REGISTER_PIXEL_FORMAT : Nat
  FAKE_CAMERA_REGISTER_ACQUISITION : Nat
  host_is_little_endian : Bool

/-- An IPv4 socket address (`GInetSocketAddress`): address and UDP port. -/
structure GInetSocketAddress where
  address : Nat
  port : Nat
deriving DecidableEq

/-- The camera API of `arvfakecamera.h` used by the sources.  The camera
implementation is not among the sources, so its operations are parameters
over an arbitrary camera state `σ`.  A read returns the success flag and what
the out-parameter holds after the call; a write returns the success flag and
the new camera state. -/
structure ArvFakeCamera (σ : Type) where
  read_memory : σ → Nat → Nat → Bool × List Nat
  write_memory : σ → Nat → Nat → List Nat → Bool × σ
  read_register : σ → Nat → Bool × Nat
  write_register : σ → Nat → Nat → Bool × σ
  get_stream_address : σ → Option GInetSocketAddress
  set_inet_address : σ → Nat → σ

/-- Modelled from the spec: `arv_fake_camera_get_control_channel_privilege` is
missing from the sources; the spec names `CONTROL_CHANNEL_PRIVILEGE` as a
32-bit register at a fixed offset which the engine re-reads. -/
def arv_fake_camera_get_control_channel_privilege {σ : Type} (k : ArvConstants)
    (cam : ArvFakeCamera σ) (camera : σ) : Nat :=
  (cam.read_register camera k.GVBS_CONTROL_CHANNEL_PRIVILEGE_OFFSET).2

/-- Modelled from the spec: `arv_fake_camera_set_control_channel_privilege` is
missing from the sources; the spec says expiry forces the
`CONTROL_CHANNEL_PRIVILEGE` register to the given value. -/
def arv_fake_camera_set_control_channel_privilege {σ : Type} (k : ArvConstants)
    (cam : ArvFakeCamera σ) (camera : σ) (privilege : Nat) : σ :=
  (cam.write_register camera k.GVBS_CONTROL_CHANNEL_PRIVILEGE_OFFSET privilege).2

/-- Modelled from the spec: `arv_fake_camera_get_heartbeat_timeout` is missing
from the sources; the spec names `HEARTBEAT_TIMEOUT` as a 32-bit register
holding milliseconds. -/
def arv_fake_camera_get_heartbeat_timeout {σ : Type} (k : ArvConstants)
    (cam : ArvFakeCamera σ) (camera : σ) : Nat :=
  (cam.read_register camera k.GVBS_HEARTBEAT_TIMEOUT_OFFSET).2

/-- Modelled from the spec: `arv_fake_camera_get_acquisition_status` is missing
from the sources; the spec names `ACQUISITION_STATUS` as a 32-bit register. -/
def arv_fake_camera_get_acquisition_status {σ : Type} (k : ArvConstants)
    (cam : ArvFakeCamera σ) (camera : σ) : Nat :=
  (cam.read_register camera k.FAKE_CAMERA_REGISTER_ACQUISITION).2

/-! ## GVCP packets -/

/-- The command of a GVCP packet, `g_ntohs (packet->header.command)`, as the
`switch` of `_handle_control_packet` classifies it: the five `case` labels
and the `default` branch. -/
inductive ArvGvcpCommand where
  | DISCOVERY_CMD
  | READ_MEMORY_CMD
  | WRITE_MEMORY_CMD
  | READ_REGISTER_CMD
  | WRITE_REGISTER_CMD
  | UNKNOWN (code : Nat)
deriving DecidableEq

/-- A received datagram as `_handle_control_packet` sees it.  The accessors of
`arvgvcpprivate.h` are not among the sources, so each field is the value the
accessor of the same name returns for `(packet, size)`. -/
structure ArvGvcpPacket where
  packet_type : Nat
  packet_id : Nat
  command : ArvGvcpCommand
  read_memory_cmd_infos : Nat × Nat
  write_memory_cmd_infos : Nat × Nat
  write_memory_cmd_data : List Nat
  read_register_cmd_infos : Nat
  write_register_cmd_infos : Nat × Nat

/-- An acknowledge packet: one constructor per `arv_gvcp_packet_new_*_ack`
builder, holding the builder's arguments and, for the two read acks, the bytes
the backend stored in the data section (none when no backend call is made). -/
inductive ArvGvcpAck where
  | discovery_ack (packet_id : Nat) (data : List Nat)
  | read_memory_ack (address size packet_id : Nat) (data : List Nat)
  | write_memory_ack (address packet_id : Nat)
  | read_register_ack (value packet_id : Nat)
  | write_register_ack (data_index packet_id : Nat)
deriving DecidableEq

/-- The three places where `_handle_control_packet` reads `g_get_real_time ()`:
the heartbeat check, the privilege-register read, the ownership update. -/
structure RealTime where
  at_check : Int
  at_read : Int
  at_update : Int

/-- The value of `elapsed_ms = (time - controller_time) / 1000`: a `gint64`
difference, C division (truncating), stored into a `guint64`. -/
def elapsed_ms (time controller_time : Int) : Nat :=
  ((Int.tdiv (time - controller_time) 1000) % 18446744073709551616).toNat

/-- Both copies of `_g_inet_socket_address_is_equal` (the two arguments are
IPv4 socket addresses, so the type checks pass). -/
def _g_inet_socket_address_is_equal (a b : GInetSocketAddress) : Bool :=
  if a.port ≠ b.port then false else a.address == b.address

/-! ## The standalone proxy, `arvgvcpproxy.c` -/

/-- The callbacks `stream_config_changed` and `stream_config_changed_ex` are
modelled by the call they receive. -/
structure StreamConfigCall where
  extended : Bool
  stream_ip : Nat
  stream_port : Nat
  packet_size : Nat
  mac : List Nat
  is_multicast : Bool
deriving DecidableEq

/-- The table `ArvGvcpProxyBackendVTable`: an entry is `none` when the
function pointer is `NULL`.  The two notification callbacks that
`arvgvcpproxy.c` tests are recorded by their presence. -/
structure ArvGvcpProxyBackendVTable (σ : Type) where
  read_memory : Option (σ → Nat → Nat → Bool × List Nat)
  write_memory : Option (σ → Nat → Nat → List Nat → Bool × σ)
  read_register : Option (σ → Nat → Bool × Nat)
  write_register : Option (σ → Nat → Nat → Bool × σ)
  set_inet_address : Option (σ → Nat → σ)
  destroy : Option (σ → Unit)
  stream_config_changed : Bool
  stream_config_changed_ex : Bool

/-- The controller part of `ArvGvcpProxy` together with the backend state. -/
structure ArvGvcpProxy (σ : Type) where
  backend : σ
  controller_address : Option GInetSocketAddress
  controller_time : Int

namespace arvgvcpproxy

variable {σ : Type}

def _backend_read_register (vtable : ArvGvcpProxyBackendVTable σ) (backend : σ)
    (address fallback : Nat) : Nat :=
  match vtable.read_register with
  | none => fallback
  | some read_register =>
    if !(read_register backend address).1 then fallback
    else (read_register backend address).2

def _backend_read_memory (vtable : ArvGvcpProxyBackendVTable σ) (backend : σ)
    (address size : Nat) : Bool × List Nat :=
  match vtable.read_memory with
  | none => (false, [])
  | some read_memory => read_memory backend address size

def _backend_write_memory (vtable : ArvGvcpProxyBackendVTable σ) (backend : σ)
    (address size : Nat) (buffer : List Nat) : Bool × σ :=
  match vtable.write_memory with
  | none => (false, backend)
  | some write_memory => write_memory backend address size buffer

def _backend_write_register (vtable : ArvGvcpProxyBackendVTable σ) (backend : σ)
    (address value : Nat) : σ :=
  match vtable.write_register with
  | none => backend
  | some write_register => (write_register backend address value).2

/-- The 32-bit byte swap that `g_htonl` performs on a little-endian host. -/
def bswap32 (x : Nat) : Nat :=
  (x % 256) * 16777216 + (x / 256 % 256) * 65536 + (x / 65536 % 256) * 256 + x / 16777216 % 256

def g_htonl (k : ArvConstants) (x : Nat) : Nat :=
  if k.host_is_little_endian then bswap32 x else x

def _maybe_notify_stream_config (k : ArvConstants) (vtable : ArvGvcpProxyBackendVTable σ)
    (backend : σ) (address : Nat) : List StreamConfigCall :=
  if vtable.stream_config_changed = false ∧ vtable.stream_config_changed_ex = false then []
  else if address ≠ k.GVBS_STREAM_CHANNEL_0_IP_ADDRESS_OFFSET ∧
          address ≠ k.GVBS_STREAM_CHANNEL_0_PORT_OFFSET ∧
          address ≠ k.GVBS_STREAM_CHANNEL_0_PACKET_SIZE_OFFSET then []
  else
    match vtable.read_register with
    | none => []
    | some read_register =>
      let r_ip := read_register backend k.GVBS_STREAM_CHANNEL_0_IP_ADDRESS_OFFSET
      let r_port := read_register backend k.GVBS_STREAM_CHANNEL_0_PORT_OFFSET
      let r_size := read_register backend k.GVBS_STREAM_CHANNEL_0_PACKET_SIZE_OFFSET
      if !r_ip.1 then []
      else if !r_port.1 then []
      else if !r_size.1 then []
      else
        let stream_ip := r_ip.2
        let stream_port := r_port.2
        let packet_size := r_size.2
        let ip_be := g_htonl k stream_ip
        let is_multicast : Bool := (ip_be &&& 0xf0000000) == 0xe0000000
        let mac : List Nat :=
          if is_multicast then
            [0x01, 0x00, 0x5e, (ip_be >>> 16) &&& 0x7f, (ip_be >>> 8) &&& 0xff, ip_be &&& 0xff]
          else [0, 0, 0, 0, 0, 0]
        (if vtable.stream_config_changed then
          [{ extended := false, stream_ip := stream_ip, stream_port := stream_port % 65536,
             packet_size := packet_size, mac := [], is_multicast := false }]
         else []) ++
        (if vtable.stream_config_changed_ex then
          [{ extended := true, stream_ip := stream_ip, stream_port := stream_port % 65536,
             packet_size := packet_size, mac := mac, is_multicast := is_multicast }]
         else [])

def _proxy_release_controller (k : ArvConstants) (vtable : ArvGvcpProxyBackendVTable σ)
    (proxy : ArvGvcpProxy σ) : ArvGvcpProxy σ :=
  match proxy.controller_address with
  | none => proxy
  | some _ =>
    { proxy with
      controller_address := none
      backend := _backend_write_register vtable proxy.backend
                   k.GVBS_CONTROL_CHANNEL_PRIVILEGE_OFFSET 0 }

/-- What one run of `_handle_control_packet` leaves behind: the proxy state,
the datagrams passed to `g_socket_send_to`, the notification callbacks
invoked, and the returned `success`. -/
structure Handled (σ : Type) where
  proxy : ArvGvcpProxy σ
  sent : List (GInetSocketAddress × ArvGvcpAck)
  notified : List StreamConfigCall
  success : Bool

/-- Lines 198-220: the heartbeat check and the `write_access` decision. -/
def controller_check (k : ArvConstants) (vtable : ArvGvcpProxyBackendVTable σ)
    (proxy : ArvGvcpProxy σ) (remote_address : GInetSocketAddress) (time : Int) :
    ArvGvcpProxy σ × Bool :=
  match proxy.controller_address with
  | some controller_address =>
    let heartbeat_timeout_ms :=
      _backend_read_register vtable proxy.backend k.GVBS_HEARTBEAT_TIMEOUT_OFFSET 3000
    if elapsed_ms time proxy.controller_time > heartbeat_timeout_ms then
      (_proxy_release_controller k vtable proxy, true)
    else
      (proxy, _g_inet_socket_address_is_equal remote_address controller_address)
  | none => (proxy, true)

/-- Lines 232-296: the `switch` on the command.  Returns the proxy state, the
ack packet (`none` for `NULL`) and the notification callbacks invoked. -/
def dispatch (k : ArvConstants) (vtable : ArvGvcpProxyBackendVTable σ)
    (proxy : ArvGvcpProxy σ) (packet : ArvGvcpPacket) (write_access : Bool) (time : Int) :
    ArvGvcpProxy σ × Option ArvGvcpAck × List StreamConfigCall :=
  let packet_id := packet.packet_id
  match packet.command with
  | .DISCOVERY_CMD =>
    (proxy,
     some (.discovery_ack packet_id
       (_backend_read_memory vtable proxy.backend 0 k.GVBS_DISCOVERY_DATA_SIZE).2), [])
  | .READ_MEMORY_CMD =>
    let block_address := packet.read_memory_cmd_infos.1
    let block_size := packet.read_memory_cmd_infos.2
    (proxy,
     some (.read_memory_ack block_address block_size packet_id
       (_backend_read_memory vtable proxy.backend block_address block_size).2), [])
  | .WRITE_MEMORY_CMD =>
    let block_address := packet.write_memory_cmd_infos.1
    let block_size := packet.write_memory_cmd_infos.2
    if !write_access then (proxy, none, [])
    else
      ({ proxy with
         backend := (_backend_write_memory vtable proxy.backend block_address block_size
                       packet.write_memory_cmd_data).2 },
       some (.write_memory_ack block_address packet_id), [])
  | .READ_REGISTER_CMD =>
    let register_address := packet.read_register_cmd_infos
    let register_value :=
      match vtable.read_register with
      | none => 0
      | some read_register => (read_register proxy.backend register_address).2
    ((if register_address = k.GVBS_CONTROL_CHANNEL_PRIVILEGE_OFFSET then
        { proxy with controller_time := time }
      else proxy),
     some (.read_register_ack register_value packet_id), [])
  | .WRITE_REGISTER_CMD =>
    let register_address := packet.write_register_cmd_infos.1
    let register_value := packet.write_register_cmd_infos.2
    if !write_access then (proxy, none, [])
    else
      let backend :=
        match vtable.write_register with
        | none => proxy.backend
        | some write_register =>
          (write_register proxy.backend register_address register_value).2
      ({ proxy with backend := backend },
       some (.write_register_ack 1 packet_id),
       _maybe_notify_stream_config k vtable backend register_address)
  | .UNKNOWN _ => (proxy, none, [])

/-- Lines 306-317: the ownership update after the command. -/
def controller_update (k : ArvConstants) (vtable : ArvGvcpProxyBackendVTable σ)
    (proxy : ArvGvcpProxy σ) (remote_address : GInetSocketAddress) (time : Int) :
    ArvGvcpProxy σ :=
  if proxy.controller_address = none ∧
     _backend_read_register vtable proxy.backend k.GVBS_CONTROL_CHANNEL_PRIVILEGE_OFFSET 0 ≠ 0 then
    { proxy with controller_address := some remote_address, controller_time := time }
  else if proxy.controller_address ≠ none ∧
     _backend_read_register vtable proxy.backend k.GVBS_CONTROL_CHANNEL_PRIVILEGE_OFFSET 0 = 0 then
    { _proxy_release_controller k vtable proxy with controller_time := time }
  else proxy

def _handle_control_packet (k : ArvConstants) (vtable : ArvGvcpProxyBackendVTable σ)
    (proxy : ArvGvcpProxy σ) (remote_address : GInetSocketAddress)
    (packet : ArvGvcpPacket) (now : RealTime) : Handled σ :=
  let checked := controller_check k vtable proxy remote_address now.at_check
  let write_access := checked.2
  if packet.packet_type ≠ k.GVCP_PACKET_TYPE_CMD then
    { proxy := checked.1, sent := [], notified := [], success := false }
  else
    let handled := dispatch k vtable checked.1 packet write_access now.at_read
    let ack_packet := handled.2.1
    { proxy := controller_update k vtable handled.1 remote_address now.at_update
      sent := match ack_packet with
              | some ack => [(remote_address, ack)]
              | none => []
      notified := handled.2.2
      success := ack_packet.isSome }

end arvgvcpproxy

/-! ## The GStreamer sink, `gstaravissink.c` -/

/-- The fields of `GstAravisSinkPrivate` that the control and render paths
use.  The field `camera` is `none` when `ARV_IS_FAKE_CAMERA (priv->camera)`
fails (before start, after stop). -/
structure GstAravisSinkPrivate (σ : Type) where
  camera : Option σ
  controller_address : Option GInetSocketAddress
  controller_time : Int
  frame_id : Nat
  width : Nat
  height : Nat
  pixel_format : Nat
  default_width : Nat
  default_height : Nat
  default_pixel_format : Nat
  packet_buffer_size : Nat

/-- A GVSP packet: one constructor per `arv_gvsp_packet_new_*` builder of
`arvgvspprivate.h` (not among the sources), holding the arguments the builder
is called with; for a payload packet the `data_size` bytes at `payload + offset`. -/
inductive ArvGvspPacket where
  | image_leader (frame_id block_id timestamp_ns pixel_format width height
      x_offset y_offset x_padding y_padding : Nat)
  | payload (frame_id block_id : Nat) (data : List Nat)
  | data_trailer (frame_id block_id height : Nat)
deriving DecidableEq

/-- A buffer handed to the sink: the bytes `gst_buffer_map` exposes (`none`
when mapping fails) and the presentation timestamp when it is valid. -/
structure GstBuffer where
  map : Option (List Nat)
  pts : Option Nat

inductive GstFlowReturn where
  | GST_FLOW_OK
  | GST_FLOW_ERROR
deriving DecidableEq

namespace gstaravissink

variable {σ : Type}

/-- What one run of the sink's `_handle_control_packet` leaves behind. -/
structure Handled (σ : Type) where
  priv : GstAravisSinkPrivate σ
  sent : List (GInetSocketAddress × ArvGvcpAck)
  success : Bool

/-- Lines 153-173: the heartbeat check and the `write_access` decision. -/
def controller_check (k : ArvConstants) (cam : ArvFakeCamera σ)
    (priv : GstAravisSinkPrivate σ) (camera : σ) (remote_address : GInetSocketAddress)
    (time : Int) : GstAravisSinkPrivate σ × σ × Bool :=
  match priv.controller_address with
  | some controller_address =>
    if elapsed_ms time priv.controller_time >
        arv_fake_camera_get_heartbeat_timeout k cam camera then
      ({ priv with controller_address := none },
       arv_fake_camera_set_control_channel_privilege k cam camera 0, true)
    else
      (priv, camera, _g_inet_socket_address_is_equal remote_address controller_address)
  | none => (priv, camera, true)

/-- Lines 184-245: the `switch` on the command. -/
def dispatch (k : ArvConstants) (cam : ArvFakeCamera σ)
    (priv : GstAravisSinkPrivate σ) (camera : σ) (packet : ArvGvcpPacket)
    (write_access : Bool) (time : Int) :
    GstAravisSinkPrivate σ × σ × Option ArvGvcpAck :=
  let packet_id := packet.packet_id
  match packet.command with
  | .DISCOVERY_CMD =>
    (priv, camera,
     some (.discovery_ack packet_id (cam.read_memory camera 0 k.GVBS_DISCOVERY_DATA_SIZE).2))
  | .READ_MEMORY_CMD =>
    let block_address := packet.read_memory_cmd_infos.1
    let block_size := packet.read_memory_cmd_infos.2
    (priv, camera,
     some (.read_memory_ack block_address block_size packet_id
       (cam.read_memory camera block_address block_size).2))
  | .WRITE_MEMORY_CMD =>
    let block_address := packet.write_memory_cmd_infos.1
    let block_size := packet.write_memory_cmd_infos.2
    if !write_access then (priv, camera, none)
    else
      (priv,
       (cam.write_memory camera block_address block_size packet.write_memory_cmd_data).2,
       some (.write_memory_ack block_address packet_id))
  | .READ_REGISTER_CMD =>
    let register_address := packet.read_register_cmd_infos
    let register_value := (cam.read_register camera register_address).2
    ((if register_address = k.GVBS_CONTROL_CHANNEL_PRIVILEGE_OFFSET then
        { priv with controller_time := time }
      else priv),
     camera, some (.read_register_ack register_value packet_id))
  | .WRITE_REGISTER_CMD =>
    let register_address := packet.write_register_cmd_infos.1
    let register_value := packet.write_register_cmd_infos.2
    if !write_access then (priv, camera, none)
    else
      (priv, (cam.write_register camera register_address register_value).2,
       some (.write_register_ack 1 packet_id))
  | .UNKNOWN _ => (priv, camera, none)

/-- Lines 247-259: the ownership update after the command. -/
def controller_update (k : ArvConstants) (cam : ArvFakeCamera σ)
    (priv : GstAravisSinkPrivate σ) (camera : σ) (remote_address : GInetSocketAddress)
    (time : Int) : GstAravisSinkPrivate σ :=
  if priv.controller_address = none ∧
     arv_fake_camera_get_control_channel_privilege k cam camera ≠ 0 then
    { priv with controller_address := some remote_address, controller_time := time }
  else if priv.controller_address ≠ none ∧
     arv_fake_camera_get_control_channel_privilege k cam camera = 0 then
    { priv with controller_address := none, controller_time := time }
  else priv

/-- The sink's `_handle_control_packet`.  The source dereferences
`priv->camera` unchecked: the GVCP thread runs only between start and stop,
while the camera exists.  With no camera the model leaves the state alone. -/
def _handle_control_packet (k : ArvConstants) (cam : ArvFakeCamera σ)
    (priv : GstAravisSinkPrivate σ) (remote_address : GInetSocketAddress)
    (packet : ArvGvcpPacket) (now : RealTime) : Handled σ :=
  match priv.camera with
  | none => { priv := priv, sent := [], success := false }
  | some camera =>
    let checked := controller_check k cam priv camera remote_address now.at_check
    let write_access := checked.2.2
    if packet.packet_type ≠ k.GVCP_PACKET_TYPE_CMD then
      { priv := { checked.1 with camera := some checked.2.1 }, sent := [], success := false }
    else
      let handled := dispatch k cam checked.1 checked.2.1 packet write_access now.at_read
      let ack_packet := handled.2.2
      { priv := { controller_update k cam handled.1 handled.2.1 remote_address now.at_update
                  with camera := some handled.2.1 }
        sent := match ack_packet with
                | some ack => [(remote_address, ack)]
                | none => []
        success := ack_packet.isSome }

/-- What one run of `gst_aravis_sink_render` leaves behind: the returned flow,
the sink state and the datagrams sent on the GVSP socket, in order. -/
structure Rendered (σ : Type) where
  flow : GstFlowReturn
  priv : GstAravisSinkPrivate σ
  sent : List (GInetSocketAddress × ArvGvspPacket)

/-- Lines 580-584: the size field of the packet-size register, 1400 when it
is zero, then `CLAMP (.., MINIMUM, MAXIMUM)`. -/
def gv_packet_size (k : ArvConstants) (packet_size_register : Nat) : Nat :=
  let size := (packet_size_register >>> k.GVBS_STREAM_CHANNEL_0_PACKET_SIZE_POS) &&&
    k.GVBS_STREAM_CHANNEL_0_PACKET_SIZE_MASK
  let size := if size = 0 then 1400 else size
  if size > k.GVSP_MAXIMUM_PACKET_SIZE then k.GVSP_MAXIMUM_PACKET_SIZE
  else if size < k.GVSP_MINIMUM_PACKET_SIZE then k.GVSP_MINIMUM_PACKET_SIZE
  else size

/-- Line 586: `gv_packet_size - ARV_GVSP_PACKET_PROTOCOL_OVERHEAD (FALSE)` in
`guint32` arithmetic. -/
def gv_packet_payload (k : ArvConstants) (size : Nat) : Nat :=
  (((size : Int) - (k.GVSP_PACKET_PROTOCOL_OVERHEAD : Int)) % 4294967296).toNat

/-- Lines 588-590: the frame id used for the next frame (`guint16`). -/
def next_frame_id (frame_id : Nat) : Nat :=
  let frame_id := (frame_id + 1) % 65536
  if frame_id = 0 then 1 else frame_id

/-- Lines 610-624: the `while (offset < payload_size)` loop.  Each unit of
fuel pays for one evaluation of the loop condition; `none` means the fuel ran
out before the loop ended.  Returns the payload packets in emission order and
the final `block_id` (`guint16`). -/
def payload_loop (frame_id gv_packet_payload : Nat) (payload : List Nat) :
    Nat → Nat → Nat → Option (List ArvGvspPacket × Nat)
  | 0, _, _ => none
  | fuel + 1, offset, block_id =>
    if offset < payload.length then
      let data_size := min gv_packet_payload (payload.length - offset)
      let packet := ArvGvspPacket.payload frame_id block_id ((payload.drop offset).take data_size)
      match payload_loop frame_id gv_packet_payload payload fuel (offset + data_size)
              ((block_id + 1) % 65536) with
      | none => none
      | some (packets, last) => some (packet :: packets, last)
    else some ([], block_id)

/-- The function `gst_aravis_sink_render`.  The argument `real_time` is the
reading of `g_get_real_time ()` used when the buffer has no valid PTS. -/
def gst_aravis_sink_render (k : ArvConstants) (cam : ArvFakeCamera σ) (fuel : Nat)
    (priv : GstAravisSinkPrivate σ) (buffer : GstBuffer) (real_time : Int) :
    Option (Rendered σ) :=
  match priv.camera with
  | none => some { flow := .GST_FLOW_ERROR, priv := priv, sent := [] }
  | some camera =>
    if arv_fake_camera_get_control_channel_privilege k cam camera = 0 ∨
       arv_fake_camera_get_acquisition_status k cam camera = 0 then
      some { flow := .GST_FLOW_OK, priv := priv, sent := [] }
    else
      match cam.get_stream_address camera with
      | none => some { flow := .GST_FLOW_OK, priv := priv, sent := [] }
      | some stream_address =>
        if stream_address.address = 0 ∨ stream_address.port = 0 then
          some { flow := .GST_FLOW_OK, priv := priv, sent := [] }
        else
          match buffer.map with
          | none => some { flow := .GST_FLOW_ERROR, priv := priv, sent := [] }
          | some payload =>
            let packet_size_register :=
              (cam.read_register camera k.GVBS_STREAM_CHANNEL_0_PACKET_SIZE_OFFSET).2
            let size := gv_packet_size k packet_size_register
            let payload_size := gv_packet_payload k size
            let frame_id := next_frame_id priv.frame_id
            let timestamp_ns :=
              match buffer.pts with
              | some pts => pts
              | none => ((real_time * 1000) % 18446744073709551616).toNat
            let leader := ArvGvspPacket.image_leader frame_id 0 timestamp_ns priv.pixel_format
              priv.width priv.height 0 0 0 0
            match payload_loop frame_id payload_size payload fuel 0 1 with
            | none => none
            | some (packets, block_id) =>
              let trailer := ArvGvspPacket.data_trailer frame_id block_id priv.height
              some { flow := .GST_FLOW_OK
                     priv := { priv with frame_id := frame_id }
                     sent := (leader :: (packets ++ [trailer])).map
                               (fun packet => (stream_address, packet)) }

end gstaravissink

/-! ## The fake backend, `arvgvcpproxy-backend.c` -/

namespace arvgvcpproxy_backend

variable {σ : Type}

def _fake_read_memory (cam : ArvFakeCamera σ) (camera : σ) (address size : Nat) :
    Bool × List Nat :=
  cam.read_memory camera address size

def _fake_write_memory (cam : ArvFakeCamera σ) (camera : σ) (address size : Nat)
    (buffer : List Nat) : Bool × σ :=
  cam.write_memory camera address size buffer

def _fake_read_register (cam : ArvFakeCamera σ) (camera : σ) (address : Nat) : Bool × Nat :=
  cam.read_register camera address

def _fake_write_register (cam : ArvFakeCamera σ) (camera : σ) (address value : Nat) :
    Bool × σ :=
  cam.write_register camera address value

def _fake_set_inet_address (cam : ArvFakeCamera σ) (camera : σ) (address : Nat) : σ :=
  cam.set_inet_address camera address

def _fake_destroy (_camera : σ) : Unit := ()

/-- The table `fake_vtable`: six entries; it names no notification callback. -/
def fake_vtable (cam : ArvFakeCamera σ) : ArvGvcpProxyBackendVTable σ where
  read_memory := some (_fake_read_memory cam)
  write_memory := some (_fake_write_memory cam)
  read_register := some (_fake_read_register cam)
  write_register := some (_fake_write_register cam)
  set_inet_address := some (_fake_set_inet_address cam)
  destroy := some _fake_destroy
  stream_config_changed := false
  stream_config_changed_ex := false

end arvgvcpproxy_backend

/-! ## A concrete camera and concrete constants, used to instantiate the theorems -/

/-- Modelled from the spec: the simulated camera is missing from the sources.
Per the spec its state is a raw byte memory (`0x10000` octets, address to
byte); `read_memory` returns the bytes at `address .. address + size`,
`write_memory` stores bytes, and a register is the big-endian 32-bit value of
the four bytes at its offset. -/
def memory_camera : ArvFakeCamera (Nat → Nat) where
  read_memory := fun memory address size =>
    (true, (List.range size).map (fun i => memory (address + i)))
  write_memory := fun memory address size buffer =>
    if address + size > 65536 then (false, memory)
    else (true, fun a =>
      if address ≤ a ∧ a < address + size then buffer.getD (a - address) 0 else memory a)
  read_register := fun memory address =>
    (true, memory address * 16777216 + memory (address + 1) * 65536 +
           memory (address + 2) * 256 + memory (address + 3))
  write_register := fun memory address value =>
    if address + 4 > 65536 then (false, memory)
    else (true, fun a =>
      if a = address then value / 16777216 % 256
      else if a = address + 1 then value / 65536 % 256
      else if a = address + 2 then value / 256 % 256
      else if a = address + 3 then value % 256
      else memory a)
  get_stream_address := fun memory =>
    some { address := memory 3352 * 16777216 + memory 3353 * 65536 +
                      memory 3354 * 256 + memory 3355
           port := memory 3330 * 256 + memory 3331 }
  set_inet_address := fun memory _ => memory

/-- Modelled from the spec: the constants are missing from the sources.  The
spec gives `CONTROL_CHANNEL_PRIVILEGE = 0x0A00`, packet type `0x42` for a
command, a descriptor of 248 bytes, a 16-bit size field in the low bits of
the packet-size register and packet sizes `576..9000`.  The remaining values
(GigE Vision bootstrap offsets, 36 bytes of IP, UDP and GVSP headers, camera
register offsets) only serve to instantiate the theorems, which hold for
every value of the constants. -/
def gige_constants : ArvConstants where
  GVBS_CONTROL_CHANNEL_PRIVILEGE_OFFSET := 0x0a00
  GVBS_HEARTBEAT_TIMEOUT_OFFSET := 0x0938
  GVBS_STREAM_CHANNEL_0_IP_ADDRESS_OFFSET := 0x0d18
  GVBS_STREAM_CHANNEL_0_PORT_OFFSET := 0x0d00
  GVBS_STREAM_CHANNEL_0_PACKET_SIZE_OFFSET := 0x0d04
  GVBS_STREAM_CHANNEL_0_PACKET_SIZE_POS := 0
  GVBS_STREAM_CHANNEL_0_PACKET_SIZE_MASK := 0xffff
  GVBS_DISCOVERY_DATA_SIZE := 248
  GVCP_PACKET_TYPE_CMD := 0x42
  GVSP_MINIMUM_PACKET_SIZE := 576
  GVSP_MAXIMUM_PACKET_SIZE := 9000
  GVSP_PACKET_PROTOCOL_OVERHEAD := 36
  FAKE_CAMERA_REGISTER_SENSOR_WIDTH := 0x11c
  FAKE_CAMERA_REGISTER_SENSOR_HEIGHT := 0x118
  FAKE_CAMERA_REGISTER_WIDTH := 0x100
  FAKE_CAMERA_REGISTER_HEIGHT := 0x104
  FAKE_CAMERA_REGISTER_X_OFFSET := 0x130
  FAKE_CAMERA_REGISTER_Y_OFFSET := 0x134
  FAKE_CAMERA_REGISTER_BINNING_HORIZONTAL := 0x108
  FAKE_CAMERA_REGISTER_BINNING_VERTICAL := 0x10c
  FAKE_CAMERA_REGISTER_PIXEL_FORMAT := 0x128
  FAKE_CAMERA_REGISTER_ACQUISITION := 0x124
  host_is_little_endian := true

/-- A camera memory in which peer control is taken: privilege register 2,
heartbeat timeout 3000 ms, acquisition running, stream programmed to
127.0.0.1:20202 with packet size 1500. -/
def controlled_memory : Nat → Nat := fun a =>
  if a = 0x0a03 then 2
  else if a = 0x093a then 0x0b else if a = 0x093b then 0xb8
  else if a = 0x127 then 1
  else if a = 0x0d18 then 127 else if a = 0x0d1b then 1
  else if a = 0x0d02 then 0x4e else if a = 0x0d03 then 0xea
  else if a = 0x0d06 then 0x05 else if a = 0x0d07 then 0xdc
  else 0

def peer_A : GInetSocketAddress := { address := 0x7f000001, port := 40000 }

def peer_B : GInetSocketAddress := { address := 0x7f000001, port := 40001 }

/-- A command packet: the fields a command does not use are zero. -/
def command_packet (command : ArvGvcpCommand) (packet_id address value : Nat) : ArvGvcpPacket where
  packet_type := 0x42
  packet_id := packet_id
  command := command
  read_memory_cmd_infos := (address, value)
  write_memory_cmd_infos := (address, 4)
  write_memory_cmd_data :=
    [value / 16777216 % 256, value / 65536 % 256, value / 256 % 256, value % 256]
  read_register_cmd_infos := address
  write_register_cmd_infos := (address, value)

def proxy_controlled_by_A : ArvGvcpProxy (Nat → Nat) where
  backend := controlled_memory
  controller_address := some peer_A
  controller_time := 1000000

def sink_controlled_by_A : GstAravisSinkPrivate (Nat → Nat) where
  camera := some controlled_memory
  controller_address := some peer_A
  controller_time := 1000000
  frame_id := 0
  width := 640
  height := 480
  pixel_format := 0x01080001
  default_width := 640
  default_height := 480
  default_pixel_format := 0x01100007
  packet_buffer_size := 9000

/-- Clock readings one second after the last contact of the controller. -/
def one_second_later : RealTime := { at_check := 2000000, at_read := 2000001, at_update := 2000002 }

/-- Clock readings four seconds after the last contact of the controller. -/
def four_seconds_later : RealTime :=
  { at_check := 5000000, at_read := 5000001, at_update := 5000002 }

/-- Clock readings 3000.999 ms after the last contact of the controller: the
timeout of 3000 ms is exceeded by less than one millisecond. -/
def just_past_timeout : RealTime :=
  { at_check := 4000999, at_read := 4001000, at_update := 4001001 }

/-- The `block_id` argument a GVSP packet was built with. -/
def ArvGvspPacket.block_id : ArvGvspPacket → Nat
  | .image_leader _ block_id _ _ _ _ _ _ _ _ => block_id
  | .payload _ block_id _ => block_id
  | .data_trailer _ block_id _ => block_id

/-- The `frame_id` argument a GVSP packet was built with. -/
def ArvGvspPacket.frame_id : ArvGvspPacket → Nat
  | .image_leader frame_id _ _ _ _ _ _ _ _ _ => frame_id
  | .payload frame_id _ _ => frame_id
  | .data_trailer frame_id _ _ => frame_id

/-- The data section of a GVSP packet: the bytes of a payload packet, nothing
for a leader or trailer. -/
def ArvGvspPacket.data : ArvGvspPacket → List Nat
  | .payload _ _ data => data
  | _ => []

def ArvGvspPacket.is_leader : ArvGvspPacket → Bool
  | .image_leader .. => true
  | _ => false

def ArvGvspPacket.is_payload : ArvGvspPacket → Bool
  | .payload .. => true
  | _ => false

def ArvGvspPacket.is_trailer : ArvGvspPacket → Bool
  | .data_trailer .. => true
  | _ => false

/-- The number of pieces of at most `piece` bytes in `length` bytes,
`ceil (length / piece)`. -/
def pieces (length piece : Nat) : Nat := (length + piece - 1) / piece

/-- The function `gst_aravis_sink_init`: the private data of a GObject starts
zeroed, then the listed fields are set.  The two pixel-format constants
(`ARV_PIXEL_FORMAT_MONO_8`, `ARV_PIXEL_FORMAT_MONO_16`) are parameters. -/
def gstaravissink.gst_aravis_sink_init (σ : Type) (MONO_8 MONO_16 : Nat) :
    GstAravisSinkPrivate σ where
  camera := none
  controller_address := none
  controller_time := 0
  frame_id := 0
  width := 0
  height := 0
  pixel_format := MONO_8
  default_width := 640
  default_height := 480
  default_pixel_format := MONO_16
  packet_buffer_size := 0

/-- The host pipeline delivering buffers one after the other to a started
sink.  Each step carries the camera state found at that render (the GVCP
thread may have changed it in between), the buffer and the clock reading. -/
def gstaravissink.render_sequence {σ : Type} (k : ArvConstants) (cam : ArvFakeCamera σ)
    (fuel : Nat) : GstAravisSinkPrivate σ → List (σ × GstBuffer × Int) →
    Option (List (gstaravissink.Rendered σ))
  | _, [] => some []
  | priv, (camera, buffer, real_time) :: rest =>
    match gstaravissink.gst_aravis_sink_render k cam fuel { priv with camera := some camera }
            buffer real_time with
    | none => none
    | some rendered =>
      match gstaravissink.render_sequence k cam fuel rendered.priv rest with
      | none => none
      | some tail => some (rendered :: tail)

/-- A buffer of `n` zero bytes with a valid timestamp. -/
def zero_buffer (n : Nat) : GstBuffer := { map := some (List.replicate n 0), pts := some 1000 }

/-- The camera memory `controlled_memory` with the packet-size register set
to the minimum of 576 bytes. -/
def small_packet_memory : Nat → Nat := fun a =>
  if a = 0x0d06 then 0x02 else if a = 0x0d07 then 0x40 else controlled_memory a

/-- The camera memory `controlled_memory` with acquisition stopped. -/
def idle_memory : Nat → Nat := fun a => if a = 0x127 then 0 else controlled_memory a

/-- Clock readings ten seconds after the last contact of the controller. -/
def ten_seconds_later : RealTime :=
  { at_check := 11000000, at_read := 11000001, at_update := 11000002 }

/-- The `packet_id` argument an ack was built with. -/
def ArvGvcpAck.packet_id : ArvGvcpAck → Nat
  | .discovery_ack packet_id _ => packet_id
  | .read_memory_ack _ _ packet_id _ => packet_id
  | .write_memory_ack _ packet_id => packet_id
  | .read_register_ack _ packet_id => packet_id
  | .write_register_ack _ packet_id => packet_id

/-- The proxy state at the start of `main`: `memset (&proxy, 0, sizeof (proxy))`
followed by `proxy.backend = arv_gvcp_proxy_backend_new (..)`. -/
def arvgvcpproxy.initial_proxy {σ : Type} (backend : σ) : ArvGvcpProxy σ where
  backend := backend
  controller_address := none
  controller_time := 0

/-- The table `fake_vtable` with both notification callbacks registered.  The
sources define no such table; `_maybe_notify_stream_config` provides for it. -/
def notifying_vtable {σ : Type} (cam : ArvFakeCamera σ) : ArvGvcpProxyBackendVTable σ :=
  { arvgvcpproxy_backend.fake_vtable cam with
    stream_config_changed := true
    stream_config_changed_ex := true }

/-- The constants `gige_constants` on a big-endian host. -/
def gige_constants_big_endian : ArvConstants :=
  { gige_constants with host_is_little_endian := false }

/-- The two `G_IO_ERROR` codes that `arvgvcpproxy-backend.c` sets. -/
inductive GIOErrorEnum where
  | G_IO_ERROR_FAILED
  | G_IO_ERROR_NOT_SUPPORTED
deriving DecidableEq

/-- The structure `ArvGvcpProxyBackendFake`: the base (`vtable`, `name`) and
the camera. -/
structure ArvGvcpProxyBackendFake (σ : Type) where
  vtable : ArvGvcpProxyBackendVTable σ
  name : String
  camera : σ

/-- The function `_fake_backend_new`.  The argument `new_camera` is the result
of `arv_fake_camera_new_full (serial_number, genicam_filename)`, `none` when it
is not a fake camera. -/
def arvgvcpproxy_backend._fake_backend_new {σ : Type} (cam : ArvFakeCamera σ)
    (new_camera : Option σ) : Except GIOErrorEnum (ArvGvcpProxyBackendFake σ) :=
  match new_camera with
  | none => .error .G_IO_ERROR_FAILED
  | some camera =>
    .ok { vtable := arvgvcpproxy_backend.fake_vtable cam, name := "fake", camera := camera }

/-- The function `arv_gvcp_proxy_backend_new`; a `NULL` string is `none`.  The
camera constructor `arv_fake_camera_new_full` is a parameter. -/
def arvgvcpproxy_backend.arv_gvcp_proxy_backend_new {σ : Type} (cam : ArvFakeCamera σ)
    (arv_fake_camera_new_full : Option String → Option String → Option σ)
    (name serial_number genicam_filename : Option String) :
    Except GIOErrorEnum (ArvGvcpProxyBackendFake σ) :=
  if name = none ∨ name = some "fake" ∨ name = some "memory" then
    arvgvcpproxy_backend._fake_backend_new cam
      (arv_fake_camera_new_full serial_number genicam_filename)
  else .error .G_IO_ERROR_NOT_SUPPORTED

/-! ### Received datagrams

`_handle_control_packet` is called with the receive buffer and the byte count
of `g_socket_receive_message`.  The buffer is reused from one datagram to the
next, so its bytes from index `size` on are left over from earlier traffic. -/

/-- The parts of the codec of `arvgvcpprivate.h` on which the spec is silent,
as parameters: the classification of the 16-bit command code by the `case`
labels of the `switch`, the packet type reported for a refused packet, and
the command-specific accessors (each a function of the buffer and, where the
source passes it, of the received size). -/
structure ArvGvcpCodec where
  command_of_code : Nat → ArvGvcpCommand
  refused_packet_type : Nat
  get_read_memory_cmd_infos : List Nat → Nat → Nat × Nat
  get_write_memory_cmd_infos : List Nat → Nat → Nat × Nat
  get_write_memory_cmd_data : List Nat → List Nat
  get_read_register_cmd_infos : List Nat → Nat → Nat
  get_write_register_cmd_infos : List Nat → Nat → Nat × Nat

/-- Modelled from the spec: the codec of `arvgvcpprivate.h` is missing from the
sources.  Per the spec the header is `{packet_type: u8, packet_flags: u8,
command: u16, data_length: u16, packet_id: u16}`, big-endian, and the codec
refuses to parse a packet shorter than its header or whose `data_length`
exceeds the received datagram. -/
def arv_gvcp_packet_refused (buffer : List Nat) (size : Nat) : Bool :=
  decide (size < 8) || decide (size - 8 < buffer.getD 4 0 * 256 + buffer.getD 5 0)

/-- Modelled from the spec: `arv_gvcp_packet_get_packet_type (packet, size)` is
missing from the sources; it reports the first header byte, and for a packet
the codec refuses a type that is not a command. -/
def arv_gvcp_packet_get_packet_type (codec : ArvGvcpCodec) (buffer : List Nat) (size : Nat) :
    Nat :=
  if arv_gvcp_packet_refused buffer size then codec.refused_packet_type else buffer.getD 0 0

/-- Modelled from the spec: `arv_gvcp_packet_get_packet_id (packet, size)` is
missing from the sources; it reports the big-endian `packet_id` field of the
header, and 0 for a packet the codec refuses. -/
def arv_gvcp_packet_get_packet_id (buffer : List Nat) (size : Nat) : Nat :=
  if arv_gvcp_packet_refused buffer size then 0 else buffer.getD 6 0 * 256 + buffer.getD 7 0

/-- What `_handle_control_packet` obtains from `(packet, size)`: the two
size-checked header accessors, the raw read `g_ntohs (packet->header.command)`
(header bytes 2 and 3, whatever the size), and the command-specific
accessors. -/
def received_packet (codec : ArvGvcpCodec) (buffer : List Nat) (size : Nat) : ArvGvcpPacket where
  packet_type := arv_gvcp_packet_get_packet_type codec buffer size
  packet_id := arv_gvcp_packet_get_packet_id buffer size
  command := codec.command_of_code (buffer.getD 2 0 * 256 + buffer.getD 3 0)
  read_memory_cmd_infos := codec.get_read_memory_cmd_infos buffer size
  write_memory_cmd_infos := codec.get_write_memory_cmd_infos buffer size
  write_memory_cmd_data := codec.get_write_memory_cmd_data buffer
  read_register_cmd_infos := codec.get_read_register_cmd_infos buffer size
  write_register_cmd_infos := codec.get_write_register_cmd_infos buffer size

/-- A codec instance for concrete runs: GigE Vision command codes, error type
0x80 for a refused packet, big-endian 32-bit arguments after the header. -/
def sample_codec : ArvGvcpCodec where
  command_of_code := fun code =>
    if code = 0x0002 then .DISCOVERY_CMD
    else if code = 0x0080 then .READ_REGISTER_CMD
    else if code = 0x0082 then .WRITE_REGISTER_CMD
    else if code = 0x0084 then .READ_MEMORY_CMD
    else if code = 0x0086 then .WRITE_MEMORY_CMD
    else .UNKNOWN code
  refused_packet_type := 0x80
  get_read_memory_cmd_infos := fun buffer _ =>
    (buffer.getD 8 0 * 16777216 + buffer.getD 9 0 * 65536 + buffer.getD 10 0 * 256 +
       buffer.getD 11 0,
     buffer.getD 14 0 * 256 + buffer.getD 15 0)
  get_write_memory_cmd_infos := fun buffer _ =>
    (buffer.getD 8 0 * 16777216 + buffer.getD 9 0 * 65536 + buffer.getD 10 0 * 256 +
       buffer.getD 11 0,
     buffer.getD 4 0 * 256 + buffer.getD 5 0 - 4)
  get_write_memory_cmd_data := fun buffer => buffer.drop 12
  get_read_register_cmd_infos := fun buffer _ =>
    buffer.getD 8 0 * 16777216 + buffer.getD 9 0 * 65536 + buffer.getD 10 0 * 256 +
      buffer.getD 11 0
  get_write_register_cmd_infos := fun buffer _ =>
    (buffer.getD 8 0 * 16777216 + buffer.getD 9 0 * 65536 + buffer.getD 10 0 * 256 +
       buffer.getD 11 0,
     buffer.getD 12 0 * 16777216 + buffer.getD 13 0 * 65536 + buffer.getD 14 0 * 256 +
       buffer.getD 15 0)

/-- A receive buffer whose first bytes belong to the datagram at hand and
whose later bytes are left over from an earlier, complete
WRITE_REGISTER_CMD(0x0a00, 99) with packet id 7: read with `size = 4` it is a
truncated header, with `size = 8` a header announcing 8 data bytes of which
none was received. -/
def stale_write_buffer : List Nat :=
  [0x42, 0x01, 0x00, 0x82, 0x00, 0x08, 0x00, 0x07, 0x00, 0x00, 0x0a, 0x00, 0x00, 0x00, 0x00, 0x63]

/-! ## Start: sockets, poll array, default registers -/

/-- A bound UDP socket (`GSocket`), known by the descriptor `g_socket_get_fd`
reports for it. -/
structure GSocket where
  fd : Nat
deriving DecidableEq

/-- A poll entry (`GPollFD`). -/
structure GPollFD where
  fd : Nat
  events : Nat
  revents : Nat
deriving DecidableEq

/-- The GLib flag `G_IO_IN`. -/
def G_IO_IN : Nat := 1

/-- The interface record `ArvNetworkInterface` as start uses it: the local
IPv4 address and the broadcast address, as 32-bit numbers. -/
structure ArvNetworkInterface where
  addr : Nat
  broadaddr : Nat

/-- What the two external calls inside `_create_and_bind_input_socket` do:
`created` is the socket `g_socket_new` returns (`none` when it is not a
socket), `bound` tells whether `arv_socket_bind_with_range` returned a socket
address. -/
structure BindOutcome where
  created : Option GSocket
  bound : Bool

/-- Both copies of `_create_and_bind_input_socket`: the value stored in
`*socket_out` and the returned `G_IS_SOCKET (socket)`. -/
def _create_and_bind_input_socket (outcome : BindOutcome) : Option GSocket × Bool :=
  match outcome.created with
  | none => (none, false)
  | some socket =>
    let socket := if outcome.bound then some socket else none
    (socket, socket.isSome)

/-- The outcomes of the external calls of a start: the interface lookup
(`none` when no interface has the given address or name) and, for each socket
the start may try to create and bind, what that attempt does. -/
structure StartEnvironment where
  iface : Option ArvNetworkInterface
  gvsp : BindOutcome
  gvcp : BindOutcome
  global_discovery : BindOutcome
  subnet_discovery : BindOutcome

/-- The socket fields that `ArvGvcpProxy` and `GstAravisSinkPrivate` both
have: `input_sockets[3]` (an entry is `none` for `NULL`), `socket_fds[3]` and
`n_socket_fds`. -/
structure InputSockets where
  input_sockets : List (Option GSocket)
  socket_fds : List GPollFD
  n_socket_fds : Nat
deriving DecidableEq

/-- The socket fields before the first start: zeroed memory (`memset` in
`main` of the proxy, GObject private data in the sink). -/
def InputSockets.zeroed : InputSockets where
  input_sockets := [none, none, none]
  socket_fds := [{ fd := 0, events := 0, revents := 0 }, { fd := 0, events := 0, revents := 0 },
                 { fd := 0, events := 0, revents := 0 }]
  n_socket_fds := 0

/-- The loop `for (i = 0; i < N_INPUT_SOCKETS; i++)` of both starts that fills
`socket_fds`: `remaining` counts the iterations left, `i` is the socket slot,
`n_socket_fds` the separate counter that indexes the poll array. -/
def fill_socket_fds (input_sockets : List (Option GSocket)) :
    Nat → Nat → List GPollFD → Nat → List GPollFD × Nat
  | 0, _, socket_fds, n_socket_fds => (socket_fds, n_socket_fds)
  | remaining + 1, i, socket_fds, n_socket_fds =>
    match input_sockets.getD i none with
    | some socket =>
      fill_socket_fds input_sockets remaining (i + 1)
        (socket_fds.set n_socket_fds { fd := socket.fd, events := G_IO_IN, revents := 0 })
        (n_socket_fds + 1)
    | none => fill_socket_fds input_sockets remaining (i + 1) socket_fds n_socket_fds

/-- The per-socket part of both receive loops (`main` of the proxy,
`_gvcp_thread` of the sink) up to the readiness clear: for each slot `i` in
`0..2` holding a socket, the poll entry `socket_fds[i]` and the socket that
`arv_gpollfd_clear_one (&socket_fds[i], socket)` is called with. -/
def readiness_clears (sockets : InputSockets) : List (Nat × GPollFD × GSocket) :=
  (List.range 3).filterMap (fun i =>
    match sockets.input_sockets.getD i none with
    | some socket =>
      some (i, sockets.socket_fds.getD i { fd := 0, events := 0, revents := 0 }, socket)
    | none => none)

/-- What `_proxy_start` leaves behind: the returned flag, the proxy state and
the socket fields. -/
structure arvgvcpproxy.Started (σ : Type) where
  success : Bool
  proxy : ArvGvcpProxy σ
  sockets : InputSockets

/-- The function `_proxy_start`.  The address 255.255.255.255 is the number
`0xffffffff`. -/
def arvgvcpproxy._proxy_start {σ : Type} (vtable : ArvGvcpProxyBackendVTable σ)
    (proxy : ArvGvcpProxy σ) (sockets : InputSockets) (env : StartEnvironment) :
    arvgvcpproxy.Started σ :=
  match env.iface with
  | none => { success := false, proxy := proxy, sockets := sockets }
  | some iface =>
    let gvcp_inet_address := iface.addr
    let backend :=
      match vtable.set_inet_address with
      | none => proxy.backend
      | some set_inet_address => set_inet_address proxy.backend gvcp_inet_address
    let input_sockets :=
      sockets.input_sockets.set 0 (_create_and_bind_input_socket env.gvcp).1
    let input_sockets :=
      if gvcp_inet_address ≠ 0xffffffff then
        input_sockets.set 1 (_create_and_bind_input_socket env.global_discovery).1
      else input_sockets
    let input_sockets :=
      if gvcp_inet_address ≠ iface.broadaddr then
        input_sockets.set 2 (_create_and_bind_input_socket env.subnet_discovery).1
      else input_sockets
    let filled := fill_socket_fds input_sockets 3 0 sockets.socket_fds 0
    { success := true
      proxy := { proxy with backend := backend }
      sockets := { input_sockets := input_sockets, socket_fds := filled.1,
                   n_socket_fds := filled.2 } }

/-- The function `_apply_default_registers` of the sink. -/
def gstaravissink._apply_default_registers {σ : Type} (k : ArvConstants) (cam : ArvFakeCamera σ)
    (priv : GstAravisSinkPrivate σ) : GstAravisSinkPrivate σ :=
  match priv.camera with
  | none => priv
  | some camera =>
    let camera := (cam.write_register camera k.FAKE_CAMERA_REGISTER_SENSOR_WIDTH
      priv.default_width).2
    let camera := (cam.write_register camera k.FAKE_CAMERA_REGISTER_SENSOR_HEIGHT
      priv.default_height).2
    let camera := (cam.write_register camera k.FAKE_CAMERA_REGISTER_WIDTH priv.default_width).2
    let camera := (cam.write_register camera k.FAKE_CAMERA_REGISTER_HEIGHT priv.default_height).2
    let camera := (cam.write_register camera k.FAKE_CAMERA_REGISTER_X_OFFSET 0).2
    let camera := (cam.write_register camera k.FAKE_CAMERA_REGISTER_Y_OFFSET 0).2
    let camera := (cam.write_register camera k.FAKE_CAMERA_REGISTER_BINNING_HORIZONTAL 1).2
    let camera := (cam.write_register camera k.FAKE_CAMERA_REGISTER_BINNING_VERTICAL 1).2
    let camera := (cam.write_register camera k.FAKE_CAMERA_REGISTER_PIXEL_FORMAT
      priv.default_pixel_format).2
    { priv with
      camera := some camera
      width := priv.default_width
      height := priv.default_height
      pixel_format := priv.default_pixel_format }

/-- What `gst_aravis_sink_start` leaves behind: the returned flag, the sink
state, the GVSP socket and the socket fields. -/
structure gstaravissink.Started (σ : Type) where
  success : Bool
  priv : GstAravisSinkPrivate σ
  gvsp_socket : Option GSocket
  sockets : InputSockets

/-- The function `gst_aravis_sink_start`.  The argument `new_camera` is the
result of `arv_fake_camera_new_full (..)`, `none` when it is not a fake camera. -/
def gstaravissink.gst_aravis_sink_start {σ : Type} (k : ArvConstants) (cam : ArvFakeCamera σ)
    (priv : GstAravisSinkPrivate σ) (gvsp_socket : Option GSocket) (sockets : InputSockets)
    (new_camera : Option σ) (env : StartEnvironment) : gstaravissink.Started σ :=
  match new_camera with
  | none =>
    { success := false, priv := { priv with camera := none }, gvsp_socket := gvsp_socket,
      sockets := sockets }
  | some camera =>
    match env.iface with
    | none =>
      { success := false, priv := { priv with camera := none }, gvsp_socket := gvsp_socket,
        sockets := sockets }
    | some iface =>
      let gvcp_inet_address := iface.addr
      let camera := cam.set_inet_address camera gvcp_inet_address
      let gvsp := _create_and_bind_input_socket env.gvsp
      if !gvsp.2 then
        { success := false, priv := { priv with camera := none }, gvsp_socket := gvsp.1,
          sockets := sockets }
      else
        let gvcp := _create_and_bind_input_socket env.gvcp
        let input_sockets := sockets.input_sockets.set 0 gvcp.1
        if !gvcp.2 then
          { success := false, priv := { priv with camera := none }, gvsp_socket := none,
            sockets := { sockets with input_sockets := input_sockets } }
        else
          let input_sockets :=
            if gvcp_inet_address ≠ 0xffffffff then
              input_sockets.set 1 (_create_and_bind_input_socket env.global_discovery).1
            else input_sockets
          let input_sockets :=
            if gvcp_inet_address ≠ iface.broadaddr then
              input_sockets.set 2 (_create_and_bind_input_socket env.subnet_discovery).1
            else input_sockets
          let filled := fill_socket_fds input_sockets 3 0 sockets.socket_fds 0
          let priv :=
            { priv with camera := some camera, packet_buffer_size := k.GVSP_MAXIMUM_PACKET_SIZE }
          { success := true
            priv := gstaravissink._apply_default_registers k cam priv
            gvsp_socket := gvsp.1
            sockets := { input_sockets := input_sockets, socket_fds := filled.1,
                         n_socket_fds := filled.2 } }

/-- The first structure of the caps as `gst_aravis_sink_set_caps` reads it:
its name, the string field "format" (`none` for `NULL`) and the four `int`
fields, each 0 when the structure has no such field. -/
structure GstStructure where
  name : String
  format : Option String
  width : Int
  height : Int
  depth : Int
  bpp : Int

/-- The function `gst_aravis_sink_set_caps`.  The translation
`arv_pixel_format_from_gst_caps (name, format, bpp, depth)` is not among the
sources and is a parameter; it returns 0 for caps with no pixel format.  The
`gint` width and height are stored and written as `guint32`. -/
def gstaravissink.gst_aravis_sink_set_caps {σ : Type} (k : ArvConstants)
    (cam : ArvFakeCamera σ)
    (arv_pixel_format_from_gst_caps : String → Option String → Int → Int → Nat)
    (priv : GstAravisSinkPrivate σ) (structure_0 : GstStructure) :
    Bool × GstAravisSinkPrivate σ :=
  let width := (structure_0.width % 4294967296).toNat
  let height := (structure_0.height % 4294967296).toNat
  let pixel_format := arv_pixel_format_from_gst_caps structure_0.name structure_0.format
    structure_0.bpp structure_0.depth
  if pixel_format = 0 then (false, priv)
  else
    let priv := { priv with pixel_format := pixel_format, width := width, height := height }
    match priv.camera with
    | none => (true, priv)
    | some camera =>
      let camera := (cam.write_register camera k.FAKE_CAMERA_REGISTER_SENSOR_WIDTH width).2
      let camera := (cam.write_register camera k.FAKE_CAMERA_REGISTER_SENSOR_HEIGHT height).2
      let camera := (cam.write_register camera k.FAKE_CAMERA_REGISTER_WIDTH width).2
      let camera := (cam.write_register camera k.FAKE_CAMERA_REGISTER_HEIGHT height).2
      let camera := (cam.write_register camera k.FAKE_CAMERA_REGISTER_X_OFFSET 0).2
      let camera := (cam.write_register camera k.FAKE_CAMERA_REGISTER_Y_OFFSET 0).2
      let camera := (cam.write_register camera k.FAKE_CAMERA_REGISTER_BINNING_HORIZONTAL 1).2
      let camera := (cam.write_register camera k.FAKE_CAMERA_REGISTER_BINNING_VERTICAL 1).2
      let camera := (cam.write_register camera k.FAKE_CAMERA_REGISTER_PIXEL_FORMAT
        pixel_format).2
      (true, { priv with camera := some camera })

/-- The nine camera registers that `_apply_default_registers` and
`gst_aravis_sink_set_caps` write, in the order of the writes. -/
def geometry_registers (k : ArvConstants) : List Nat :=
  [k.FAKE_CAMERA_REGISTER_SENSOR_WIDTH, k.FAKE_CAMERA_REGISTER_SENSOR_HEIGHT,
   k.FAKE_CAMERA_REGISTER_WIDTH, k.FAKE_CAMERA_REGISTER_HEIGHT,
   k.FAKE_CAMERA_REGISTER_X_OFFSET, k.FAKE_CAMERA_REGISTER_Y_OFFSET,
   k.FAKE_CAMERA_REGISTER_BINNING_HORIZONTAL, k.FAKE_CAMERA_REGISTER_BINNING_VERTICAL,
   k.FAKE_CAMERA_REGISTER_PIXEL_FORMAT]

/-- A run of `arv_fake_camera_write_register` calls, each an address and a
value, the return flags ignored as in the sources. -/
def write_registers {σ : Type} (cam : ArvFakeCamera σ) : σ → List (Nat × Nat) → σ
  | camera, [] => camera
  | camera, (address, value) :: rest =>
    write_registers cam (cam.write_register camera address value).2 rest

/-- Modelled from the spec: the builder `arv_gvsp_packet_new_payload` is
missing from the sources; per the spec a packet is the fixed GVSP header
followed by its data section.  The argument `header_size` is the size of that
header. -/
def arv_gvsp_packet_size (header_size : Nat) (packet : ArvGvspPacket) : Nat :=
  header_size + packet.data.length

/-- A translation of caps to pixel formats for concrete runs: 8-bit and 16-bit
grey raw video, nothing else. -/
def sample_pixel_format_from_gst_caps (name : String) (format : Option String)
    (_bpp _depth : Int) : Nat :=
  if name = "video/x-raw" ∧ format = some "GRAY8" then 0x01080001
  else if name = "video/x-raw" ∧ format = some "GRAY16_LE" then 0x01100007
  else 0

/-- An interface 192.168.1.10 with broadcast address 192.168.1.255. -/
def sample_interface : ArvNetworkInterface := { addr := 0xc0a8010a, broadaddr := 0xc0a801ff }

/-- A bind attempt that succeeds with the given descriptor. -/
def bind_ok (fd : Nat) : BindOutcome := { created := some { fd := fd }, bound := true }

/-- A bind attempt in which the socket is created but the bind fails (for
instance the port is in use). -/
def bind_fails (fd : Nat) : BindOutcome := { created := some { fd := fd }, bound := false }

/-- The camera memory `controlled_memory` with the heartbeat timeout set to
5000 ms. -/
def slow_heartbeat_memory : Nat → Nat := fun a =>
  if a = 0x093a then 0x13 else if a = 0x093b then 0x88 else controlled_memory a

/-- The proxy controlled by A since t = 1 s, heartbeat timeout 5000 ms. -/
def proxy_slow_heartbeat : ArvGvcpProxy (Nat → Nat) :=
  { proxy_controlled_by_A with backend := slow_heartbeat_memory }

/-- The sink controlled by A since t = 1 s, heartbeat timeout 5000 ms. -/
def sink_slow_heartbeat : GstAravisSinkPrivate (Nat → Nat) :=
  { sink_controlled_by_A with camera := some slow_heartbeat_memory }

/-! ## Theorems -/

section control

variable {σ : Type}

/-- C1 (exclusive write, no mutation).  In the proxy and in the sink: when the
record is Controlled(P) (so, by the data-model invariant, the privilege
register reads non-zero), the heartbeat has not expired and the source Q
differs from P in address or port, handling a WRITE_REGISTER_CMD or a
WRITE_MEMORY_CMD from Q leaves the whole state as it was: the backend
(every register and memory byte) and the controller record Controlled(P)
with its last-contact time. -/
theorem C1_exclusive_write_no_mutation (k : ArvConstants)
    (vtable : ArvGvcpProxyBackendVTable σ) (cam : ArvFakeCamera σ)
    (proxy : ArvGvcpProxy σ) (priv : GstAravisSinkPrivate σ) (camera : σ)
    (P Q : GInetSocketAddress) (packet : ArvGvcpPacket) (now : RealTime)
    (hproxy : proxy.controller_address = some P)
    (hpriv : priv.controller_address = some P)
    (hcamera : priv.camera = some camera)
    (halive_proxy : elapsed_ms now.at_check proxy.controller_time ≤
      arvgvcpproxy._backend_read_register vtable proxy.backend
        k.GVBS_HEARTBEAT_TIMEOUT_OFFSET 3000)
    (halive_sink : elapsed_ms now.at_check priv.controller_time ≤
      arv_fake_camera_get_heartbeat_timeout k cam camera)
    (hpriv_proxy : arvgvcpproxy._backend_read_register vtable proxy.backend
        k.GVBS_CONTROL_CHANNEL_PRIVILEGE_OFFSET 0 ≠ 0)
    (hpriv_sink : arv_fake_camera_get_control_channel_privilege k cam camera ≠ 0)
    (hPQ : Q.address ≠ P.address ∨ Q.port ≠ P.port)
    (hcmd : packet.packet_type = k.GVCP_PACKET_TYPE_CMD ∧
      (packet.command = .WRITE_REGISTER_CMD ∨ packet.command = .WRITE_MEMORY_CMD)) :
    (arvgvcpproxy._handle_control_packet k vtable proxy Q packet now).proxy = proxy ∧
    (gstaravissink._handle_control_packet k cam priv Q packet now).priv = priv := by
  have hne : _g_inet_socket_address_is_equal Q P = false := by
    unfold _g_inet_socket_address_is_equal
    rcases hPQ with h | h
    · by_cases hp : Q.port = P.port <;> simp [hp, h]
    · simp [h]
  obtain ⟨htype, hcmd⟩ := hcmd
  constructor
  · have hcheck : arvgvcpproxy.controller_check k vtable proxy Q now.at_check = (proxy, false) := by
      simp only [arvgvcpproxy.controller_check, hproxy]
      rw [if_neg (Nat.not_lt.mpr halive_proxy), hne]
    have hupd : arvgvcpproxy.controller_update k vtable proxy Q now.at_update = proxy := by
      simp [arvgvcpproxy.controller_update, hproxy, hpriv_proxy]
    rcases hcmd with h | h <;>
      simp [arvgvcpproxy._handle_control_packet, hcheck, htype, arvgvcpproxy.dispatch, h, hupd]
  · have hcheck : gstaravissink.controller_check k cam priv camera Q now.at_check =
        (priv, camera, false) := by
      simp only [gstaravissink.controller_check, hpriv]
      rw [if_neg (Nat.not_lt.mpr halive_sink), hne]
    have hupd : gstaravissink.controller_update k cam priv camera Q now.at_update = priv := by
      simp [gstaravissink.controller_update, hpriv, hpriv_sink]
    have hback : { priv with camera := some camera } = priv := by
      cases priv; simp_all
    rcases hcmd with h | h <;>
      simp [gstaravissink._handle_control_packet, hcamera, hcheck, htype,
        gstaravissink.dispatch, h, hupd, hback]

/-- C1 on a concrete run: controller A, peer B writes the privilege register one second
after the last contact of A; both states come back unchanged. -/
theorem C1_exclusive_write_no_mutation_witness :
    (arvgvcpproxy._handle_control_packet gige_constants
        (arvgvcpproxy_backend.fake_vtable memory_camera) proxy_controlled_by_A peer_B
        (command_packet .WRITE_REGISTER_CMD 7 0x0a00 99) one_second_later).proxy
      = proxy_controlled_by_A ∧
    (gstaravissink._handle_control_packet gige_constants memory_camera sink_controlled_by_A
        peer_B (command_packet .WRITE_REGISTER_CMD 7 0x0a00 99) one_second_later).priv
      = sink_controlled_by_A :=
  C1_exclusive_write_no_mutation gige_constants
    (arvgvcpproxy_backend.fake_vtable memory_camera) memory_camera proxy_controlled_by_A
    sink_controlled_by_A controlled_memory peer_A peer_B
    (command_packet .WRITE_REGISTER_CMD 7 0x0a00 99) one_second_later
    rfl rfl rfl (by decide) (by decide) (by decide) (by decide) (Or.inr (by decide))
    ⟨rfl, Or.inl rfl⟩

/-- Whole milliseconds: for a time difference inside the `gint64` range the
stored `elapsed_ms` is the difference divided by 1000, rounded down. -/
theorem elapsed_ms_of_nonneg (time controller_time : Int)
    (h0 : 0 ≤ time - controller_time)
    (h1 : time - controller_time < 9223372036854775808) :
    (elapsed_ms time controller_time : Int) = (time - controller_time) / 1000 := by
  unfold elapsed_ms
  rw [Int.tdiv_eq_ediv h0 (by norm_num)]
  have hq0 : 0 ≤ (time - controller_time) / 1000 := Int.ediv_nonneg h0 (by norm_num)
  have hq1 : (time - controller_time) / 1000 < 18446744073709551616 := by omega
  rw [Int.emod_eq_of_lt hq0 hq1, Int.toNat_of_nonneg hq0]

/-- An address equals itself. -/
theorem is_equal_self (P : GInetSocketAddress) : _g_inet_socket_address_is_equal P P = true := by
  simp [_g_inet_socket_address_is_equal]

/-- Addresses that differ in address or port are not equal. -/
theorem is_equal_of_ne (P Q : GInetSocketAddress) (h : Q.address ≠ P.address ∨ Q.port ≠ P.port) :
    _g_inet_socket_address_is_equal Q P = false := by
  unfold _g_inet_socket_address_is_equal
  rcases h with h | h
  · by_cases hp : Q.port = P.port <;> simp [hp, h]
  · simp [h]

/-- C2, as stated, fails.  With controller A, one second after its last
contact (timeout 3000 ms), a WRITE_REGISTER_CMD and a WRITE_MEMORY_CMD from
B (other port) are given no ack at all: nothing is sent and the handler
returns FALSE, in the proxy and in the sink. -/
theorem C2_denied_write_gets_no_ack :
    proxy_controlled_by_A.controller_address = some peer_A ∧
    sink_controlled_by_A.controller_address = some peer_A ∧
    elapsed_ms one_second_later.at_check 1000000 ≤ 3000 ∧
    peer_B.port ≠ peer_A.port ∧
    (arvgvcpproxy._handle_control_packet gige_constants
        (arvgvcpproxy_backend.fake_vtable memory_camera) proxy_controlled_by_A peer_B
        (command_packet .WRITE_REGISTER_CMD 7 0x0a00 99) one_second_later).sent = [] ∧
    (arvgvcpproxy._handle_control_packet gige_constants
        (arvgvcpproxy_backend.fake_vtable memory_camera) proxy_controlled_by_A peer_B
        (command_packet .WRITE_REGISTER_CMD 7 0x0a00 99) one_second_later).success = false ∧
    (arvgvcpproxy._handle_control_packet gige_constants
        (arvgvcpproxy_backend.fake_vtable memory_camera) proxy_controlled_by_A peer_B
        (command_packet .WRITE_MEMORY_CMD 8 0x0a00 99) one_second_later).sent = [] ∧
    (gstaravissink._handle_control_packet gige_constants memory_camera sink_controlled_by_A
        peer_B (command_packet .WRITE_REGISTER_CMD 7 0x0a00 99) one_second_later).sent = [] ∧
    (gstaravissink._handle_control_packet gige_constants memory_camera sink_controlled_by_A
        peer_B (command_packet .WRITE_REGISTER_CMD 7 0x0a00 99) one_second_later).success
      = false ∧
    (gstaravissink._handle_control_packet gige_constants memory_camera sink_controlled_by_A
        peer_B (command_packet .WRITE_MEMORY_CMD 8 0x0a00 99) one_second_later).sent = [] := by
  refine ⟨rfl, rfl, ?_, ?_, ?_, ?_, ?_, ?_, ?_, ?_⟩ <;> decide

/-- C2, amended.  With the record Controlled(P) and the heartbeat not
expired, a write command is acknowledged exactly when its source is P.  A
WRITE_REGISTER_CMD or WRITE_MEMORY_CMD from Q ≠ P yields no ack: nothing is sent
and the handler returns FALSE.  From P itself a WRITE_REGISTER_CMD yields one
ack sent to P, a WRITE_REGISTER_ACK with field 1 and the packet id of the
command, and a WRITE_MEMORY_CMD yields one WRITE_MEMORY_ACK with the block address
and packet id of the command; the handler returns TRUE. -/
theorem C2_write_ack_iff_write_access (k : ArvConstants)
    (vtable : ArvGvcpProxyBackendVTable σ) (cam : ArvFakeCamera σ)
    (proxy : ArvGvcpProxy σ) (priv : GstAravisSinkPrivate σ) (camera : σ)
    (P Q : GInetSocketAddress) (packet : ArvGvcpPacket) (now : RealTime)
    (hproxy : proxy.controller_address = some P)
    (hpriv : priv.controller_address = some P)
    (hcamera : priv.camera = some camera)
    (halive_proxy : elapsed_ms now.at_check proxy.controller_time ≤
      arvgvcpproxy._backend_read_register vtable proxy.backend
        k.GVBS_HEARTBEAT_TIMEOUT_OFFSET 3000)
    (halive_sink : elapsed_ms now.at_check priv.controller_time ≤
      arv_fake_camera_get_heartbeat_timeout k cam camera)
    (htype : packet.packet_type = k.GVCP_PACKET_TYPE_CMD) :
    ((Q.address ≠ P.address ∨ Q.port ≠ P.port) →
      (packet.command = .WRITE_REGISTER_CMD ∨ packet.command = .WRITE_MEMORY_CMD) →
      (arvgvcpproxy._handle_control_packet k vtable proxy Q packet now).sent = [] ∧
      (arvgvcpproxy._handle_control_packet k vtable proxy Q packet now).success = false ∧
      (gstaravissink._handle_control_packet k cam priv Q packet now).sent = [] ∧
      (gstaravissink._handle_control_packet k cam priv Q packet now).success = false) ∧
    (Q = P → packet.command = .WRITE_REGISTER_CMD →
      (arvgvcpproxy._handle_control_packet k vtable proxy Q packet now).sent
        = [(Q, .write_register_ack 1 packet.packet_id)] ∧
      (arvgvcpproxy._handle_control_packet k vtable proxy Q packet now).success = true ∧
      (gstaravissink._handle_control_packet k cam priv Q packet now).sent
        = [(Q, .write_register_ack 1 packet.packet_id)] ∧
      (gstaravissink._handle_control_packet k cam priv Q packet now).success = true) ∧
    (Q = P → packet.command = .WRITE_MEMORY_CMD →
      (arvgvcpproxy._handle_control_packet k vtable proxy Q packet now).sent
        = [(Q, .write_memory_ack packet.write_memory_cmd_infos.1 packet.packet_id)] ∧
      (arvgvcpproxy._handle_control_packet k vtable proxy Q packet now).success = true ∧
      (gstaravissink._handle_control_packet k cam priv Q packet now).sent
        = [(Q, .write_memory_ack packet.write_memory_cmd_infos.1 packet.packet_id)] ∧
      (gstaravissink._handle_control_packet k cam priv Q packet now).success = true) := by
  have hp : ∀ b, _g_inet_socket_address_is_equal Q P = b →
      arvgvcpproxy.controller_check k vtable proxy Q now.at_check = (proxy, b) := by
    intro b hb
    simp only [arvgvcpproxy.controller_check, hproxy]
    rw [if_neg (Nat.not_lt.mpr halive_proxy), hb]
  have hs : ∀ b, _g_inet_socket_address_is_equal Q P = b →
      gstaravissink.controller_check k cam priv camera Q now.at_check = (priv, camera, b) := by
    intro b hb
    simp only [gstaravissink.controller_check, hpriv]
    rw [if_neg (Nat.not_lt.mpr halive_sink), hb]
  refine ⟨?_, ?_, ?_⟩
  · intro hPQ hcmd
    have hne := is_equal_of_ne P Q hPQ
    rcases hcmd with h | h <;>
      simp [arvgvcpproxy._handle_control_packet, gstaravissink._handle_control_packet,
        hcamera, hp false hne, hs false hne, htype, arvgvcpproxy.dispatch,
        gstaravissink.dispatch, h]
  · intro hQP h
    have heq : _g_inet_socket_address_is_equal Q P = true := by rw [hQP]; exact is_equal_self P
    simp [arvgvcpproxy._handle_control_packet, gstaravissink._handle_control_packet,
      hcamera, hp true heq, hs true heq, htype, arvgvcpproxy.dispatch,
      gstaravissink.dispatch, h]
  · intro hQP h
    have heq : _g_inet_socket_address_is_equal Q P = true := by rw [hQP]; exact is_equal_self P
    simp [arvgvcpproxy._handle_control_packet, gstaravissink._handle_control_packet,
      hcamera, hp true heq, hs true heq, htype, arvgvcpproxy.dispatch,
      gstaravissink.dispatch, h]

/-- C2 (amended) on a concrete run: the controller A itself writes the privilege
register and receives WRITE_REGISTER_ACK(1, 7). -/
theorem C2_write_ack_iff_write_access_witness :
    (arvgvcpproxy._handle_control_packet gige_constants
        (arvgvcpproxy_backend.fake_vtable memory_camera) proxy_controlled_by_A peer_A
        (command_packet .WRITE_REGISTER_CMD 7 0x0a00 2) one_second_later).sent
      = [(peer_A, .write_register_ack 1 7)] ∧
    (arvgvcpproxy._handle_control_packet gige_constants
        (arvgvcpproxy_backend.fake_vtable memory_camera) proxy_controlled_by_A peer_A
        (command_packet .WRITE_REGISTER_CMD 7 0x0a00 2) one_second_later).success = true ∧
    (gstaravissink._handle_control_packet gige_constants memory_camera sink_controlled_by_A
        peer_A (command_packet .WRITE_REGISTER_CMD 7 0x0a00 2) one_second_later).sent
      = [(peer_A, .write_register_ack 1 7)] ∧
    (gstaravissink._handle_control_packet gige_constants memory_camera sink_controlled_by_A
        peer_A (command_packet .WRITE_REGISTER_CMD 7 0x0a00 2) one_second_later).success
      = true :=
  (C2_write_ack_iff_write_access gige_constants
    (arvgvcpproxy_backend.fake_vtable memory_camera) memory_camera proxy_controlled_by_A
    sink_controlled_by_A controlled_memory peer_A peer_A
    (command_packet .WRITE_REGISTER_CMD 7 0x0a00 2) one_second_later
    rfl rfl rfl (by decide) (by decide) rfl).2.1 rfl rfl

/-- C3, as stated, fails.  (a) Controller A, timeout 3000 ms, clock 3000.999 ms
after the last contact (more than the timeout, by a positive margin below
one millisecond): a WRITE_REGISTER_CMD(privilege, 3) from B is neither applied
nor acknowledged and A stays the controller.  (b) Four seconds after the last
contact the same write sent by A itself leaves A the controller. -/
theorem C3_sub_millisecond_margin_does_not_expire :
    (3000 : Int) * 1000 < just_past_timeout.at_check - proxy_controlled_by_A.controller_time ∧
    (arvgvcpproxy._handle_control_packet gige_constants
        (arvgvcpproxy_backend.fake_vtable memory_camera) proxy_controlled_by_A peer_B
        (command_packet .WRITE_REGISTER_CMD 9 0x0a00 3) just_past_timeout).sent = [] ∧
    (arvgvcpproxy._handle_control_packet gige_constants
        (arvgvcpproxy_backend.fake_vtable memory_camera) proxy_controlled_by_A peer_B
        (command_packet .WRITE_REGISTER_CMD 9 0x0a00 3) just_past_timeout).proxy.controller_address
      = some peer_A ∧
    (memory_camera.read_register
      (arvgvcpproxy._handle_control_packet gige_constants
        (arvgvcpproxy_backend.fake_vtable memory_camera) proxy_controlled_by_A peer_B
        (command_packet .WRITE_REGISTER_CMD 9 0x0a00 3) just_past_timeout).proxy.backend
      0x0a00).2 = 2 ∧
    (gstaravissink._handle_control_packet gige_constants memory_camera sink_controlled_by_A
        peer_B (command_packet .WRITE_REGISTER_CMD 9 0x0a00 3) just_past_timeout).sent = [] ∧
    (gstaravissink._handle_control_packet gige_constants memory_camera sink_controlled_by_A
        peer_B (command_packet .WRITE_REGISTER_CMD 9 0x0a00 3)
        just_past_timeout).priv.controller_address = some peer_A ∧
    (arvgvcpproxy._handle_control_packet gige_constants
        (arvgvcpproxy_backend.fake_vtable memory_camera) proxy_controlled_by_A peer_A
        (command_packet .WRITE_REGISTER_CMD 9 0x0a00 3) four_seconds_later).proxy.controller_address
      = some peer_A := by
  refine ⟨?_, ?_, ?_, ?_, ?_, ?_, ?_⟩ <;> decide

/-- C3, amended.  If the record is Controlled(P, last_contact) and the clock is
at least HEARTBEAT_TIMEOUT + 1 whole milliseconds past last_contact, then a
WRITE_REGISTER_CMD(a, v) from any peer Q is applied to the backend (after the
privilege register was forced to 0) and acknowledged with
WRITE_REGISTER_ACK(1, packet id) sent to Q; after the handler returns the
record is Controlled(Q, now) if the privilege register reads non-zero after
the write and Uncontrolled otherwise; so no peer other than Q is the
controller, and P only when Q = P. -/
theorem C3_heartbeat_recovery (k : ArvConstants)
    (vtable : ArvGvcpProxyBackendVTable σ) (cam : ArvFakeCamera σ)
    (write_register : σ → Nat → Nat → Bool × σ)
    (proxy : ArvGvcpProxy σ) (priv : GstAravisSinkPrivate σ) (camera : σ)
    (P Q : GInetSocketAddress) (packet : ArvGvcpPacket) (now : RealTime)
    (hproxy : proxy.controller_address = some P)
    (hpriv : priv.controller_address = some P)
    (hcamera : priv.camera = some camera)
    (hwrite : vtable.write_register = some write_register)
    (hlate_proxy : (((arvgvcpproxy._backend_read_register vtable proxy.backend
        k.GVBS_HEARTBEAT_TIMEOUT_OFFSET 3000 : Nat) : Int) + 1) * 1000
        ≤ now.at_check - proxy.controller_time)
    (hlate_sink : (((arv_fake_camera_get_heartbeat_timeout k cam camera : Nat) : Int) + 1) * 1000
        ≤ now.at_check - priv.controller_time)
    (hrange_proxy : now.at_check - proxy.controller_time < 9223372036854775808)
    (hrange_sink : now.at_check - priv.controller_time < 9223372036854775808)
    (htype : packet.packet_type = k.GVCP_PACKET_TYPE_CMD)
    (hcmd : packet.command = .WRITE_REGISTER_CMD) :
    ((arvgvcpproxy._handle_control_packet k vtable proxy Q packet now).proxy.backend
        = (write_register
            (write_register proxy.backend k.GVBS_CONTROL_CHANNEL_PRIVILEGE_OFFSET 0).2
            packet.write_register_cmd_infos.1 packet.write_register_cmd_infos.2).2 ∧
      (arvgvcpproxy._handle_control_packet k vtable proxy Q packet now).sent
        = [(Q, .write_register_ack 1 packet.packet_id)] ∧
      (arvgvcpproxy._handle_control_packet k vtable proxy Q packet now).success = true ∧
      (arvgvcpproxy._backend_read_register vtable
          (arvgvcpproxy._handle_control_packet k vtable proxy Q packet now).proxy.backend
          k.GVBS_CONTROL_CHANNEL_PRIVILEGE_OFFSET 0 ≠ 0 →
        (arvgvcpproxy._handle_control_packet k vtable proxy Q packet now).proxy.controller_address
          = some Q ∧
        (arvgvcpproxy._handle_control_packet k vtable proxy Q packet now).proxy.controller_time
          = now.at_update) ∧
      (arvgvcpproxy._backend_read_register vtable
          (arvgvcpproxy._handle_control_packet k vtable proxy Q packet now).proxy.backend
          k.GVBS_CONTROL_CHANNEL_PRIVILEGE_OFFSET 0 = 0 →
        (arvgvcpproxy._handle_control_packet k vtable proxy Q packet now).proxy.controller_address
          = none) ∧
      (∀ R, (arvgvcpproxy._handle_control_packet k vtable proxy Q packet now).proxy.controller_address
          = some R → R = Q)) ∧
    ((gstaravissink._handle_control_packet k cam priv Q packet now).priv.camera
        = some (cam.write_register
            (cam.write_register camera k.GVBS_CONTROL_CHANNEL_PRIVILEGE_OFFSET 0).2
            packet.write_register_cmd_infos.1 packet.write_register_cmd_infos.2).2 ∧
      (gstaravissink._handle_control_packet k cam priv Q packet now).sent
        = [(Q, .write_register_ack 1 packet.packet_id)] ∧
      (gstaravissink._handle_control_packet k cam priv Q packet now).success = true ∧
      (∀ camera_after,
        (gstaravissink._handle_control_packet k cam priv Q packet now).priv.camera
          = some camera_after →
        (arv_fake_camera_get_control_channel_privilege k cam camera_after ≠ 0 →
          (gstaravissink._handle_control_packet k cam priv Q packet now).priv.controller_address
            = some Q ∧
          (gstaravissink._handle_control_packet k cam priv Q packet now).priv.controller_time
            = now.at_update) ∧
        (arv_fake_camera_get_control_channel_privilege k cam camera_after = 0 →
          (gstaravissink._handle_control_packet k cam priv Q packet now).priv.controller_address
            = none)) ∧
      (∀ R, (gstaravissink._handle_control_packet k cam priv Q packet now).priv.controller_address
          = some R → R = Q)) := by
  have h0p : 0 ≤ now.at_check - proxy.controller_time := by
    have := Int.ofNat_nonneg (arvgvcpproxy._backend_read_register vtable proxy.backend
      k.GVBS_HEARTBEAT_TIMEOUT_OFFSET 3000)
    omega
  have h0s : 0 ≤ now.at_check - priv.controller_time := by
    have := Int.ofNat_nonneg (arv_fake_camera_get_heartbeat_timeout k cam camera)
    omega
  have hep : arvgvcpproxy._backend_read_register vtable proxy.backend
      k.GVBS_HEARTBEAT_TIMEOUT_OFFSET 3000 < elapsed_ms now.at_check proxy.controller_time := by
    have h := elapsed_ms_of_nonneg _ _ h0p hrange_proxy
    omega
  have hes : arv_fake_camera_get_heartbeat_timeout k cam camera
      < elapsed_ms now.at_check priv.controller_time := by
    have h := elapsed_ms_of_nonneg _ _ h0s hrange_sink
    omega
  have hp : arvgvcpproxy.controller_check k vtable proxy Q now.at_check =
      (arvgvcpproxy._proxy_release_controller k vtable proxy, true) := by
    simp only [arvgvcpproxy.controller_check, hproxy]
    rw [if_pos hep]
  have hs : gstaravissink.controller_check k cam priv camera Q now.at_check =
      ({ priv with controller_address := none },
       arv_fake_camera_set_control_channel_privilege k cam camera 0, true) := by
    simp only [gstaravissink.controller_check, hpriv]
    rw [if_pos hes]
  constructor
  · simp only [arvgvcpproxy._handle_control_packet, hp, htype, arvgvcpproxy.dispatch, hcmd,
      arvgvcpproxy._proxy_release_controller, hproxy, arvgvcpproxy._backend_write_register,
      hwrite, arvgvcpproxy.controller_update]
    by_cases hz : arvgvcpproxy._backend_read_register vtable
        (write_register (write_register proxy.backend k.GVBS_CONTROL_CHANNEL_PRIVILEGE_OFFSET 0).2
          packet.write_register_cmd_infos.1 packet.write_register_cmd_infos.2).2
        k.GVBS_CONTROL_CHANNEL_PRIVILEGE_OFFSET 0 = 0
    · simp [hz]
    · simp [hz]
  · simp only [gstaravissink._handle_control_packet, hcamera, hs, htype,
      gstaravissink.dispatch, hcmd, arv_fake_camera_set_control_channel_privilege,
      gstaravissink.controller_update]
    by_cases hz : arv_fake_camera_get_control_channel_privilege k cam
        (cam.write_register (cam.write_register camera k.GVBS_CONTROL_CHANNEL_PRIVILEGE_OFFSET 0).2
          packet.write_register_cmd_infos.1 packet.write_register_cmd_infos.2).2 = 0
    · simp [hz]
    · simp [hz]

/-- C3 (amended) on a concrete run: four seconds after the last contact of A
(timeout 3000 ms) the write of peer B is acknowledged. -/
theorem C3_heartbeat_recovery_witness :
    (arvgvcpproxy._handle_control_packet gige_constants
        (arvgvcpproxy_backend.fake_vtable memory_camera) proxy_controlled_by_A peer_B
        (command_packet .WRITE_REGISTER_CMD 9 0x0a00 3) four_seconds_later).sent
      = [(peer_B, .write_register_ack 1 9)] ∧
    (gstaravissink._handle_control_packet gige_constants memory_camera sink_controlled_by_A
        peer_B (command_packet .WRITE_REGISTER_CMD 9 0x0a00 3) four_seconds_later).sent
      = [(peer_B, .write_register_ack 1 9)] :=
  have h := C3_heartbeat_recovery gige_constants
    (arvgvcpproxy_backend.fake_vtable memory_camera) memory_camera
    (arvgvcpproxy_backend._fake_write_register memory_camera)
    proxy_controlled_by_A sink_controlled_by_A controlled_memory peer_A peer_B
    (command_packet .WRITE_REGISTER_CMD 9 0x0a00 3) four_seconds_later
    rfl rfl rfl rfl (by decide) (by decide) (by decide) (by decide) rfl rfl
  ⟨h.1.2.1, h.2.2.1⟩

end control

section framing

variable {σ : Type}

/-- Taking one full piece off leaves one piece less. -/
theorem pieces_step (d p : Nat) (hp : 0 < p) (hd : p ≤ d) :
    pieces d p = pieces (d - p) p + 1 := by
  unfold pieces
  have h : d + p - 1 = (d - p + p - 1) + p := by omega
  rw [h, Nat.add_div_right _ hp]

/-- Fewer bytes than a piece, but at least one, make one piece. -/
theorem pieces_last (d p : Nat) (hd0 : 0 < d) (hd : d < p) : pieces d p = 1 := by
  unfold pieces
  exact Nat.div_eq_of_lt_le (by omega) (by omega)

/-- No bytes, no piece. -/
theorem pieces_zero (p : Nat) (hp : 0 < p) : pieces 0 p = 0 := by
  unfold pieces
  exact Nat.div_eq_of_lt (by omega)

/-- The payload loop, run with enough fuel from `offset` with a positive piece
size, ends; it returns `pieces (L - offset) p` packets, all payload packets of
the frame, with consecutive 16-bit block ids from `block_id` on, whose data
sections are the consecutive pieces of the buffer. -/
theorem payload_loop_spec (frame_id p : Nat) (payload : List Nat) (hp : 0 < p) :
    ∀ (fuel offset block_id : Nat), offset ≤ payload.length →
      payload.length - offset < fuel → block_id < 65536 →
      ∃ packets : List ArvGvspPacket,
        gstaravissink.payload_loop frame_id p payload fuel offset block_id
          = some (packets, (block_id + packets.length) % 65536) ∧
        packets.length = pieces (payload.length - offset) p ∧
        packets.map ArvGvspPacket.block_id
          = (List.range packets.length).map (fun i => (block_id + i) % 65536) ∧
        (packets.map ArvGvspPacket.data).flatten = payload.drop offset ∧
        packets.map (fun x => x.data.length)
          = (List.range packets.length).map
              (fun i => min p (payload.length - offset - i * p)) ∧
        (∀ x ∈ packets, x.is_payload = true ∧ x.frame_id = frame_id) := by
  intro fuel
  induction fuel with
  | zero => intro offset block_id _ h; omega
  | succ fuel ih =>
    intro offset block_id hoff hfuel hb
    by_cases hlt : offset < payload.length
    · -- one more packet
      have hds : 0 < min p (payload.length - offset) := by
        rw [Nat.lt_min]; omega
      have hoff' : offset + min p (payload.length - offset) ≤ payload.length := by
        have := Nat.min_le_right p (payload.length - offset); omega
      obtain ⟨rest, hloop, hlen, hids, hdata, hsizes, hall⟩ :=
        ih (offset + min p (payload.length - offset)) ((block_id + 1) % 65536) hoff'
          (by omega) (Nat.mod_lt _ (by norm_num))
      refine ⟨ArvGvspPacket.payload frame_id block_id
        ((payload.drop offset).take (min p (payload.length - offset))) :: rest, ?_, ?_, ?_, ?_, ?_, ?_⟩
      · rw [gstaravissink.payload_loop, if_pos hlt]
        simp only [hloop, List.length_cons]
        congr 2
        omega
      · rw [List.length_cons, hlen]
        by_cases hfull : p ≤ payload.length - offset
        · rw [Nat.min_eq_left hfull, pieces_step (payload.length - offset) p hp hfull]
          congr 2
          omega
        · have hmin : min p (payload.length - offset) = payload.length - offset :=
            Nat.min_eq_right (by omega)
          rw [hmin, pieces_last (payload.length - offset) p (by omega) (by omega)]
          have : payload.length - (offset + (payload.length - offset)) = 0 := by omega
          rw [this, pieces_zero p hp]
      · rw [List.length_cons, List.range_succ_eq_map, List.map_cons, List.map_cons,
          List.map_map, hids]
        simp only [ArvGvspPacket.block_id, Nat.add_zero, Nat.mod_eq_of_lt hb, List.cons.injEq,
          true_and]
        apply List.map_congr_left
        intro i _
        simp only [Function.comp, Nat.succ_eq_add_one]
        omega
      · rw [List.map_cons, List.flatten_cons, hdata]
        simp only [ArvGvspPacket.data]
        rw [← List.drop_drop, List.take_append_drop]
      · rw [List.length_cons, List.range_succ_eq_map, List.map_cons, List.map_cons,
          List.map_map, hsizes]
        simp only [ArvGvspPacket.data, List.length_take, List.length_drop, Nat.zero_mul,
          Nat.sub_zero, List.cons.injEq]
        refine ⟨by omega, ?_⟩
        apply List.map_congr_left
        intro i hi
        simp only [Function.comp, Nat.succ_eq_add_one]
        by_cases hfull : p ≤ payload.length - offset
        · rw [Nat.min_eq_left hfull]
          congr 1
          rw [Nat.add_mul, Nat.one_mul]
          omega
        · exfalso
          have hmin : min p (payload.length - offset) = payload.length - offset :=
            Nat.min_eq_right (by omega)
          rw [hmin] at hlen
          have h0 : payload.length - (offset + (payload.length - offset)) = 0 := by omega
          rw [h0, pieces_zero p hp] at hlen
          rw [hlen] at hi
          simp at hi
      · intro x hx
        rcases List.mem_cons.mp hx with h | h
        · subst h
          exact ⟨rfl, rfl⟩
        · exact hall x h
    · -- the loop condition fails
      have hzero : payload.length - offset = 0 := by omega
      refine ⟨[], ?_, ?_, ?_, ?_, ?_, ?_⟩
      · rw [gstaravissink.payload_loop, if_neg hlt]
        simp [Nat.mod_eq_of_lt hb]
      · rw [hzero, pieces_zero p hp]; rfl
      · rfl
      · simp only [List.map_nil, List.flatten_nil]
        exact (List.drop_eq_nil_of_le (by omega)).symm
      · rfl
      · intro x hx; cases hx

/-- The effective packet size lies between the two limits. -/
theorem gv_packet_size_bounds (k : ArvConstants) (register : Nat)
    (hminmax : k.GVSP_MINIMUM_PACKET_SIZE ≤ k.GVSP_MAXIMUM_PACKET_SIZE) :
    k.GVSP_MINIMUM_PACKET_SIZE ≤ gstaravissink.gv_packet_size k register ∧
    gstaravissink.gv_packet_size k register ≤ k.GVSP_MAXIMUM_PACKET_SIZE := by
  unfold gstaravissink.gv_packet_size
  simp only
  split_ifs <;> omega

/-- The data bytes per packet: no wrap-around in the subtraction, and at least one. -/
theorem gv_packet_payload_eq (k : ArvConstants) (register : Nat)
    (hovh : k.GVSP_PACKET_PROTOCOL_OVERHEAD < k.GVSP_MINIMUM_PACKET_SIZE)
    (hminmax : k.GVSP_MINIMUM_PACKET_SIZE ≤ k.GVSP_MAXIMUM_PACKET_SIZE)
    (hmax : k.GVSP_MAXIMUM_PACKET_SIZE < 4294967296) :
    gstaravissink.gv_packet_payload k (gstaravissink.gv_packet_size k register)
      = gstaravissink.gv_packet_size k register - k.GVSP_PACKET_PROTOCOL_OVERHEAD ∧
    0 < gstaravissink.gv_packet_size k register - k.GVSP_PACKET_PROTOCOL_OVERHEAD := by
  obtain ⟨h1, h2⟩ := gv_packet_size_bounds k register hminmax
  refine ⟨?_, by omega⟩
  unfold gstaravissink.gv_packet_payload
  omega

/-- A render that passes every gate: the result is the leader, the payload
packets of the loop and the trailer, all sent to the stream address. -/
theorem render_frame (k : ArvConstants) (cam : ArvFakeCamera σ) (fuel : Nat)
    (priv : GstAravisSinkPrivate σ) (camera : σ) (buffer : GstBuffer) (payload : List Nat)
    (real_time : Int) (stream_address : GInetSocketAddress)
    (hcamera : priv.camera = some camera)
    (hprivilege : arv_fake_camera_get_control_channel_privilege k cam camera ≠ 0)
    (hacquisition : arv_fake_camera_get_acquisition_status k cam camera ≠ 0)
    (hstream : cam.get_stream_address camera = some stream_address)
    (haddress : stream_address.address ≠ 0) (hport : stream_address.port ≠ 0)
    (hmap : buffer.map = some payload)
    (hovh : k.GVSP_PACKET_PROTOCOL_OVERHEAD < k.GVSP_MINIMUM_PACKET_SIZE)
    (hminmax : k.GVSP_MINIMUM_PACKET_SIZE ≤ k.GVSP_MAXIMUM_PACKET_SIZE)
    (hmax : k.GVSP_MAXIMUM_PACKET_SIZE < 4294967296)
    (hfuel : payload.length < fuel) :
    ∃ (packets : List ArvGvspPacket) (timestamp_ns : Nat),
      gstaravissink.gst_aravis_sink_render k cam fuel priv buffer real_time
        = some { flow := .GST_FLOW_OK
                 priv := { priv with frame_id := gstaravissink.next_frame_id priv.frame_id }
                 sent := (ArvGvspPacket.image_leader (gstaravissink.next_frame_id priv.frame_id) 0
                            timestamp_ns priv.pixel_format priv.width priv.height 0 0 0 0 ::
                          (packets ++ [ArvGvspPacket.data_trailer
                            (gstaravissink.next_frame_id priv.frame_id)
                            ((1 + packets.length) % 65536) priv.height])).map
                          (fun packet => (stream_address, packet)) } ∧
      packets.length = pieces payload.length
        (gstaravissink.gv_packet_size k
          (cam.read_register camera k.GVBS_STREAM_CHANNEL_0_PACKET_SIZE_OFFSET).2
          - k.GVSP_PACKET_PROTOCOL_OVERHEAD) ∧
      packets.map ArvGvspPacket.block_id
        = (List.range packets.length).map (fun i => (1 + i) % 65536) ∧
      (packets.map ArvGvspPacket.data).flatten = payload ∧
      packets.map (fun x => x.data.length)
        = (List.range packets.length).map
            (fun i => min (gstaravissink.gv_packet_size k
                (cam.read_register camera k.GVBS_STREAM_CHANNEL_0_PACKET_SIZE_OFFSET).2
                - k.GVSP_PACKET_PROTOCOL_OVERHEAD) (payload.length - i * 
              (gstaravissink.gv_packet_size k
                (cam.read_register camera k.GVBS_STREAM_CHANNEL_0_PACKET_SIZE_OFFSET).2
                - k.GVSP_PACKET_PROTOCOL_OVERHEAD))) ∧
      (∀ x ∈ packets, x.is_payload = true ∧
        x.frame_id = gstaravissink.next_frame_id priv.frame_id) := by
  obtain ⟨hpay, hpos⟩ := gv_packet_payload_eq k
    (cam.read_register camera k.GVBS_STREAM_CHANNEL_0_PACKET_SIZE_OFFSET).2 hovh hminmax hmax
  obtain ⟨packets, hloop, hlen, hids, hdata, hsizes, hall⟩ :=
    payload_loop_spec (gstaravissink.next_frame_id priv.frame_id) _ payload hpos fuel 0 1
      (Nat.zero_le _) (by omega) (by norm_num)
  refine ⟨packets,
    (match buffer.pts with
     | some pts => pts
     | none => ((real_time * 1000) % 18446744073709551616).toNat), ?_, ?_, ?_, ?_, ?_, ?_⟩
  · simp only [gstaravissink.gst_aravis_sink_render, hcamera, hprivilege, hacquisition,
      or_self, if_false, hstream, haddress, hport, hmap, hpay, hloop]
  · simpa using hlen
  · exact hids
  · simpa using hdata
  · simpa using hsizes
  · exact hall

/-- C4 (GVSP fragmentation count).  A render that passes every gate, with `L`
payload bytes and effective packet size `S` (the constants satisfying
OVERHEAD < MINIMUM ≤ MAXIMUM), returns GST_FLOW_OK having sent exactly one
leader, then `ceil (L / (S - OVERHEAD))` payload packets, then one trailer, in
that order and nothing else, all to the stream address. -/
theorem C4_fragmentation_count (k : ArvConstants) (cam : ArvFakeCamera σ) (fuel : Nat)
    (priv : GstAravisSinkPrivate σ) (camera : σ) (buffer : GstBuffer) (payload : List Nat)
    (real_time : Int) (stream_address : GInetSocketAddress)
    (hcamera : priv.camera = some camera)
    (hprivilege : arv_fake_camera_get_control_channel_privilege k cam camera ≠ 0)
    (hacquisition : arv_fake_camera_get_acquisition_status k cam camera ≠ 0)
    (hstream : cam.get_stream_address camera = some stream_address)
    (haddress : stream_address.address ≠ 0) (hport : stream_address.port ≠ 0)
    (hmap : buffer.map = some payload)
    (hovh : k.GVSP_PACKET_PROTOCOL_OVERHEAD < k.GVSP_MINIMUM_PACKET_SIZE)
    (hminmax : k.GVSP_MINIMUM_PACKET_SIZE ≤ k.GVSP_MAXIMUM_PACKET_SIZE)
    (hmax : k.GVSP_MAXIMUM_PACKET_SIZE < 4294967296)
    (hfuel : payload.length < fuel) :
    ∃ (rendered : gstaravissink.Rendered σ) (leader trailer : ArvGvspPacket)
      (payloads : List ArvGvspPacket),
      gstaravissink.gst_aravis_sink_render k cam fuel priv buffer real_time = some rendered ∧
      rendered.flow = .GST_FLOW_OK ∧
      rendered.sent = (leader :: (payloads ++ [trailer])).map
        (fun packet => (stream_address, packet)) ∧
      leader.is_leader = true ∧
      (∀ x ∈ payloads, x.is_payload = true) ∧
      trailer.is_trailer = true ∧
      payloads.length =
        (payload.length +
          (gstaravissink.gv_packet_size k
            (cam.read_register camera k.GVBS_STREAM_CHANNEL_0_PACKET_SIZE_OFFSET).2
            - k.GVSP_PACKET_PROTOCOL_OVERHEAD) - 1) /
        (gstaravissink.gv_packet_size k
          (cam.read_register camera k.GVBS_STREAM_CHANNEL_0_PACKET_SIZE_OFFSET).2
          - k.GVSP_PACKET_PROTOCOL_OVERHEAD) := by
  obtain ⟨packets, timestamp_ns, hrender, hlen, _, _, _, hall⟩ :=
    render_frame k cam fuel priv camera buffer payload real_time stream_address hcamera
      hprivilege hacquisition hstream haddress hport hmap hovh hminmax hmax hfuel
  exact ⟨_, _, _, packets, hrender, rfl, rfl, rfl, fun x hx => (hall x hx).1, rfl, hlen⟩

/-- C4 on a concrete frame: 3000 bytes at packet size 1500. -/
theorem C4_fragmentation_count_witness :
    ∃ (rendered : gstaravissink.Rendered (Nat → Nat)) (leader trailer : ArvGvspPacket)
      (payloads : List ArvGvspPacket),
      gstaravissink.gst_aravis_sink_render gige_constants memory_camera 3001
        sink_controlled_by_A (zero_buffer 3000) 0 = some rendered ∧
      rendered.flow = .GST_FLOW_OK ∧
      rendered.sent = (leader :: (payloads ++ [trailer])).map
        (fun packet => (({ address := 0x7f000001, port := 20202 } : GInetSocketAddress), packet)) ∧
      leader.is_leader = true ∧
      (∀ x ∈ payloads, x.is_payload = true) ∧
      trailer.is_trailer = true ∧
      payloads.length =
        ((List.replicate 3000 0).length +
          (gstaravissink.gv_packet_size gige_constants
            (memory_camera.read_register controlled_memory
              gige_constants.GVBS_STREAM_CHANNEL_0_PACKET_SIZE_OFFSET).2
            - gige_constants.GVSP_PACKET_PROTOCOL_OVERHEAD) - 1) /
        (gstaravissink.gv_packet_size gige_constants
          (memory_camera.read_register controlled_memory
            gige_constants.GVBS_STREAM_CHANNEL_0_PACKET_SIZE_OFFSET).2
          - gige_constants.GVSP_PACKET_PROTOCOL_OVERHEAD) :=
  C4_fragmentation_count gige_constants memory_camera 3001 sink_controlled_by_A
    controlled_memory (zero_buffer 3000) (List.replicate 3000 0) 0
    { address := 0x7f000001, port := 20202 }
    rfl (by decide) (by decide) (by decide) (by decide) (by decide) rfl
    (by decide) (by decide) (by decide) (by rw [List.length_replicate]; decide)

/-- The block ids of leader, payload packets and trailer, as one range. -/
theorem block_ids_of_frame (n : Nat) :
    0 :: ((List.range n).map (fun i => (1 + i) % 65536) ++ [(1 + n) % 65536])
      = (List.range (n + 2)).map (fun i => i % 65536) := by
  rw [List.range_succ_eq_map, List.map_cons, List.map_map, List.range_succ, List.map_append]
  simp only [Nat.zero_mod, List.map_cons, List.map_nil, Function.comp, Nat.succ_eq_add_one,
    List.cons.injEq, true_and]
  congr 1
  · apply List.map_congr_left
    intro i _
    simp only [Function.comp, Nat.succ_eq_add_one, Nat.add_comm]
  · rw [Nat.add_comm]

/-- C5, as stated, fails.  With the packet-size register at 576 (540 data
bytes per packet) a buffer of 65535 * 540 bytes is sent as a leader, 65535
payload packets and a trailer, and the 16-bit block id has wrapped: the
trailer carries block id 0, the value of the leader, not 65536. -/
theorem C5_block_id_wraps_on_large_frame :
    ∃ rendered : gstaravissink.Rendered (Nat → Nat),
      gstaravissink.gst_aravis_sink_render gige_constants memory_camera 35388901
        { sink_controlled_by_A with camera := some small_packet_memory }
        (zero_buffer 35388900) 0 = some rendered ∧
      rendered.sent.length = 65537 ∧
      (rendered.sent.map (fun d => d.2.block_id)).head? = some 0 ∧
      (rendered.sent.map (fun d => d.2.block_id)).getLast? = some 0 := by
  obtain ⟨packets, timestamp_ns, hrender, hlen, _, _, _, _⟩ :=
    render_frame gige_constants memory_camera 35388901
      { sink_controlled_by_A with camera := some small_packet_memory } small_packet_memory
      (zero_buffer 35388900) (List.replicate 35388900 0) 0
      { address := 0x7f000001, port := 20202 }
      rfl (by decide) (by decide) (by decide) (by decide) (by decide) rfl
      (by decide) (by decide) (by decide) (by rw [List.length_replicate]; decide)
  rw [List.length_replicate] at hlen
  have hsize : gstaravissink.gv_packet_size gige_constants
      (memory_camera.read_register small_packet_memory
        gige_constants.GVBS_STREAM_CHANNEL_0_PACKET_SIZE_OFFSET).2
      - gige_constants.GVSP_PACKET_PROTOCOL_OVERHEAD = 540 := by decide
  rw [hsize] at hlen
  have hcount : pieces 35388900 540 = 65535 := by decide
  rw [hcount] at hlen
  refine ⟨_, hrender, ?_, ?_, ?_⟩
  · simp [hlen]
  · simp [ArvGvspPacket.block_id]
  · simp only [List.map_cons, List.map_append, List.map_nil, ← List.cons_append]
    rw [List.getLast?_concat]
    simp [hlen, ArvGvspPacket.block_id]

/-- C5, amended.  The block ids of the packets of one frame, in emission
order, are `i mod 65536` for `i = 0, 1, .., n + 1`, where `n` is the number of
payload packets; when `n + 1 < 65536` (at most 65534 payload packets) they are
exactly 0 (leader), 1, 2, .., n (payload packets), n + 1 (trailer), with no
value repeated or skipped. -/
theorem C5_block_id_contiguity (k : ArvConstants) (cam : ArvFakeCamera σ) (fuel : Nat)
    (priv : GstAravisSinkPrivate σ) (camera : σ) (buffer : GstBuffer) (payload : List Nat)
    (real_time : Int) (stream_address : GInetSocketAddress)
    (hcamera : priv.camera = some camera)
    (hprivilege : arv_fake_camera_get_control_channel_privilege k cam camera ≠ 0)
    (hacquisition : arv_fake_camera_get_acquisition_status k cam camera ≠ 0)
    (hstream : cam.get_stream_address camera = some stream_address)
    (haddress : stream_address.address ≠ 0) (hport : stream_address.port ≠ 0)
    (hmap : buffer.map = some payload)
    (hovh : k.GVSP_PACKET_PROTOCOL_OVERHEAD < k.GVSP_MINIMUM_PACKET_SIZE)
    (hminmax : k.GVSP_MINIMUM_PACKET_SIZE ≤ k.GVSP_MAXIMUM_PACKET_SIZE)
    (hmax : k.GVSP_MAXIMUM_PACKET_SIZE < 4294967296)
    (hfuel : payload.length < fuel) :
    ∃ (rendered : gstaravissink.Rendered σ) (n : Nat),
      gstaravissink.gst_aravis_sink_render k cam fuel priv buffer real_time = some rendered ∧
      n = (payload.length +
          (gstaravissink.gv_packet_size k
            (cam.read_register camera k.GVBS_STREAM_CHANNEL_0_PACKET_SIZE_OFFSET).2
            - k.GVSP_PACKET_PROTOCOL_OVERHEAD) - 1) /
        (gstaravissink.gv_packet_size k
          (cam.read_register camera k.GVBS_STREAM_CHANNEL_0_PACKET_SIZE_OFFSET).2
          - k.GVSP_PACKET_PROTOCOL_OVERHEAD) ∧
      rendered.sent.length = n + 2 ∧
      rendered.sent.map (fun d => d.2.block_id)
        = (List.range (n + 2)).map (fun i => i % 65536) ∧
      (n + 1 < 65536 → rendered.sent.map (fun d => d.2.block_id) = List.range (n + 2)) := by
  obtain ⟨packets, timestamp_ns, hrender, hlen, hids, _, _, _⟩ :=
    render_frame k cam fuel priv camera buffer payload real_time stream_address hcamera
      hprivilege hacquisition hstream haddress hport hmap hovh hminmax hmax hfuel
  have hmap_ids : (((ArvGvspPacket.image_leader (gstaravissink.next_frame_id priv.frame_id) 0
        timestamp_ns priv.pixel_format priv.width priv.height 0 0 0 0 ::
      (packets ++ [ArvGvspPacket.data_trailer (gstaravissink.next_frame_id priv.frame_id)
        ((1 + packets.length) % 65536) priv.height])).map
        (fun packet => (stream_address, packet))).map (fun d => d.2.block_id))
      = (List.range (packets.length + 2)).map (fun i => i % 65536) := by
    rw [← block_ids_of_frame, ← hids]
    simp [ArvGvspPacket.block_id, Function.comp]
  refine ⟨_, packets.length, hrender, hlen, ?_, hmap_ids, ?_⟩
  · simp
  · intro hsmall
    rw [hmap_ids]
    conv_rhs => rw [← List.map_id (List.range (packets.length + 2))]
    apply List.map_congr_left
    intro i hi
    rw [List.mem_range] at hi
    exact Nat.mod_eq_of_lt (by omega)

/-- C5 (amended) on a concrete frame: 3000 bytes at packet size 1500. -/
theorem C5_block_id_contiguity_witness :
    ∃ (rendered : gstaravissink.Rendered (Nat → Nat)) (n : Nat),
      gstaravissink.gst_aravis_sink_render gige_constants memory_camera 3001
        sink_controlled_by_A (zero_buffer 3000) 0 = some rendered ∧
      n = ((List.replicate 3000 0).length +
          (gstaravissink.gv_packet_size gige_constants
            (memory_camera.read_register controlled_memory
              gige_constants.GVBS_STREAM_CHANNEL_0_PACKET_SIZE_OFFSET).2
            - gige_constants.GVSP_PACKET_PROTOCOL_OVERHEAD) - 1) /
        (gstaravissink.gv_packet_size gige_constants
          (memory_camera.read_register controlled_memory
            gige_constants.GVBS_STREAM_CHANNEL_0_PACKET_SIZE_OFFSET).2
          - gige_constants.GVSP_PACKET_PROTOCOL_OVERHEAD) ∧
      rendered.sent.length = n + 2 ∧
      rendered.sent.map (fun d => d.2.block_id)
        = (List.range (n + 2)).map (fun i => i % 65536) ∧
      (n + 1 < 65536 → rendered.sent.map (fun d => d.2.block_id) = List.range (n + 2)) :=
  C5_block_id_contiguity gige_constants memory_camera 3001 sink_controlled_by_A
    controlled_memory (zero_buffer 3000) (List.replicate 3000 0) 0
    { address := 0x7f000001, port := 20202 }
    rfl (by decide) (by decide) (by decide) (by decide) (by decide) rfl
    (by decide) (by decide) (by decide) (by rw [List.length_replicate]; decide)

/-- The pieces cover the whole length. -/
theorem pieces_mul_ge (L p : Nat) (hp : 0 < p) : L ≤ pieces L p * p := by
  have h : (L + p - 1) / p < pieces L p + 1 := Nat.lt_succ_self _
  rw [Nat.div_lt_iff_lt_mul hp, Nat.add_mul, Nat.one_mul] at h
  omega

/-- Every piece but the last is full. -/
theorem mul_le_of_lt_pieces (L p i : Nat) (hp : 0 < p) (hi : i + 1 < pieces L p) :
    (i + 1) * p ≤ L := by
  have h : i + 2 ≤ (L + p - 1) / p := hi
  rw [Nat.le_div_iff_mul_le hp] at h
  have h2 : (i + 2) * p = (i + 1) * p + p := by ring
  omega

/-- C6 (GVSP reassembly round trip).  For a render that passes every gate,
the data sections of the payload packets, concatenated in emission order, are
exactly the buffer bytes (same length, same content); every payload packet
but the last carries exactly `S - OVERHEAD` bytes and the last carries the
remaining `L - (n - 1) * (S - OVERHEAD)` bytes. -/
theorem C6_reassembly_round_trip (k : ArvConstants) (cam : ArvFakeCamera σ) (fuel : Nat)
    (priv : GstAravisSinkPrivate σ) (camera : σ) (buffer : GstBuffer) (payload : List Nat)
    (real_time : Int) (stream_address : GInetSocketAddress)
    (hcamera : priv.camera = some camera)
    (hprivilege : arv_fake_camera_get_control_channel_privilege k cam camera ≠ 0)
    (hacquisition : arv_fake_camera_get_acquisition_status k cam camera ≠ 0)
    (hstream : cam.get_stream_address camera = some stream_address)
    (haddress : stream_address.address ≠ 0) (hport : stream_address.port ≠ 0)
    (hmap : buffer.map = some payload)
    (hovh : k.GVSP_PACKET_PROTOCOL_OVERHEAD < k.GVSP_MINIMUM_PACKET_SIZE)
    (hminmax : k.GVSP_MINIMUM_PACKET_SIZE ≤ k.GVSP_MAXIMUM_PACKET_SIZE)
    (hmax : k.GVSP_MAXIMUM_PACKET_SIZE < 4294967296)
    (hfuel : payload.length < fuel) :
    ∃ (rendered : gstaravissink.Rendered σ) (leader trailer : ArvGvspPacket)
      (payloads : List ArvGvspPacket),
      gstaravissink.gst_aravis_sink_render k cam fuel priv buffer real_time = some rendered ∧
      rendered.sent = (leader :: (payloads ++ [trailer])).map
        (fun packet => (stream_address, packet)) ∧
      leader.is_leader = true ∧ trailer.is_trailer = true ∧
      (∀ x ∈ payloads, x.is_payload = true) ∧
      (payloads.map ArvGvspPacket.data).flatten = payload ∧
      (∀ (i : Nat) (h : i < payloads.length),
        (i + 1 < payloads.length →
          (payloads.get ⟨i, h⟩).data.length = (gstaravissink.gv_packet_size k
            (cam.read_register camera k.GVBS_STREAM_CHANNEL_0_PACKET_SIZE_OFFSET).2
            - k.GVSP_PACKET_PROTOCOL_OVERHEAD)) ∧
        (i + 1 = payloads.length →
          (payloads.get ⟨i, h⟩).data.length = payload.length - i * (gstaravissink.gv_packet_size k
            (cam.read_register camera k.GVBS_STREAM_CHANNEL_0_PACKET_SIZE_OFFSET).2
            - k.GVSP_PACKET_PROTOCOL_OVERHEAD))) := by
  obtain ⟨packets, timestamp_ns, hrender, hlen, _, hdata, hsizes, hall⟩ :=
    render_frame k cam fuel priv camera buffer payload real_time stream_address hcamera
      hprivilege hacquisition hstream haddress hport hmap hovh hminmax hmax hfuel
  obtain ⟨_, hpos⟩ := gv_packet_payload_eq k
    (cam.read_register camera k.GVBS_STREAM_CHANNEL_0_PACKET_SIZE_OFFSET).2 hovh hminmax hmax
  refine ⟨_, _, _, packets, hrender, rfl, rfl, rfl, fun x hx => (hall x hx).1, hdata, ?_⟩
  intro i h
  have key : (packets.get ⟨i, h⟩).data.length = min (gstaravissink.gv_packet_size k
            (cam.read_register camera k.GVBS_STREAM_CHANNEL_0_PACKET_SIZE_OFFSET).2
            - k.GVSP_PACKET_PROTOCOL_OVERHEAD) (payload.length - i * (gstaravissink.gv_packet_size k
            (cam.read_register camera k.GVBS_STREAM_CHANNEL_0_PACKET_SIZE_OFFSET).2
            - k.GVSP_PACKET_PROTOCOL_OVERHEAD)) := by
    have h2 := congrArg (fun l => l[i]?) hsizes
    simpa [h] using h2
  constructor
  · intro hi
    rw [key]
    rw [hlen] at hi
    have := mul_le_of_lt_pieces _ _ i hpos hi
    rw [Nat.add_mul, Nat.one_mul] at this
    exact Nat.min_eq_left (by omega)
  · intro hi
    rw [key]
    rw [hlen] at hi
    have := pieces_mul_ge payload.length _ hpos
    rw [← hi, Nat.add_mul, Nat.one_mul] at this
    exact Nat.min_eq_right (by omega)

/-- C6 on a concrete frame: 3000 bytes at packet size 1500. -/
theorem C6_reassembly_round_trip_witness :
    ∃ (rendered : gstaravissink.Rendered (Nat → Nat)) (leader trailer : ArvGvspPacket)
      (payloads : List ArvGvspPacket),
      gstaravissink.gst_aravis_sink_render gige_constants memory_camera 3001
        sink_controlled_by_A (zero_buffer 3000) 0 = some rendered ∧
      rendered.sent = (leader :: (payloads ++ [trailer])).map
        (fun packet => (({ address := 0x7f000001, port := 20202 } : GInetSocketAddress), packet)) ∧
      leader.is_leader = true ∧ trailer.is_trailer = true ∧
      (∀ x ∈ payloads, x.is_payload = true) ∧
      (payloads.map ArvGvspPacket.data).flatten = List.replicate 3000 0 ∧
      (∀ (i : Nat) (h : i < payloads.length),
        (i + 1 < payloads.length →
          (payloads.get ⟨i, h⟩).data.length = (gstaravissink.gv_packet_size gige_constants
            (memory_camera.read_register controlled_memory
              gige_constants.GVBS_STREAM_CHANNEL_0_PACKET_SIZE_OFFSET).2
            - gige_constants.GVSP_PACKET_PROTOCOL_OVERHEAD)) ∧
        (i + 1 = payloads.length →
          (payloads.get ⟨i, h⟩).data.length = (List.replicate 3000 0).length - i * (gstaravissink.gv_packet_size gige_constants
            (memory_camera.read_register controlled_memory
              gige_constants.GVBS_STREAM_CHANNEL_0_PACKET_SIZE_OFFSET).2
            - gige_constants.GVSP_PACKET_PROTOCOL_OVERHEAD))) :=
  C6_reassembly_round_trip gige_constants memory_camera 3001 sink_controlled_by_A
    controlled_memory (zero_buffer 3000) (List.replicate 3000 0) 0
    { address := 0x7f000001, port := 20202 }
    rfl (by decide) (by decide) (by decide) (by decide) (by decide) rfl
    (by decide) (by decide) (by decide) (by rw [List.length_replicate]; decide)

/-- The frame-id step in closed form, for a 16-bit value. -/
theorem next_frame_id_eq (f : Nat) (hf : f < 65536) :
    gstaravissink.next_frame_id f = f % 65535 + 1 := by
  unfold gstaravissink.next_frame_id
  simp only
  split_ifs <;> omega

/-- The frame id after `N + 1` steps from 0. -/
theorem iterate_next_frame_id (N : Nat) :
    Nat.iterate gstaravissink.next_frame_id (N + 1) 0 = N % 65535 + 1 := by
  induction N with
  | zero => rfl
  | succ N ih =>
    rw [Function.iterate_succ_apply', ih, next_frame_id_eq _ (by omega)]
    omega

/-- C7 (frame-id sequencing).  A render that passes every gate, entered with
a 16-bit frame id `f`, builds every packet of the frame with frame id
`(f mod 65535) + 1` (that is `f + 1` when `f < 65535` and 1 when `f = 65535`)
and stores it; hence, from the initial value 0 set by `gst_aravis_sink_init`,
the N-th framed buffer carries `((N - 1) mod 65535) + 1`, which is never 0
and lies in 1..65535. -/
theorem C7_frame_id_sequencing (k : ArvConstants) (cam : ArvFakeCamera σ) (fuel : Nat)
    (priv : GstAravisSinkPrivate σ) (camera : σ) (buffer : GstBuffer) (payload : List Nat)
    (real_time : Int) (stream_address : GInetSocketAddress)
    (hcamera : priv.camera = some camera)
    (hprivilege : arv_fake_camera_get_control_channel_privilege k cam camera ≠ 0)
    (hacquisition : arv_fake_camera_get_acquisition_status k cam camera ≠ 0)
    (hstream : cam.get_stream_address camera = some stream_address)
    (haddress : stream_address.address ≠ 0) (hport : stream_address.port ≠ 0)
    (hmap : buffer.map = some payload)
    (hovh : k.GVSP_PACKET_PROTOCOL_OVERHEAD < k.GVSP_MINIMUM_PACKET_SIZE)
    (hminmax : k.GVSP_MINIMUM_PACKET_SIZE ≤ k.GVSP_MAXIMUM_PACKET_SIZE)
    (hmax : k.GVSP_MAXIMUM_PACKET_SIZE < 4294967296)
    (hfuel : payload.length < fuel) (hframe : priv.frame_id < 65536) :
    (∃ rendered : gstaravissink.Rendered σ,
      gstaravissink.gst_aravis_sink_render k cam fuel priv buffer real_time = some rendered ∧
      rendered.priv.frame_id = priv.frame_id % 65535 + 1 ∧
      (∀ d ∈ rendered.sent, d.2.frame_id = priv.frame_id % 65535 + 1)) ∧
    (priv.frame_id < 65535 → priv.frame_id % 65535 + 1 = priv.frame_id + 1) ∧
    (priv.frame_id = 65535 → priv.frame_id % 65535 + 1 = 1) ∧
    (∀ N MONO_8 MONO_16 : Nat, 0 < N →
      Nat.iterate gstaravissink.next_frame_id N
          (gstaravissink.gst_aravis_sink_init σ MONO_8 MONO_16).frame_id
        = (N - 1) % 65535 + 1 ∧
      Nat.iterate gstaravissink.next_frame_id N
          (gstaravissink.gst_aravis_sink_init σ MONO_8 MONO_16).frame_id ≠ 0 ∧
      Nat.iterate gstaravissink.next_frame_id N
          (gstaravissink.gst_aravis_sink_init σ MONO_8 MONO_16).frame_id ≤ 65535) := by
  obtain ⟨packets, timestamp_ns, hrender, _, _, _, _, hall⟩ :=
    render_frame k cam fuel priv camera buffer payload real_time stream_address hcamera
      hprivilege hacquisition hstream haddress hport hmap hovh hminmax hmax hfuel
  refine ⟨⟨_, hrender, next_frame_id_eq _ hframe, ?_⟩, ?_, ?_, ?_⟩
  · intro d hd
    rw [← next_frame_id_eq _ hframe]
    simp only [List.map_cons, List.map_append, List.map_nil, List.mem_cons, List.mem_append,
      List.mem_map, List.mem_singleton, List.not_mem_nil, or_false] at hd
    rcases hd with h | ⟨x, hx, h⟩ | h
    · rw [h]; rfl
    · rw [← h]; exact (hall x hx).2
    · rw [h]; rfl
  · intro h; rw [Nat.mod_eq_of_lt h]
  · intro h; rw [h]
  · intro N MONO_8 MONO_16 hN
    obtain ⟨M, rfl⟩ : ∃ M, N = M + 1 := ⟨N - 1, by omega⟩
    have h := iterate_next_frame_id M
    simp only [gstaravissink.gst_aravis_sink_init, Nat.add_sub_cancel]
    rw [h]
    have := Nat.mod_lt M (show 0 < 65535 by norm_num)
    exact ⟨rfl, by omega, by omega⟩

/-- C7 on a concrete frame: the first frame after start carries frame id 1. -/
theorem C7_frame_id_sequencing_witness :
    ∃ rendered : gstaravissink.Rendered (Nat → Nat),
      gstaravissink.gst_aravis_sink_render gige_constants memory_camera 3001
        sink_controlled_by_A (zero_buffer 3000) 0 = some rendered ∧
      rendered.priv.frame_id = sink_controlled_by_A.frame_id % 65535 + 1 ∧
      (∀ d ∈ rendered.sent, d.2.frame_id = sink_controlled_by_A.frame_id % 65535 + 1) :=
  (C7_frame_id_sequencing gige_constants memory_camera 3001 sink_controlled_by_A
    controlled_memory (zero_buffer 3000) (List.replicate 3000 0) 0
    { address := 0x7f000001, port := 20202 }
    rfl (by decide) (by decide) (by decide) (by decide) (by decide) rfl
    (by decide) (by decide) (by decide) (by rw [List.length_replicate]; decide) (by decide)).1

/-- C8 (gated render).  For every sequence of buffers delivered to a started
sink, if at each render the privilege register or the acquisition status
reads zero, then every render returns GST_FLOW_OK and no datagram is sent on
the GVSP socket. -/
theorem C8_gated_render (k : ArvConstants) (cam : ArvFakeCamera σ) (fuel : Nat)
    (steps : List (σ × GstBuffer × Int))
    (hgated : ∀ step ∈ steps,
      arv_fake_camera_get_control_channel_privilege k cam step.1 = 0 ∨
      arv_fake_camera_get_acquisition_status k cam step.1 = 0)
    (priv : GstAravisSinkPrivate σ) :
    ∃ results : List (gstaravissink.Rendered σ),
      gstaravissink.render_sequence k cam fuel priv steps = some results ∧
      results.length = steps.length ∧
      (∀ r ∈ results, r.flow = .GST_FLOW_OK ∧ r.sent = []) ∧
      (results.map (fun r => r.sent)).flatten = [] := by
  induction steps generalizing priv with
  | nil => exact ⟨[], rfl, rfl, by simp, rfl⟩
  | cons step rest ih =>
    obtain ⟨camera, buffer, real_time⟩ := step
    have hstep := hgated (camera, buffer, real_time) (List.mem_cons_self _ _)
    obtain ⟨tail, htail, hlen, hall, hflat⟩ :=
      ih (fun s hs => hgated s (List.mem_cons_of_mem _ hs)) { priv with camera := some camera }
    have hrender : gstaravissink.gst_aravis_sink_render k cam fuel
        { priv with camera := some camera } buffer real_time
        = some { flow := .GST_FLOW_OK, priv := { priv with camera := some camera }, sent := [] } := by
      simp only [gstaravissink.gst_aravis_sink_render]
      rw [if_pos hstep]
    refine ⟨{ flow := .GST_FLOW_OK, priv := { priv with camera := some camera }, sent := [] }
      :: tail, ?_, ?_, ?_, ?_⟩
    · rw [gstaravissink.render_sequence]
      simp only [hrender, htail]
    · simp [hlen]
    · intro r hr
      rcases List.mem_cons.mp hr with h | h
      · rw [h]; exact ⟨rfl, rfl⟩
      · exact hall r h
    · simp [hflat]

/-- C8 on a concrete run: ten buffers delivered while acquisition is stopped. -/
theorem C8_gated_render_witness :
    ∃ results : List (gstaravissink.Rendered (Nat → Nat)),
      gstaravissink.render_sequence gige_constants memory_camera 100
        sink_controlled_by_A (List.replicate 10 (idle_memory, zero_buffer 64, 0)) = some results ∧
      results.length = (List.replicate 10 (idle_memory, zero_buffer 64, (0 : Int))).length ∧
      (∀ r ∈ results, r.flow = .GST_FLOW_OK ∧ r.sent = []) ∧
      (results.map (fun r => r.sent)).flatten = [] :=
  C8_gated_render gige_constants memory_camera 100
    (List.replicate 10 (idle_memory, zero_buffer 64, 0))
    (fun step hstep => by
      rw [List.eq_of_mem_replicate hstep]
      exact Or.inr (by decide))
    sink_controlled_by_A

end framing

section round_trip

variable {σ : Type}

/-- C10 (discovery round trip).  In the proxy and in the sink, for a
DISCOVERY_CMD with packet id `k` from any peer in any controller state:
exactly one ack is sent, to the source; it is a DISCOVERY_ACK with
packet id `k` whose data are `read_memory (0, DISCOVERY_DATA_SIZE)` of the
backend as it stands when the command is interpreted (after the heartbeat
step); interpreting the command leaves the state as it was; and when the
record is Uncontrolled, or Controlled with the heartbeat alive and the
privilege register non-zero, the data are those of the backend the handler
was entered with and the handler leaves that backend unmodified. -/
theorem C10_discovery_round_trip (k : ArvConstants)
    (vtable : ArvGvcpProxyBackendVTable σ) (cam : ArvFakeCamera σ)
    (read_memory : σ → Nat → Nat → Bool × List Nat)
    (proxy : ArvGvcpProxy σ) (priv : GstAravisSinkPrivate σ) (camera : σ)
    (Q : GInetSocketAddress) (packet : ArvGvcpPacket) (now : RealTime)
    (hread : vtable.read_memory = some read_memory)
    (hcamera : priv.camera = some camera)
    (htype : packet.packet_type = k.GVCP_PACKET_TYPE_CMD)
    (hcmd : packet.command = .DISCOVERY_CMD) :
    ((arvgvcpproxy._handle_control_packet k vtable proxy Q packet now).sent
        = [(Q, .discovery_ack packet.packet_id
            (read_memory (arvgvcpproxy.controller_check k vtable proxy Q now.at_check).1.backend
              0 k.GVBS_DISCOVERY_DATA_SIZE).2)] ∧
      (arvgvcpproxy._handle_control_packet k vtable proxy Q packet now).success = true ∧
      (∀ (state : ArvGvcpProxy σ) (write_access : Bool) (time : Int),
        (arvgvcpproxy.dispatch k vtable state packet write_access time).1 = state) ∧
      ((proxy.controller_address = none ∨
          (elapsed_ms now.at_check proxy.controller_time ≤
              arvgvcpproxy._backend_read_register vtable proxy.backend
                k.GVBS_HEARTBEAT_TIMEOUT_OFFSET 3000 ∧
            arvgvcpproxy._backend_read_register vtable proxy.backend
              k.GVBS_CONTROL_CHANNEL_PRIVILEGE_OFFSET 0 ≠ 0)) →
        (arvgvcpproxy._handle_control_packet k vtable proxy Q packet now).sent
          = [(Q, .discovery_ack packet.packet_id
              (read_memory proxy.backend 0 k.GVBS_DISCOVERY_DATA_SIZE).2)] ∧
        (arvgvcpproxy._handle_control_packet k vtable proxy Q packet now).proxy.backend
          = proxy.backend)) ∧
    ((gstaravissink._handle_control_packet k cam priv Q packet now).sent
        = [(Q, .discovery_ack packet.packet_id
            (cam.read_memory
              (gstaravissink.controller_check k cam priv camera Q now.at_check).2.1
              0 k.GVBS_DISCOVERY_DATA_SIZE).2)] ∧
      (gstaravissink._handle_control_packet k cam priv Q packet now).success = true ∧
      (∀ (state : GstAravisSinkPrivate σ) (camera_state : σ) (write_access : Bool) (time : Int),
        (gstaravissink.dispatch k cam state camera_state packet write_access time).1 = state ∧
        (gstaravissink.dispatch k cam state camera_state packet write_access time).2.1
          = camera_state) ∧
      ((priv.controller_address = none ∨
          elapsed_ms now.at_check priv.controller_time ≤
            arv_fake_camera_get_heartbeat_timeout k cam camera) →
        (gstaravissink._handle_control_packet k cam priv Q packet now).sent
          = [(Q, .discovery_ack packet.packet_id
              (cam.read_memory camera 0 k.GVBS_DISCOVERY_DATA_SIZE).2)] ∧
        (gstaravissink._handle_control_packet k cam priv Q packet now).priv.camera
          = some camera)) := by
  constructor
  · refine ⟨?_, ?_, ?_, ?_⟩
    · simp [arvgvcpproxy._handle_control_packet, htype, arvgvcpproxy.dispatch, hcmd,
        arvgvcpproxy._backend_read_memory, hread]
    · simp [arvgvcpproxy._handle_control_packet, htype, arvgvcpproxy.dispatch, hcmd]
    · intro state write_access time
      simp [arvgvcpproxy.dispatch, hcmd]
    · intro hstate
      have hcheck : (arvgvcpproxy.controller_check k vtable proxy Q now.at_check).1 = proxy := by
        unfold arvgvcpproxy.controller_check
        rcases hstate with h | ⟨h, _⟩
        · simp [h]
        · cases hc : proxy.controller_address with
          | none => rfl
          | some P => simp only []; rw [if_neg (Nat.not_lt.mpr h)]
      have hupdate : (arvgvcpproxy.controller_update k vtable proxy Q now.at_update).backend
          = proxy.backend := by
        unfold arvgvcpproxy.controller_update
        rcases hstate with h | ⟨_, h⟩
        · simp only [h, true_and, ne_eq, not_true_eq_false, false_and, if_false]
          split_ifs <;> rfl
        · simp only [h, ne_eq, not_false_eq_true, and_true, and_false, if_false]
          split_ifs <;> rfl
      simp [arvgvcpproxy._handle_control_packet, htype, arvgvcpproxy.dispatch, hcmd,
        arvgvcpproxy._backend_read_memory, hread, hcheck, hupdate]
  · refine ⟨?_, ?_, ?_, ?_⟩
    · simp [gstaravissink._handle_control_packet, hcamera, htype, gstaravissink.dispatch, hcmd]
    · simp [gstaravissink._handle_control_packet, hcamera, htype, gstaravissink.dispatch, hcmd]
    · intro state camera_state write_access time
      simp [gstaravissink.dispatch, hcmd]
    · intro hstate
      have hcheck : (gstaravissink.controller_check k cam priv camera Q now.at_check).2.1
          = camera := by
        unfold gstaravissink.controller_check
        rcases hstate with h | h
        · simp [h]
        · cases hc : priv.controller_address with
          | none => rfl
          | some P => simp only []; rw [if_neg (Nat.not_lt.mpr h)]
      simp [gstaravissink._handle_control_packet, hcamera, htype, gstaravissink.dispatch, hcmd,
        hcheck]

/-- C10 on a concrete run: peer B sends DISCOVERY_CMD with packet id 1 while A is
the controller. -/
theorem C10_discovery_round_trip_witness :
    (arvgvcpproxy._handle_control_packet gige_constants
        (arvgvcpproxy_backend.fake_vtable memory_camera) proxy_controlled_by_A peer_B
        (command_packet .DISCOVERY_CMD 1 0 0) one_second_later).sent
      = [(peer_B, .discovery_ack 1
          (memory_camera.read_memory controlled_memory 0 248).2)] ∧
    (gstaravissink._handle_control_packet gige_constants memory_camera sink_controlled_by_A
        peer_B (command_packet .DISCOVERY_CMD 1 0 0) one_second_later).sent
      = [(peer_B, .discovery_ack 1
          (memory_camera.read_memory controlled_memory 0 248).2)] :=
  have h := C10_discovery_round_trip gige_constants
    (arvgvcpproxy_backend.fake_vtable memory_camera) memory_camera
    (arvgvcpproxy_backend._fake_read_memory memory_camera)
    proxy_controlled_by_A sink_controlled_by_A controlled_memory peer_B
    (command_packet .DISCOVERY_CMD 1 0 0) one_second_later rfl rfl rfl rfl
  ⟨(h.1.2.2.2 (Or.inr ⟨by decide, by decide⟩)).1, (h.2.2.2.2 (Or.inr (by decide))).1⟩

/-- The ownership update of the proxy keeps a register readable with its
value: its only backend write stores 0 in the privilege register, and it
does so only when that register already reads 0. -/
theorem proxy_update_keeps_register (k : ArvConstants) (vtable : ArvGvcpProxyBackendVTable σ)
    (rr : σ → Nat → Bool × Nat) (wr : σ → Nat → Nat → Bool × σ) (a v : Nat)
    (hrr : vtable.read_register = some rr) (hwr : vtable.write_register = some wr)
    (hwritable : ∀ s, rr (wr s a v).2 a = (true, v))
    (hindep : a ≠ k.GVBS_CONTROL_CHANNEL_PRIVILEGE_OFFSET →
      ∀ s, rr (wr s k.GVBS_CONTROL_CHANNEL_PRIVILEGE_OFFSET 0).2 a = rr s a)
    (state : ArvGvcpProxy σ) (Q : GInetSocketAddress) (time : Int)
    (hvalue : rr state.backend a = (true, v)) :
    rr (arvgvcpproxy.controller_update k vtable state Q time).backend a = (true, v) ∧
    (a = k.GVBS_CONTROL_CHANNEL_PRIVILEGE_OFFSET → v = 0 →
      (arvgvcpproxy.controller_update k vtable state Q time).controller_address = none) := by
  have hread : a = k.GVBS_CONTROL_CHANNEL_PRIVILEGE_OFFSET →
      arvgvcpproxy._backend_read_register vtable state.backend
        k.GVBS_CONTROL_CHANNEL_PRIVILEGE_OFFSET 0 = v := by
    intro ha
    rw [← ha]
    simp [arvgvcpproxy._backend_read_register, hrr, hvalue]
  unfold arvgvcpproxy.controller_update
  split_ifs with h1 h2
  · refine ⟨hvalue, ?_⟩
    intro ha hv
    exact absurd ((hread ha).trans hv) h1.2
  · cases hc : state.controller_address with
    | none => exact absurd hc h2.1
    | some P =>
      simp only [arvgvcpproxy._proxy_release_controller, hc,
        arvgvcpproxy._backend_write_register, hwr]
      refine ⟨?_, fun _ _ => trivial⟩
      by_cases ha : a = k.GVBS_CONTROL_CHANNEL_PRIVILEGE_OFFSET
      · have hv : v = 0 := (hread ha).symm.trans h2.2
        have := hwritable state.backend
        rw [ha, hv] at this ⊢
        exact this
      · rw [hindep ha]; exact hvalue
  · refine ⟨hvalue, ?_⟩
    intro ha hv
    have hz := (hread ha).trans hv
    cases hc : state.controller_address with
    | none => rfl
    | some P =>
      exfalso
      apply h2
      exact ⟨by simp [hc], hz⟩

/-- The heartbeat step of the proxy keeps a register readable with its value
unless the register is the privilege register and the heartbeat expires. -/
theorem proxy_check_keeps_register (k : ArvConstants) (vtable : ArvGvcpProxyBackendVTable σ)
    (rr : σ → Nat → Bool × Nat) (wr : σ → Nat → Nat → Bool × σ) (a v : Nat)
    (hwr : vtable.write_register = some wr)
    (hindep : a ≠ k.GVBS_CONTROL_CHANNEL_PRIVILEGE_OFFSET →
      ∀ s, rr (wr s k.GVBS_CONTROL_CHANNEL_PRIVILEGE_OFFSET 0).2 a = rr s a)
    (state : ArvGvcpProxy σ) (Q : GInetSocketAddress) (time : Int)
    (hvalue : rr state.backend a = (true, v))
    (hheart : a = k.GVBS_CONTROL_CHANNEL_PRIVILEGE_OFFSET → state.controller_address ≠ none →
      elapsed_ms time state.controller_time ≤
        arvgvcpproxy._backend_read_register vtable state.backend
          k.GVBS_HEARTBEAT_TIMEOUT_OFFSET 3000) :
    rr (arvgvcpproxy.controller_check k vtable state Q time).1.backend a = (true, v) := by
  unfold arvgvcpproxy.controller_check
  cases hc : state.controller_address with
  | none => exact hvalue
  | some P =>
    simp only []
    split_ifs with hexp
    · simp only [arvgvcpproxy._proxy_release_controller, hc,
        arvgvcpproxy._backend_write_register, hwr]
      by_cases ha : a = k.GVBS_CONTROL_CHANNEL_PRIVILEGE_OFFSET
      · exact absurd (hheart ha (by simp [hc])) (Nat.not_le.mpr hexp)
      · rw [hindep ha]; exact hvalue
    · exact hvalue

/-- The heartbeat step of the sink keeps a register readable with its value
unless the register is the privilege register and the heartbeat expires. -/
theorem sink_check_keeps_register (k : ArvConstants) (cam : ArvFakeCamera σ) (a v : Nat)
    (hindep : a ≠ k.GVBS_CONTROL_CHANNEL_PRIVILEGE_OFFSET →
      ∀ s, cam.read_register (cam.write_register s k.GVBS_CONTROL_CHANNEL_PRIVILEGE_OFFSET 0).2 a
        = cam.read_register s a)
    (priv : GstAravisSinkPrivate σ) (camera : σ) (Q : GInetSocketAddress) (time : Int)
    (hvalue : cam.read_register camera a = (true, v))
    (hheart : a = k.GVBS_CONTROL_CHANNEL_PRIVILEGE_OFFSET → priv.controller_address ≠ none →
      elapsed_ms time priv.controller_time ≤ arv_fake_camera_get_heartbeat_timeout k cam camera) :
    cam.read_register (gstaravissink.controller_check k cam priv camera Q time).2.1 a
      = (true, v) := by
  unfold gstaravissink.controller_check
  cases hc : priv.controller_address with
  | none => exact hvalue
  | some P =>
    simp only []
    split_ifs with hexp
    · simp only [arv_fake_camera_set_control_channel_privilege]
      by_cases ha : a = k.GVBS_CONTROL_CHANNEL_PRIVILEGE_OFFSET
      · exact absurd (hheart ha (by simp [hc])) (Nat.not_le.mpr hexp)
      · rw [hindep ha]; exact hvalue
    · exact hvalue

/-- The ownership update of the sink releases the controller when the
privilege register reads 0. -/
theorem sink_update_releases (k : ArvConstants) (cam : ArvFakeCamera σ)
    (priv : GstAravisSinkPrivate σ) (camera : σ) (Q : GInetSocketAddress) (time : Int)
    (hzero : arv_fake_camera_get_control_channel_privilege k cam camera = 0) :
    (gstaravissink.controller_update k cam priv camera Q time).controller_address = none := by
  unfold gstaravissink.controller_update
  simp only [hzero, ne_eq, not_true_eq_false, and_false, if_false, and_true]
  split_ifs with h
  · exact h
  · rfl

/-- C9, as stated, fails.  The privilege register is writable (a write of 3
reads back 3).  Controller A writes 3 to it one second after its last
contact and is acknowledged; ten seconds after that last contact A reads
the register: the heartbeat (3000 ms) has expired, the register is forced to
0 before the read, and the READ_REGISTER_ACK carries 0, not 3.  Proxy and
sink alike. -/
theorem C9_privilege_read_after_expiry_returns_zero :
    memory_camera.read_register
      (memory_camera.write_register controlled_memory 0x0a00 3).2 0x0a00 = (true, 3) ∧
    (arvgvcpproxy._handle_control_packet gige_constants
        (arvgvcpproxy_backend.fake_vtable memory_camera) proxy_controlled_by_A peer_A
        (command_packet .WRITE_REGISTER_CMD 7 0x0a00 3) one_second_later).sent
      = [(peer_A, .write_register_ack 1 7)] ∧
    (arvgvcpproxy._handle_control_packet gige_constants
        (arvgvcpproxy_backend.fake_vtable memory_camera)
        (arvgvcpproxy._handle_control_packet gige_constants
          (arvgvcpproxy_backend.fake_vtable memory_camera) proxy_controlled_by_A peer_A
          (command_packet .WRITE_REGISTER_CMD 7 0x0a00 3) one_second_later).proxy
        peer_A (command_packet .READ_REGISTER_CMD 8 0x0a00 0) ten_seconds_later).sent
      = [(peer_A, .read_register_ack 0 8)] ∧
    (gstaravissink._handle_control_packet gige_constants memory_camera sink_controlled_by_A
        peer_A (command_packet .WRITE_REGISTER_CMD 7 0x0a00 3) one_second_later).sent
      = [(peer_A, .write_register_ack 1 7)] ∧
    (gstaravissink._handle_control_packet gige_constants memory_camera
        (gstaravissink._handle_control_packet gige_constants memory_camera sink_controlled_by_A
          peer_A (command_packet .WRITE_REGISTER_CMD 7 0x0a00 3) one_second_later).priv
        peer_A (command_packet .READ_REGISTER_CMD 8 0x0a00 0) ten_seconds_later).sent
      = [(peer_A, .read_register_ack 0 8)] := by
  refine ⟨?_, ?_, ?_, ?_, ?_⟩ <;> decide

/-- C9, amended.  Let `a` be writable in the backend (a write of `v` to `a`
followed by a read of `a` succeeds and returns `v`) and, when `a` is not the
privilege register, untouched by a write of 0 to the privilege register.
Handling WRITE_REGISTER_CMD(a, v) from a peer with write access and then
READ_REGISTER_CMD(a) from any peer yields one READ_REGISTER_ACK whose value
is `v` and whose packet id is that of the read, provided that, when `a` is
the privilege register and `v` is not 0, the heartbeat of the controller has
not expired when the read is handled. -/
theorem C9_register_round_trip (k : ArvConstants)
    (vtable : ArvGvcpProxyBackendVTable σ) (cam : ArvFakeCamera σ)
    (rr : σ → Nat → Bool × Nat) (wr : σ → Nat → Nat → Bool × σ)
    (proxy : ArvGvcpProxy σ) (priv : GstAravisSinkPrivate σ) (camera : σ)
    (Q Q2 : GInetSocketAddress) (wpacket rpacket : ArvGvcpPacket) (now now2 : RealTime)
    (a v : Nat)
    (hrr : vtable.read_register = some rr) (hwr : vtable.write_register = some wr)
    (hcamera : priv.camera = some camera)
    (hwritable_proxy : ∀ s, rr (wr s a v).2 a = (true, v))
    (hwritable_sink : ∀ s, cam.read_register (cam.write_register s a v).2 a = (true, v))
    (hindep_proxy : a ≠ k.GVBS_CONTROL_CHANNEL_PRIVILEGE_OFFSET →
      ∀ s, rr (wr s k.GVBS_CONTROL_CHANNEL_PRIVILEGE_OFFSET 0).2 a = rr s a)
    (hindep_sink : a ≠ k.GVBS_CONTROL_CHANNEL_PRIVILEGE_OFFSET →
      ∀ s, cam.read_register (cam.write_register s k.GVBS_CONTROL_CHANNEL_PRIVILEGE_OFFSET 0).2 a
        = cam.read_register s a)
    (hwtype : wpacket.packet_type = k.GVCP_PACKET_TYPE_CMD)
    (hwcmd : wpacket.command = .WRITE_REGISTER_CMD)
    (hwinfo : wpacket.write_register_cmd_infos = (a, v))
    (hrtype : rpacket.packet_type = k.GVCP_PACKET_TYPE_CMD)
    (hrcmd : rpacket.command = .READ_REGISTER_CMD)
    (hrinfo : rpacket.read_register_cmd_infos = a)
    (haccess_proxy : (arvgvcpproxy.controller_check k vtable proxy Q now.at_check).2 = true)
    (haccess_sink : (gstaravissink.controller_check k cam priv camera Q now.at_check).2.2 = true)
    (hheart_proxy : a = k.GVBS_CONTROL_CHANNEL_PRIVILEGE_OFFSET → v ≠ 0 →
      elapsed_ms now2.at_check (arvgvcpproxy._handle_control_packet k vtable proxy Q wpacket now).proxy.controller_time ≤
        arvgvcpproxy._backend_read_register vtable (arvgvcpproxy._handle_control_packet k vtable proxy Q wpacket now).proxy.backend
          k.GVBS_HEARTBEAT_TIMEOUT_OFFSET 3000)
    (hheart_sink : a = k.GVBS_CONTROL_CHANNEL_PRIVILEGE_OFFSET → v ≠ 0 →
      ∀ camera_after, (gstaravissink._handle_control_packet k cam priv Q wpacket now).priv.camera = some camera_after →
      elapsed_ms now2.at_check (gstaravissink._handle_control_packet k cam priv Q wpacket now).priv.controller_time ≤
        arv_fake_camera_get_heartbeat_timeout k cam camera_after) :
    (arvgvcpproxy._handle_control_packet k vtable (arvgvcpproxy._handle_control_packet k vtable proxy Q wpacket now).proxy Q2 rpacket now2).sent
      = [(Q2, .read_register_ack v rpacket.packet_id)] ∧
    (gstaravissink._handle_control_packet k cam (gstaravissink._handle_control_packet k cam priv Q wpacket now).priv Q2 rpacket now2).sent
      = [(Q2, .read_register_ack v rpacket.packet_id)] := by
  constructor
  · -- the proxy
    have h1 : (arvgvcpproxy._handle_control_packet k vtable proxy Q wpacket now).proxy = arvgvcpproxy.controller_update k vtable
        { (arvgvcpproxy.controller_check k vtable proxy Q now.at_check).1 with
          backend := (wr (arvgvcpproxy.controller_check k vtable proxy Q now.at_check).1.backend
            a v).2 } Q now.at_update := by
      simp [arvgvcpproxy._handle_control_packet, hwtype, arvgvcpproxy.dispatch, hwcmd,
        haccess_proxy, hwr, hwinfo]
    obtain ⟨hval, hnone⟩ := proxy_update_keeps_register k vtable rr wr a v hrr hwr
      hwritable_proxy hindep_proxy
      { (arvgvcpproxy.controller_check k vtable proxy Q now.at_check).1 with
        backend := (wr (arvgvcpproxy.controller_check k vtable proxy Q now.at_check).1.backend
          a v).2 } Q now.at_update (hwritable_proxy _)
    rw [← h1] at hval hnone
    have hchk := proxy_check_keeps_register k vtable rr wr a v hwr hindep_proxy
      (arvgvcpproxy._handle_control_packet k vtable proxy Q wpacket now).proxy Q2 now2.at_check hval
      (by
        intro ha hc
        by_cases hv : v = 0
        · exact absurd (hnone ha hv) hc
        · exact hheart_proxy ha hv)
    revert hchk
    generalize (arvgvcpproxy._handle_control_packet k vtable proxy Q wpacket now).proxy = state
    intro hchk
    simp [arvgvcpproxy._handle_control_packet, hrtype, arvgvcpproxy.dispatch, hrcmd, hrr,
      hrinfo, hchk]
  · -- the sink
    have hcam1 : (gstaravissink._handle_control_packet k cam priv Q wpacket now).priv.camera = some (cam.write_register
        (gstaravissink.controller_check k cam priv camera Q now.at_check).2.1 a v).2 := by
      simp [gstaravissink._handle_control_packet, hcamera, hwtype, gstaravissink.dispatch,
        hwcmd, haccess_sink, hwinfo]
    have hctl1 : (gstaravissink._handle_control_packet k cam priv Q wpacket now).priv.controller_address
        = (gstaravissink.controller_update k cam
            (gstaravissink.controller_check k cam priv camera Q now.at_check).1
            (cam.write_register
              (gstaravissink.controller_check k cam priv camera Q now.at_check).2.1 a v).2
            Q now.at_update).controller_address := by
      simp [gstaravissink._handle_control_packet, hcamera, hwtype, gstaravissink.dispatch,
        hwcmd, haccess_sink, hwinfo]
    have hval := hwritable_sink
      (gstaravissink.controller_check k cam priv camera Q now.at_check).2.1
    have hchk := sink_check_keeps_register k cam a v hindep_sink (gstaravissink._handle_control_packet k cam priv Q wpacket now).priv
      (cam.write_register
        (gstaravissink.controller_check k cam priv camera Q now.at_check).2.1 a v).2
      Q2 now2.at_check hval
      (by
        intro ha hc
        by_cases hv : v = 0
        · exfalso
          apply hc
          rw [hctl1]
          apply sink_update_releases
          unfold arv_fake_camera_get_control_channel_privilege
          rw [← ha, hval, hv]
        · exact hheart_sink ha hv _ hcam1)
    revert hchk hcam1
    generalize (gstaravissink._handle_control_packet k cam priv Q wpacket now).priv = state
    intro hchk hcam1
    simp [gstaravissink._handle_control_packet, hcam1, hrtype, gstaravissink.dispatch, hrcmd,
      hrinfo, hchk]

/-- C9 (amended) on a concrete run: A writes 3 to the privilege register, B reads
it back within the heartbeat timeout. -/
theorem C9_register_round_trip_witness :
    (arvgvcpproxy._handle_control_packet gige_constants
        (arvgvcpproxy_backend.fake_vtable memory_camera)
        (arvgvcpproxy._handle_control_packet gige_constants
          (arvgvcpproxy_backend.fake_vtable memory_camera) proxy_controlled_by_A peer_A
          (command_packet .WRITE_REGISTER_CMD 7 0x0a00 3) one_second_later).proxy
        peer_B (command_packet .READ_REGISTER_CMD 8 0x0a00 0) one_second_later).sent
      = [(peer_B, .read_register_ack 3 8)] ∧
    (gstaravissink._handle_control_packet gige_constants memory_camera
        (gstaravissink._handle_control_packet gige_constants memory_camera sink_controlled_by_A
          peer_A (command_packet .WRITE_REGISTER_CMD 7 0x0a00 3) one_second_later).priv
        peer_B (command_packet .READ_REGISTER_CMD 8 0x0a00 0) one_second_later).sent
      = [(peer_B, .read_register_ack 3 8)] :=
  C9_register_round_trip gige_constants
    (arvgvcpproxy_backend.fake_vtable memory_camera) memory_camera
    (arvgvcpproxy_backend._fake_read_register memory_camera)
    (arvgvcpproxy_backend._fake_write_register memory_camera)
    proxy_controlled_by_A sink_controlled_by_A controlled_memory peer_A peer_B
    (command_packet .WRITE_REGISTER_CMD 7 0x0a00 3)
    (command_packet .READ_REGISTER_CMD 8 0x0a00 0) one_second_later one_second_later
    0x0a00 3 rfl rfl rfl
    (fun s => by
      simp [arvgvcpproxy_backend._fake_read_register,
        arvgvcpproxy_backend._fake_write_register, memory_camera])
    (fun s => by simp [memory_camera])
    (fun h => absurd rfl h) (fun h => absurd rfl h)
    rfl rfl rfl rfl rfl rfl (by decide) (by decide)
    (fun _ _ => by decide)
    (fun _ _ camera_after h => by
      have hc : camera_after = (memory_camera.write_register controlled_memory 0x0a00 3).2 := by
        have h2 : (gstaravissink._handle_control_packet gige_constants memory_camera
            sink_controlled_by_A peer_A (command_packet .WRITE_REGISTER_CMD 7 0x0a00 3)
            one_second_later).priv.camera
            = some (memory_camera.write_register controlled_memory 0x0a00 3).2 := rfl
        rw [h2] at h
        exact (Option.some.inj h).symm
      rw [hc]
      decide)

end round_trip

section engine

variable {σ : Type}

/-- C11 (ack identity).  In the proxy and in the sink, for every inbound
packet, every state and every source: at most one ack is sent, it is
addressed to the source of the packet, and it carries the packet id of the
inbound packet. -/
theorem C11_ack_identity (k : ArvConstants)
    (vtable : ArvGvcpProxyBackendVTable σ) (cam : ArvFakeCamera σ)
    (proxy : ArvGvcpProxy σ) (priv : GstAravisSinkPrivate σ)
    (Q : GInetSocketAddress) (packet : ArvGvcpPacket) (now : RealTime) :
    ((arvgvcpproxy._handle_control_packet k vtable proxy Q packet now).sent.length ≤ 1 ∧
      ∀ d ∈ (arvgvcpproxy._handle_control_packet k vtable proxy Q packet now).sent,
        d.1 = Q ∧ d.2.packet_id = packet.packet_id) ∧
    ((gstaravissink._handle_control_packet k cam priv Q packet now).sent.length ≤ 1 ∧
      ∀ d ∈ (gstaravissink._handle_control_packet k cam priv Q packet now).sent,
        d.1 = Q ∧ d.2.packet_id = packet.packet_id) := by
  constructor
  · unfold arvgvcpproxy._handle_control_packet
    by_cases htype : packet.packet_type = k.GVCP_PACKET_TYPE_CMD
    · simp only [htype, ne_eq, not_true_eq_false, if_false]
      unfold arvgvcpproxy.dispatch
      cases packet.command <;> simp only [] <;> (try split_ifs) <;>
        simp [ArvGvcpAck.packet_id]
    · simp [htype]
  · unfold gstaravissink._handle_control_packet
    cases priv.camera with
    | none => simp
    | some camera =>
      by_cases htype : packet.packet_type = k.GVCP_PACKET_TYPE_CMD
      · simp only [htype, ne_eq, not_true_eq_false, if_false]
        unfold gstaravissink.dispatch
        cases packet.command <;> simp only [] <;> (try split_ifs) <;>
          simp [ArvGvcpAck.packet_id]
      · simp [htype]

/-- C12 (unknown packets are dropped).  In the proxy and in the sink: a packet
whose type is not CMD, and a CMD packet whose command is none of the five
recognised ones, gets no ack and the handler returns FALSE; the handler
returns, and a DISCOVERY_CMD handled next on the state it left is
acknowledged. -/
theorem C12_unknown_packets_dropped (k : ArvConstants)
    (vtable : ArvGvcpProxyBackendVTable σ) (cam : ArvFakeCamera σ)
    (proxy : ArvGvcpProxy σ) (priv : GstAravisSinkPrivate σ) (camera : σ)
    (Q Q2 : GInetSocketAddress) (packet next : ArvGvcpPacket) (now now2 : RealTime)
    (hcamera : priv.camera = some camera)
    (hunknown : packet.packet_type ≠ k.GVCP_PACKET_TYPE_CMD ∨
      (packet.command ≠ .DISCOVERY_CMD ∧ packet.command ≠ .READ_MEMORY_CMD ∧
       packet.command ≠ .WRITE_MEMORY_CMD ∧ packet.command ≠ .READ_REGISTER_CMD ∧
       packet.command ≠ .WRITE_REGISTER_CMD))
    (hnext_type : next.packet_type = k.GVCP_PACKET_TYPE_CMD)
    (hnext : next.command = .DISCOVERY_CMD) :
    ((arvgvcpproxy._handle_control_packet k vtable proxy Q packet now).sent = [] ∧
      (arvgvcpproxy._handle_control_packet k vtable proxy Q packet now).success = false ∧
      (arvgvcpproxy._handle_control_packet k vtable
        (arvgvcpproxy._handle_control_packet k vtable proxy Q packet now).proxy
        Q2 next now2).sent.length = 1 ∧
      (arvgvcpproxy._handle_control_packet k vtable
        (arvgvcpproxy._handle_control_packet k vtable proxy Q packet now).proxy
        Q2 next now2).success = true) ∧
    ((gstaravissink._handle_control_packet k cam priv Q packet now).sent = [] ∧
      (gstaravissink._handle_control_packet k cam priv Q packet now).success = false ∧
      (gstaravissink._handle_control_packet k cam
        (gstaravissink._handle_control_packet k cam priv Q packet now).priv
        Q2 next now2).sent.length = 1 ∧
      (gstaravissink._handle_control_packet k cam
        (gstaravissink._handle_control_packet k cam priv Q packet now).priv
        Q2 next now2).success = true) := by
  have hproxy_next : ∀ state : ArvGvcpProxy σ,
      (arvgvcpproxy._handle_control_packet k vtable state Q2 next now2).sent.length = 1 ∧
      (arvgvcpproxy._handle_control_packet k vtable state Q2 next now2).success = true := by
    intro state
    simp [arvgvcpproxy._handle_control_packet, hnext_type, arvgvcpproxy.dispatch, hnext]
  have hsink_next : ∀ state : GstAravisSinkPrivate σ, (∃ c, state.camera = some c) →
      (gstaravissink._handle_control_packet k cam state Q2 next now2).sent.length = 1 ∧
      (gstaravissink._handle_control_packet k cam state Q2 next now2).success = true := by
    intro state ⟨c, hc⟩
    simp [gstaravissink._handle_control_packet, hc, hnext_type, gstaravissink.dispatch, hnext]
  have hsink_camera : ∃ c,
      (gstaravissink._handle_control_packet k cam priv Q packet now).priv.camera = some c := by
    unfold gstaravissink._handle_control_packet
    simp only [hcamera]
    split_ifs <;> exact ⟨_, rfl⟩
  have hcode : packet.packet_type ≠ k.GVCP_PACKET_TYPE_CMD ∨
      ∃ code, packet.command = .UNKNOWN code := by
    rcases hunknown with h | ⟨h1, h2, h3, h4, h5⟩
    · exact Or.inl h
    · right
      cases hc : packet.command <;> simp_all
  have hdrop_proxy :
      (arvgvcpproxy._handle_control_packet k vtable proxy Q packet now).sent = [] ∧
      (arvgvcpproxy._handle_control_packet k vtable proxy Q packet now).success = false := by
    by_cases ht : packet.packet_type = k.GVCP_PACKET_TYPE_CMD
    · rcases hcode with h | ⟨code, h⟩
      · exact absurd ht h
      · simp [arvgvcpproxy._handle_control_packet, ht, arvgvcpproxy.dispatch, h]
    · simp [arvgvcpproxy._handle_control_packet, ht]
  have hdrop_sink :
      (gstaravissink._handle_control_packet k cam priv Q packet now).sent = [] ∧
      (gstaravissink._handle_control_packet k cam priv Q packet now).success = false := by
    by_cases ht : packet.packet_type = k.GVCP_PACKET_TYPE_CMD
    · rcases hcode with h | ⟨code, h⟩
      · exact absurd ht h
      · simp [gstaravissink._handle_control_packet, hcamera, ht, gstaravissink.dispatch, h]
    · simp [gstaravissink._handle_control_packet, hcamera, ht]
  exact ⟨⟨hdrop_proxy.1, hdrop_proxy.2, hproxy_next _⟩,
    ⟨hdrop_sink.1, hdrop_sink.2, hsink_next _ hsink_camera⟩⟩

/-- C12 on a concrete run: command 0xFFFF from peer B while A is the
controller, then a DISCOVERY_CMD from B. -/
theorem C12_unknown_packets_dropped_witness :
    (arvgvcpproxy._handle_control_packet gige_constants
        (arvgvcpproxy_backend.fake_vtable memory_camera) proxy_controlled_by_A peer_B
        (command_packet (.UNKNOWN 0xffff) 5 0 0) one_second_later).sent = [] ∧
    (gstaravissink._handle_control_packet gige_constants memory_camera sink_controlled_by_A
        peer_B (command_packet (.UNKNOWN 0xffff) 5 0 0) one_second_later).sent = [] :=
  have h := C12_unknown_packets_dropped gige_constants
    (arvgvcpproxy_backend.fake_vtable memory_camera) memory_camera proxy_controlled_by_A
    sink_controlled_by_A controlled_memory peer_B peer_B
    (command_packet (.UNKNOWN 0xffff) 5 0 0) (command_packet .DISCOVERY_CMD 6 0 0)
    one_second_later one_second_later rfl
    (Or.inr ⟨by decide, by decide, by decide, by decide, by decide⟩) rfl rfl
  ⟨h.1.1, h.2.1⟩

end engine

section ownership

variable {σ : Type}

/-- Addresses are equal for `_g_inet_socket_address_is_equal` exactly when
they are the same address and port. -/
theorem is_equal_iff (Q P : GInetSocketAddress) :
    _g_inet_socket_address_is_equal Q P = true ↔ Q = P := by
  constructor
  · intro h
    unfold _g_inet_socket_address_is_equal at h
    by_cases hp : Q.port = P.port
    · simp [hp] at h
      cases Q; cases P; simp_all
    · simp [hp] at h
  · intro h
    rw [h]
    exact is_equal_self P

/-- Whatever state it starts from, the ownership update of the proxy leaves a
state in which a controller implies a non-zero privilege register. -/
theorem proxy_update_invariant (k : ArvConstants) (vtable : ArvGvcpProxyBackendVTable σ)
    (state : ArvGvcpProxy σ) (Q : GInetSocketAddress) (time : Int) :
    (arvgvcpproxy.controller_update k vtable state Q time).controller_address ≠ none →
    arvgvcpproxy._backend_read_register vtable
      (arvgvcpproxy.controller_update k vtable state Q time).backend
      k.GVBS_CONTROL_CHANNEL_PRIVILEGE_OFFSET 0 ≠ 0 := by
  unfold arvgvcpproxy.controller_update
  split_ifs with h1 h2
  · intro _; exact h1.2
  · intro h
    exfalso
    apply h
    cases hc : state.controller_address with
    | none => exact absurd hc h2.1
    | some P => simp [arvgvcpproxy._proxy_release_controller, hc]
  · intro h hz
    exact h2 ⟨h, hz⟩

/-- Whatever state it starts from, the ownership update of the sink leaves a
state in which a controller implies a non-zero privilege register. -/
theorem sink_update_invariant (k : ArvConstants) (cam : ArvFakeCamera σ)
    (state : GstAravisSinkPrivate σ) (camera : σ) (Q : GInetSocketAddress) (time : Int) :
    (gstaravissink.controller_update k cam state camera Q time).controller_address ≠ none →
    arv_fake_camera_get_control_channel_privilege k cam camera ≠ 0 := by
  unfold gstaravissink.controller_update
  split_ifs with h1 h2
  · intro _; exact h1.2
  · intro h; exact absurd rfl h
  · intro h hz
    exact h2 ⟨h, hz⟩

/-- C14 (controller/privilege invariant).  The predicate "a controller is
recorded implies the CONTROL_CHANNEL_PRIVILEGE register reads non-zero" is
preserved by every run of `_handle_control_packet`, on any packet, from any
source, at any time, in the proxy and in the sink; and it holds in the initial
states, where no controller is recorded. -/
theorem C14_controller_privilege_invariant (k : ArvConstants)
    (vtable : ArvGvcpProxyBackendVTable σ) (cam : ArvFakeCamera σ)
    (proxy : ArvGvcpProxy σ) (priv : GstAravisSinkPrivate σ)
    (Q : GInetSocketAddress) (packet : ArvGvcpPacket) (now : RealTime)
    (hinv_proxy : proxy.controller_address ≠ none →
      arvgvcpproxy._backend_read_register vtable proxy.backend
        k.GVBS_CONTROL_CHANNEL_PRIVILEGE_OFFSET 0 ≠ 0)
    (hinv_sink : ∀ camera, priv.camera = some camera → priv.controller_address ≠ none →
      arv_fake_camera_get_control_channel_privilege k cam camera ≠ 0) :
    ((arvgvcpproxy._handle_control_packet k vtable proxy Q packet now).proxy.controller_address ≠ none →
      arvgvcpproxy._backend_read_register vtable (arvgvcpproxy._handle_control_packet k vtable proxy Q packet now).proxy.backend
        k.GVBS_CONTROL_CHANNEL_PRIVILEGE_OFFSET 0 ≠ 0) ∧
    (∀ camera, (gstaravissink._handle_control_packet k cam priv Q packet now).priv.camera = some camera → (gstaravissink._handle_control_packet k cam priv Q packet now).priv.controller_address ≠ none →
      arv_fake_camera_get_control_channel_privilege k cam camera ≠ 0) ∧
    (∀ backend : σ, (arvgvcpproxy.initial_proxy backend).controller_address = none) ∧
    (∀ MONO_8 MONO_16 : Nat,
      (gstaravissink.gst_aravis_sink_init σ MONO_8 MONO_16).controller_address = none) := by
  refine ⟨?_, ?_, fun _ => rfl, fun _ _ => rfl⟩
  · unfold arvgvcpproxy._handle_control_packet
    by_cases htype : packet.packet_type = k.GVCP_PACKET_TYPE_CMD
    · simp only [htype, ne_eq, not_true_eq_false, if_false]
      exact proxy_update_invariant k vtable _ Q now.at_update
    · simp only [ne_eq, htype, not_false_eq_true, if_true]
      unfold arvgvcpproxy.controller_check
      cases hc : proxy.controller_address with
      | none =>
        simp only []
        intro h
        exact absurd hc h
      | some P =>
        simp only []
        split_ifs with hexp
        · simp [arvgvcpproxy._proxy_release_controller, hc]
        · intro _
          exact hinv_proxy (by simp [hc])
  · intro camera_after
    unfold gstaravissink._handle_control_packet
    cases hcam : priv.camera with
    | none => simp [hcam]
    | some camera =>
      simp only []
      by_cases htype : packet.packet_type = k.GVCP_PACKET_TYPE_CMD
      · simp only [htype, ne_eq, not_true_eq_false, if_false, Option.some.injEq]
        intro hafter
        rw [← hafter]
        exact sink_update_invariant k cam _ _ Q now.at_update
      · simp only [ne_eq, htype, not_false_eq_true, if_true, Option.some.injEq]
        unfold gstaravissink.controller_check
        cases hc : priv.controller_address with
        | none =>
          simp only []
          intro _ h
          exact absurd hc h
        | some P =>
          simp only []
          split_ifs with hexp
          · simp
          · intro hafter _
            rw [← hafter]
            exact hinv_sink camera hcam (by simp [hc])

/-- C14 on a concrete run: controller A, a granted write of 0 to the privilege
register; the invariant holds before and after. -/
theorem C14_controller_privilege_invariant_witness :
    ((arvgvcpproxy._handle_control_packet gige_constants
        (arvgvcpproxy_backend.fake_vtable memory_camera) proxy_controlled_by_A peer_A
        (command_packet .WRITE_REGISTER_CMD 7 0x0a00 0) one_second_later).proxy.controller_address
        ≠ none →
      arvgvcpproxy._backend_read_register (arvgvcpproxy_backend.fake_vtable memory_camera)
        (arvgvcpproxy._handle_control_packet gige_constants
          (arvgvcpproxy_backend.fake_vtable memory_camera) proxy_controlled_by_A peer_A
          (command_packet .WRITE_REGISTER_CMD 7 0x0a00 0) one_second_later).proxy.backend
        gige_constants.GVBS_CONTROL_CHANNEL_PRIVILEGE_OFFSET 0 ≠ 0) ∧
    (∀ camera,
      (gstaravissink._handle_control_packet gige_constants memory_camera sink_controlled_by_A
        peer_A (command_packet .WRITE_REGISTER_CMD 7 0x0a00 0) one_second_later).priv.camera
        = some camera →
      (gstaravissink._handle_control_packet gige_constants memory_camera sink_controlled_by_A
        peer_A (command_packet .WRITE_REGISTER_CMD 7 0x0a00 0)
        one_second_later).priv.controller_address ≠ none →
      arv_fake_camera_get_control_channel_privilege gige_constants memory_camera camera ≠ 0) :=
  have h := C14_controller_privilege_invariant gige_constants
    (arvgvcpproxy_backend.fake_vtable memory_camera) memory_camera proxy_controlled_by_A
    sink_controlled_by_A peer_A (command_packet .WRITE_REGISTER_CMD 7 0x0a00 0)
    one_second_later (fun _ => by decide)
    (fun camera hcamera _ => by
      have hc : camera = controlled_memory := (Option.some.inj hcamera).symm
      rw [hc]
      decide)
  ⟨h.1, h.2.1⟩

/-- C15, as stated, fails.  Controller A, timeout 3000 ms, clock 3000.999 ms
after the last contact: now - last_contact exceeds HEARTBEAT_TIMEOUT, yet the
heartbeat check of a packet from B leaves the record Controlled(A) and the
privilege register at 2, and gives B no write access, in the proxy and in the
sink. -/
theorem C15_no_transition_within_the_millisecond :
    (3000 : Int) * 1000 < just_past_timeout.at_check - proxy_controlled_by_A.controller_time ∧
    (arvgvcpproxy.controller_check gige_constants
        (arvgvcpproxy_backend.fake_vtable memory_camera) proxy_controlled_by_A peer_B
        just_past_timeout.at_check).1.controller_address = some peer_A ∧
    (memory_camera.read_register (arvgvcpproxy.controller_check gige_constants
        (arvgvcpproxy_backend.fake_vtable memory_camera) proxy_controlled_by_A peer_B
        just_past_timeout.at_check).1.backend 0x0a00).2 = 2 ∧
    (arvgvcpproxy.controller_check gige_constants
        (arvgvcpproxy_backend.fake_vtable memory_camera) proxy_controlled_by_A peer_B
        just_past_timeout.at_check).2 = false ∧
    (3000 : Int) * 1000 < just_past_timeout.at_check - sink_controlled_by_A.controller_time ∧
    (gstaravissink.controller_check gige_constants memory_camera sink_controlled_by_A
        controlled_memory peer_B just_past_timeout.at_check).1.controller_address = some peer_A ∧
    (memory_camera.read_register (gstaravissink.controller_check gige_constants memory_camera sink_controlled_by_A
        controlled_memory peer_B just_past_timeout.at_check).2.1 0x0a00).2 = 2 ∧
    (gstaravissink.controller_check gige_constants memory_camera sink_controlled_by_A
        controlled_memory peer_B just_past_timeout.at_check).2.2 = false := by
  refine ⟨?_, ?_, ?_, ?_, ?_, ?_, ?_, ?_⟩ <;> decide

/-- C15, amended.  While the record is Controlled(P, last_contact), with T the
heartbeat timeout read from the backend (in the proxy 3000 when the read
fails) and the clock not behind last_contact: if now - last_contact is at
least (T + 1) ms, that is the elapsed whole milliseconds exceed T, then before
the command is interpreted the record becomes Uncontrolled, 0 is written to
CONTROL_CHANNEL_PRIVILEGE and the packet has write access whatever its source;
if now - last_contact is below (T + 1) ms none of this happens and write
access is exactly (source = P).  The handler hands this state and this write
access to the command: a packet that is not a command leaves exactly this
state, and a write command is acknowledged exactly when write access was
given. -/
theorem C15_heartbeat_expiry_transition (k : ArvConstants)
    (vtable : ArvGvcpProxyBackendVTable σ) (cam : ArvFakeCamera σ)
    (read_register : σ → Nat → Bool × Nat)
    (write_register : σ → Nat → Nat → Bool × σ)
    (proxy : ArvGvcpProxy σ) (priv : GstAravisSinkPrivate σ) (camera : σ)
    (P Q : GInetSocketAddress) (packet : ArvGvcpPacket) (now : RealTime)
    (timeout_proxy timeout_sink : Nat)
    (hproxy : proxy.controller_address = some P)
    (hpriv : priv.controller_address = some P)
    (hcamera : priv.camera = some camera)
    (hread : vtable.read_register = some read_register)
    (hwrite : vtable.write_register = some write_register)
    (htimeout_proxy : timeout_proxy =
      if (read_register proxy.backend k.GVBS_HEARTBEAT_TIMEOUT_OFFSET).1 = true then
        (read_register proxy.backend k.GVBS_HEARTBEAT_TIMEOUT_OFFSET).2
      else 3000)
    (htimeout_sink : timeout_sink =
      (cam.read_register camera k.GVBS_HEARTBEAT_TIMEOUT_OFFSET).2)
    (hclock_proxy : 0 ≤ now.at_check - proxy.controller_time)
    (hclock_sink : 0 ≤ now.at_check - priv.controller_time)
    (hrange_proxy : now.at_check - proxy.controller_time < 9223372036854775808)
    (hrange_sink : now.at_check - priv.controller_time < 9223372036854775808) :
    ((((timeout_proxy : Int) + 1) * 1000 ≤ now.at_check - proxy.controller_time →
      (arvgvcpproxy.controller_check k vtable proxy Q now.at_check).1.controller_address = none ∧
      (arvgvcpproxy.controller_check k vtable proxy Q now.at_check).1.backend = (write_register proxy.backend k.GVBS_CONTROL_CHANNEL_PRIVILEGE_OFFSET 0).2 ∧
      (arvgvcpproxy.controller_check k vtable proxy Q now.at_check).2 = true) ∧
     (now.at_check - proxy.controller_time < ((timeout_proxy : Int) + 1) * 1000 →
      (arvgvcpproxy.controller_check k vtable proxy Q now.at_check).1 = proxy ∧ ((arvgvcpproxy.controller_check k vtable proxy Q now.at_check).2 = true ↔ Q = P)) ∧
     (packet.packet_type ≠ k.GVCP_PACKET_TYPE_CMD → (arvgvcpproxy._handle_control_packet k vtable proxy Q packet now).proxy = (arvgvcpproxy.controller_check k vtable proxy Q now.at_check).1) ∧
     (packet.packet_type = k.GVCP_PACKET_TYPE_CMD →
      (packet.command = .WRITE_REGISTER_CMD ∨ packet.command = .WRITE_MEMORY_CMD) →
      (arvgvcpproxy._handle_control_packet k vtable proxy Q packet now).success = (arvgvcpproxy.controller_check k vtable proxy Q now.at_check).2)) ∧
    ((((timeout_sink : Int) + 1) * 1000 ≤ now.at_check - priv.controller_time →
      (gstaravissink.controller_check k cam priv camera Q now.at_check).1.controller_address = none ∧
      (gstaravissink.controller_check k cam priv camera Q now.at_check).2.1 = (cam.write_register camera k.GVBS_CONTROL_CHANNEL_PRIVILEGE_OFFSET 0).2 ∧
      (gstaravissink.controller_check k cam priv camera Q now.at_check).2.2 = true) ∧
     (now.at_check - priv.controller_time < ((timeout_sink : Int) + 1) * 1000 →
      (gstaravissink.controller_check k cam priv camera Q now.at_check).1 = priv ∧ (gstaravissink.controller_check k cam priv camera Q now.at_check).2.1 = camera ∧ ((gstaravissink.controller_check k cam priv camera Q now.at_check).2.2 = true ↔ Q = P)) ∧
     (packet.packet_type ≠ k.GVCP_PACKET_TYPE_CMD →
      (gstaravissink._handle_control_packet k cam priv Q packet now).priv =
        { priv with
          camera := some (gstaravissink.controller_check k cam priv camera Q now.at_check).2.1
          controller_address := (gstaravissink.controller_check k cam priv camera Q now.at_check).1.controller_address }) ∧
     (packet.packet_type = k.GVCP_PACKET_TYPE_CMD →
      (packet.command = .WRITE_REGISTER_CMD ∨ packet.command = .WRITE_MEMORY_CMD) →
      (gstaravissink._handle_control_packet k cam priv Q packet now).success = (gstaravissink.controller_check k cam priv camera Q now.at_check).2.2)) := by
  have htp : arvgvcpproxy._backend_read_register vtable proxy.backend
      k.GVBS_HEARTBEAT_TIMEOUT_OFFSET 3000 = timeout_proxy := by
    rw [htimeout_proxy]
    simp only [arvgvcpproxy._backend_read_register, hread]
    cases (read_register proxy.backend k.GVBS_HEARTBEAT_TIMEOUT_OFFSET).1 <;> simp
  have hts : arv_fake_camera_get_heartbeat_timeout k cam camera = timeout_sink := by
    rw [htimeout_sink]; rfl
  have hep := elapsed_ms_of_nonneg _ _ hclock_proxy hrange_proxy
  have hes := elapsed_ms_of_nonneg _ _ hclock_sink hrange_sink
  constructor
  · refine ⟨?_, ?_, ?_, ?_⟩
    · intro hlate
      have hexp : elapsed_ms now.at_check proxy.controller_time > timeout_proxy := by omega
      simp only [arvgvcpproxy.controller_check, hproxy, htp]
      rw [if_pos hexp]
      simp [arvgvcpproxy._proxy_release_controller, hproxy,
        arvgvcpproxy._backend_write_register, hwrite]
    · intro hearly
      have halive : elapsed_ms now.at_check proxy.controller_time ≤ timeout_proxy := by omega
      simp only [arvgvcpproxy.controller_check, hproxy, htp]
      rw [if_neg (Nat.not_lt.mpr halive)]
      exact ⟨rfl, is_equal_iff Q P⟩
    · intro htype
      simp [arvgvcpproxy._handle_control_packet, htype]
    · intro htype hcmd
      rcases hcmd with h | h <;>
        cases hwa : (arvgvcpproxy.controller_check k vtable proxy Q now.at_check).2 <;>
        simp [arvgvcpproxy._handle_control_packet, htype, arvgvcpproxy.dispatch, h, hwa]
  · refine ⟨?_, ?_, ?_, ?_⟩
    · intro hlate
      have hexp : elapsed_ms now.at_check priv.controller_time > timeout_sink := by omega
      simp only [gstaravissink.controller_check, hpriv, hts]
      rw [if_pos hexp]
      simp [arv_fake_camera_set_control_channel_privilege]
    · intro hearly
      have halive : elapsed_ms now.at_check priv.controller_time ≤ timeout_sink := by omega
      simp only [gstaravissink.controller_check, hpriv, hts]
      rw [if_neg (Nat.not_lt.mpr halive)]
      exact ⟨rfl, rfl, is_equal_iff Q P⟩
    · intro htype
      simp only [gstaravissink._handle_control_packet, hcamera, ne_eq, htype,
        not_false_eq_true, if_true, gstaravissink.controller_check, hpriv]
      split_ifs <;> rfl
    · intro htype hcmd
      rcases hcmd with h | h <;>
        cases hwa : (gstaravissink.controller_check k cam priv camera Q now.at_check).2.2 <;>
        simp [gstaravissink._handle_control_packet, hcamera, htype, gstaravissink.dispatch,
          h, hwa]

/-- C15 (amended) on concrete runs, the heartbeat timeout register holding
5000 ms.  Four seconds after the last contact of A a packet from B finds the
record as it was; ten seconds after the last contact it finds the record
released, the privilege register written with 0, and has write access. -/
theorem C15_heartbeat_expiry_transition_witness :
    ((arvgvcpproxy.controller_check gige_constants
        (arvgvcpproxy_backend.fake_vtable memory_camera) proxy_slow_heartbeat peer_B
        four_seconds_later.at_check).1 = proxy_slow_heartbeat ∧
      ((arvgvcpproxy.controller_check gige_constants
        (arvgvcpproxy_backend.fake_vtable memory_camera) proxy_slow_heartbeat peer_B
        four_seconds_later.at_check).2 = true ↔ peer_B = peer_A)) ∧
    ((gstaravissink.controller_check gige_constants memory_camera sink_slow_heartbeat
        slow_heartbeat_memory peer_B four_seconds_later.at_check).1 = sink_slow_heartbeat ∧
      (gstaravissink.controller_check gige_constants memory_camera sink_slow_heartbeat
        slow_heartbeat_memory peer_B four_seconds_later.at_check).2.1 = slow_heartbeat_memory ∧
      ((gstaravissink.controller_check gige_constants memory_camera sink_slow_heartbeat
        slow_heartbeat_memory peer_B four_seconds_later.at_check).2.2 = true ↔ peer_B = peer_A)) ∧
    ((arvgvcpproxy.controller_check gige_constants
        (arvgvcpproxy_backend.fake_vtable memory_camera) proxy_slow_heartbeat peer_B
        ten_seconds_later.at_check).1.controller_address = none ∧
      (arvgvcpproxy.controller_check gige_constants
        (arvgvcpproxy_backend.fake_vtable memory_camera) proxy_slow_heartbeat peer_B
        ten_seconds_later.at_check).1.backend
        = (arvgvcpproxy_backend._fake_write_register memory_camera
            proxy_slow_heartbeat.backend
            gige_constants.GVBS_CONTROL_CHANNEL_PRIVILEGE_OFFSET 0).2 ∧
      (arvgvcpproxy.controller_check gige_constants
        (arvgvcpproxy_backend.fake_vtable memory_camera) proxy_slow_heartbeat peer_B
        ten_seconds_later.at_check).2 = true) ∧
    ((gstaravissink.controller_check gige_constants memory_camera sink_slow_heartbeat
        slow_heartbeat_memory peer_B ten_seconds_later.at_check).1.controller_address = none ∧
      (gstaravissink.controller_check gige_constants memory_camera sink_slow_heartbeat
        slow_heartbeat_memory peer_B ten_seconds_later.at_check).2.1
        = (memory_camera.write_register slow_heartbeat_memory
            gige_constants.GVBS_CONTROL_CHANNEL_PRIVILEGE_OFFSET 0).2 ∧
      (gstaravissink.controller_check gige_constants memory_camera sink_slow_heartbeat
        slow_heartbeat_memory peer_B ten_seconds_later.at_check).2.2 = true) :=
  have h4 := C15_heartbeat_expiry_transition gige_constants
    (arvgvcpproxy_backend.fake_vtable memory_camera) memory_camera
    (arvgvcpproxy_backend._fake_read_register memory_camera)
    (arvgvcpproxy_backend._fake_write_register memory_camera)
    proxy_slow_heartbeat sink_slow_heartbeat slow_heartbeat_memory peer_A peer_B
    (command_packet .WRITE_REGISTER_CMD 9 0x0a00 3) four_seconds_later 5000 5000
    rfl rfl rfl rfl rfl (by decide) (by decide) (by decide) (by decide) (by decide) (by decide)
  have h10 := C15_heartbeat_expiry_transition gige_constants
    (arvgvcpproxy_backend.fake_vtable memory_camera) memory_camera
    (arvgvcpproxy_backend._fake_read_register memory_camera)
    (arvgvcpproxy_backend._fake_write_register memory_camera)
    proxy_slow_heartbeat sink_slow_heartbeat slow_heartbeat_memory peer_A peer_B
    (command_packet .WRITE_REGISTER_CMD 9 0x0a00 3) ten_seconds_later 5000 5000
    rfl rfl rfl rfl rfl (by decide) (by decide) (by decide) (by decide) (by decide) (by decide)
  ⟨h4.1.2.1 (by decide), h4.2.2.1 (by decide), h10.1.1 (by decide), h10.2.1 (by decide)⟩

/-- C16 (post-handling ownership transitions).  After a command has been
handled the privilege register is read again on the state the command left:
Uncontrolled with a non-zero register becomes Controlled(source, now);
Controlled with a zero register becomes Uncontrolled; in the two remaining
cases the record (peer and last contact) is as the command left it. -/
theorem C16_ownership_transitions (k : ArvConstants)
    (vtable : ArvGvcpProxyBackendVTable σ) (cam : ArvFakeCamera σ)
    (proxy : ArvGvcpProxy σ) (priv : GstAravisSinkPrivate σ) (camera : σ)
    (Q : GInetSocketAddress) (packet : ArvGvcpPacket) (now : RealTime)
    (hcamera : priv.camera = some camera)
    (htype : packet.packet_type = k.GVCP_PACKET_TYPE_CMD) :
    (((arvgvcpproxy.dispatch k vtable
        (arvgvcpproxy.controller_check k vtable proxy Q now.at_check).1 packet
        (arvgvcpproxy.controller_check k vtable proxy Q now.at_check).2 now.at_read).1.controller_address = none →
      arvgvcpproxy._backend_read_register vtable (arvgvcpproxy.dispatch k vtable
        (arvgvcpproxy.controller_check k vtable proxy Q now.at_check).1 packet
        (arvgvcpproxy.controller_check k vtable proxy Q now.at_check).2 now.at_read).1.backend k.GVBS_CONTROL_CHANNEL_PRIVILEGE_OFFSET 0 ≠ 0 →
      (arvgvcpproxy._handle_control_packet k vtable proxy Q packet now).proxy.controller_address = some Q ∧
      (arvgvcpproxy._handle_control_packet k vtable proxy Q packet now).proxy.controller_time = now.at_update ∧
      (arvgvcpproxy._handle_control_packet k vtable proxy Q packet now).proxy.backend = (arvgvcpproxy.dispatch k vtable
        (arvgvcpproxy.controller_check k vtable proxy Q now.at_check).1 packet
        (arvgvcpproxy.controller_check k vtable proxy Q now.at_check).2 now.at_read).1.backend) ∧
     ((arvgvcpproxy.dispatch k vtable
        (arvgvcpproxy.controller_check k vtable proxy Q now.at_check).1 packet
        (arvgvcpproxy.controller_check k vtable proxy Q now.at_check).2 now.at_read).1.controller_address ≠ none →
      arvgvcpproxy._backend_read_register vtable (arvgvcpproxy.dispatch k vtable
        (arvgvcpproxy.controller_check k vtable proxy Q now.at_check).1 packet
        (arvgvcpproxy.controller_check k vtable proxy Q now.at_check).2 now.at_read).1.backend k.GVBS_CONTROL_CHANNEL_PRIVILEGE_OFFSET 0 = 0 →
      (arvgvcpproxy._handle_control_packet k vtable proxy Q packet now).proxy.controller_address = none) ∧
     ((arvgvcpproxy.dispatch k vtable
        (arvgvcpproxy.controller_check k vtable proxy Q now.at_check).1 packet
        (arvgvcpproxy.controller_check k vtable proxy Q now.at_check).2 now.at_read).1.controller_address = none →
      arvgvcpproxy._backend_read_register vtable (arvgvcpproxy.dispatch k vtable
        (arvgvcpproxy.controller_check k vtable proxy Q now.at_check).1 packet
        (arvgvcpproxy.controller_check k vtable proxy Q now.at_check).2 now.at_read).1.backend k.GVBS_CONTROL_CHANNEL_PRIVILEGE_OFFSET 0 = 0 →
      (arvgvcpproxy._handle_control_packet k vtable proxy Q packet now).proxy = (arvgvcpproxy.dispatch k vtable
        (arvgvcpproxy.controller_check k vtable proxy Q now.at_check).1 packet
        (arvgvcpproxy.controller_check k vtable proxy Q now.at_check).2 now.at_read).1) ∧
     ((arvgvcpproxy.dispatch k vtable
        (arvgvcpproxy.controller_check k vtable proxy Q now.at_check).1 packet
        (arvgvcpproxy.controller_check k vtable proxy Q now.at_check).2 now.at_read).1.controller_address ≠ none →
      arvgvcpproxy._backend_read_register vtable (arvgvcpproxy.dispatch k vtable
        (arvgvcpproxy.controller_check k vtable proxy Q now.at_check).1 packet
        (arvgvcpproxy.controller_check k vtable proxy Q now.at_check).2 now.at_read).1.backend k.GVBS_CONTROL_CHANNEL_PRIVILEGE_OFFSET 0 ≠ 0 →
      (arvgvcpproxy._handle_control_packet k vtable proxy Q packet now).proxy = (arvgvcpproxy.dispatch k vtable
        (arvgvcpproxy.controller_check k vtable proxy Q now.at_check).1 packet
        (arvgvcpproxy.controller_check k vtable proxy Q now.at_check).2 now.at_read).1)) ∧
    ((gstaravissink._handle_control_packet k cam priv Q packet now).priv.camera = some (gstaravissink.dispatch k cam
        (gstaravissink.controller_check k cam priv camera Q now.at_check).1
        (gstaravissink.controller_check k cam priv camera Q now.at_check).2.1 packet
        (gstaravissink.controller_check k cam priv camera Q now.at_check).2.2 now.at_read).2.1 ∧
     ((gstaravissink.dispatch k cam
        (gstaravissink.controller_check k cam priv camera Q now.at_check).1
        (gstaravissink.controller_check k cam priv camera Q now.at_check).2.1 packet
        (gstaravissink.controller_check k cam priv camera Q now.at_check).2.2 now.at_read).1.controller_address = none →
      arv_fake_camera_get_control_channel_privilege k cam (gstaravissink.dispatch k cam
        (gstaravissink.controller_check k cam priv camera Q now.at_check).1
        (gstaravissink.controller_check k cam priv camera Q now.at_check).2.1 packet
        (gstaravissink.controller_check k cam priv camera Q now.at_check).2.2 now.at_read).2.1 ≠ 0 →
      (gstaravissink._handle_control_packet k cam priv Q packet now).priv.controller_address = some Q ∧
      (gstaravissink._handle_control_packet k cam priv Q packet now).priv.controller_time = now.at_update) ∧
     ((gstaravissink.dispatch k cam
        (gstaravissink.controller_check k cam priv camera Q now.at_check).1
        (gstaravissink.controller_check k cam priv camera Q now.at_check).2.1 packet
        (gstaravissink.controller_check k cam priv camera Q now.at_check).2.2 now.at_read).1.controller_address ≠ none →
      arv_fake_camera_get_control_channel_privilege k cam (gstaravissink.dispatch k cam
        (gstaravissink.controller_check k cam priv camera Q now.at_check).1
        (gstaravissink.controller_check k cam priv camera Q now.at_check).2.1 packet
        (gstaravissink.controller_check k cam priv camera Q now.at_check).2.2 now.at_read).2.1 = 0 →
      (gstaravissink._handle_control_packet k cam priv Q packet now).priv.controller_address = none) ∧
     ((gstaravissink.dispatch k cam
        (gstaravissink.controller_check k cam priv camera Q now.at_check).1
        (gstaravissink.controller_check k cam priv camera Q now.at_check).2.1 packet
        (gstaravissink.controller_check k cam priv camera Q now.at_check).2.2 now.at_read).1.controller_address = none →
      arv_fake_camera_get_control_channel_privilege k cam (gstaravissink.dispatch k cam
        (gstaravissink.controller_check k cam priv camera Q now.at_check).1
        (gstaravissink.controller_check k cam priv camera Q now.at_check).2.1 packet
        (gstaravissink.controller_check k cam priv camera Q now.at_check).2.2 now.at_read).2.1 = 0 →
      (gstaravissink._handle_control_packet k cam priv Q packet now).priv.controller_address = (gstaravissink.dispatch k cam
        (gstaravissink.controller_check k cam priv camera Q now.at_check).1
        (gstaravissink.controller_check k cam priv camera Q now.at_check).2.1 packet
        (gstaravissink.controller_check k cam priv camera Q now.at_check).2.2 now.at_read).1.controller_address ∧
      (gstaravissink._handle_control_packet k cam priv Q packet now).priv.controller_time = (gstaravissink.dispatch k cam
        (gstaravissink.controller_check k cam priv camera Q now.at_check).1
        (gstaravissink.controller_check k cam priv camera Q now.at_check).2.1 packet
        (gstaravissink.controller_check k cam priv camera Q now.at_check).2.2 now.at_read).1.controller_time) ∧
     ((gstaravissink.dispatch k cam
        (gstaravissink.controller_check k cam priv camera Q now.at_check).1
        (gstaravissink.controller_check k cam priv camera Q now.at_check).2.1 packet
        (gstaravissink.controller_check k cam priv camera Q now.at_check).2.2 now.at_read).1.controller_address ≠ none →
      arv_fake_camera_get_control_channel_privilege k cam (gstaravissink.dispatch k cam
        (gstaravissink.controller_check k cam priv camera Q now.at_check).1
        (gstaravissink.controller_check k cam priv camera Q now.at_check).2.1 packet
        (gstaravissink.controller_check k cam priv camera Q now.at_check).2.2 now.at_read).2.1 ≠ 0 →
      (gstaravissink._handle_control_packet k cam priv Q packet now).priv.controller_address = (gstaravissink.dispatch k cam
        (gstaravissink.controller_check k cam priv camera Q now.at_check).1
        (gstaravissink.controller_check k cam priv camera Q now.at_check).2.1 packet
        (gstaravissink.controller_check k cam priv camera Q now.at_check).2.2 now.at_read).1.controller_address ∧
      (gstaravissink._handle_control_packet k cam priv Q packet now).priv.controller_time = (gstaravissink.dispatch k cam
        (gstaravissink.controller_check k cam priv camera Q now.at_check).1
        (gstaravissink.controller_check k cam priv camera Q now.at_check).2.1 packet
        (gstaravissink.controller_check k cam priv camera Q now.at_check).2.2 now.at_read).1.controller_time)) := by
  have hp : (arvgvcpproxy._handle_control_packet k vtable proxy Q packet now).proxy = arvgvcpproxy.controller_update k vtable (arvgvcpproxy.dispatch k vtable
        (arvgvcpproxy.controller_check k vtable proxy Q now.at_check).1 packet
        (arvgvcpproxy.controller_check k vtable proxy Q now.at_check).2 now.at_read).1 Q now.at_update := by
    simp [arvgvcpproxy._handle_control_packet, htype]
  have hs : (gstaravissink._handle_control_packet k cam priv Q packet now).priv = { gstaravissink.controller_update k cam (gstaravissink.dispatch k cam
        (gstaravissink.controller_check k cam priv camera Q now.at_check).1
        (gstaravissink.controller_check k cam priv camera Q now.at_check).2.1 packet
        (gstaravissink.controller_check k cam priv camera Q now.at_check).2.2 now.at_read).1 (gstaravissink.dispatch k cam
        (gstaravissink.controller_check k cam priv camera Q now.at_check).1
        (gstaravissink.controller_check k cam priv camera Q now.at_check).2.1 packet
        (gstaravissink.controller_check k cam priv camera Q now.at_check).2.2 now.at_read).2.1 Q now.at_update
      with camera := some (gstaravissink.dispatch k cam
        (gstaravissink.controller_check k cam priv camera Q now.at_check).1
        (gstaravissink.controller_check k cam priv camera Q now.at_check).2.1 packet
        (gstaravissink.controller_check k cam priv camera Q now.at_check).2.2 now.at_read).2.1 } := by
    simp [gstaravissink._handle_control_packet, hcamera, htype]
  constructor
  · rw [hp]
    generalize (arvgvcpproxy.dispatch k vtable
        (arvgvcpproxy.controller_check k vtable proxy Q now.at_check).1 packet
        (arvgvcpproxy.controller_check k vtable proxy Q now.at_check).2 now.at_read).1 = mid
    unfold arvgvcpproxy.controller_update
    refine ⟨?_, ?_, ?_, ?_⟩
    · intro h1 h2
      rw [if_pos ⟨h1, h2⟩]
      exact ⟨rfl, rfl, rfl⟩
    · intro h1 h2
      rw [if_neg (fun h => h1 h.1), if_pos ⟨h1, h2⟩]
      cases hc : mid.controller_address with
      | none => exact absurd hc h1
      | some P => simp [arvgvcpproxy._proxy_release_controller, hc]
    · intro h1 h2
      rw [if_neg (fun h => h.2 h2), if_neg (fun h => h.1 h1)]
    · intro h1 h2
      rw [if_neg (fun h => h1 h.1), if_neg (fun h => h2 h.2)]
  · rw [hs]
    generalize (gstaravissink.dispatch k cam
        (gstaravissink.controller_check k cam priv camera Q now.at_check).1
        (gstaravissink.controller_check k cam priv camera Q now.at_check).2.1 packet
        (gstaravissink.controller_check k cam priv camera Q now.at_check).2.2 now.at_read) = mid
    unfold gstaravissink.controller_update
    refine ⟨rfl, ?_, ?_, ?_, ?_⟩
    · intro h1 h2
      simp only []
      rw [if_pos ⟨h1, h2⟩]
      exact ⟨rfl, rfl⟩
    · intro h1 h2
      simp only []
      rw [if_neg (fun h => h1 h.1), if_pos ⟨h1, h2⟩]
    · intro h1 h2
      simp only []
      rw [if_neg (fun h => h.2 h2), if_neg (fun h => h.1 h1)]
      exact ⟨rfl, rfl⟩
    · intro h1 h2
      simp only []
      rw [if_neg (fun h => h1 h.1), if_neg (fun h => h2 h.2)]
      exact ⟨rfl, rfl⟩

/-- C16 on a concrete run: from the initial, uncontrolled state peer A writes 2
to the privilege register. -/
theorem C16_ownership_transitions_witness :
    (arvgvcpproxy._handle_control_packet gige_constants
        (arvgvcpproxy_backend.fake_vtable memory_camera)
        (arvgvcpproxy.initial_proxy (fun _ => 0)) peer_A
        (command_packet .WRITE_REGISTER_CMD 7 0x0a00 2) one_second_later).proxy.controller_address
      = some peer_A ∧
    (arvgvcpproxy._handle_control_packet gige_constants
        (arvgvcpproxy_backend.fake_vtable memory_camera)
        (arvgvcpproxy.initial_proxy (fun _ => 0)) peer_A
        (command_packet .WRITE_REGISTER_CMD 7 0x0a00 2) one_second_later).proxy.controller_time
      = one_second_later.at_update :=
  have h := (C16_ownership_transitions gige_constants
    (arvgvcpproxy_backend.fake_vtable memory_camera) memory_camera
    (arvgvcpproxy.initial_proxy (fun _ => 0)) sink_controlled_by_A controlled_memory peer_A
    (command_packet .WRITE_REGISTER_CMD 7 0x0a00 2) one_second_later rfl rfl).1.1
    rfl (by decide)
  ⟨h.1, h.2.1⟩

/-- The command switch of the proxy never touches the controller peer, and
touches the last-contact time only for a READ_REGISTER_CMD at the privilege
offset. -/
theorem proxy_dispatch_record (k : ArvConstants) (vtable : ArvGvcpProxyBackendVTable σ)
    (state : ArvGvcpProxy σ) (packet : ArvGvcpPacket) (write_access : Bool) (time : Int) :
    (arvgvcpproxy.dispatch k vtable state packet write_access time).1.controller_address
      = state.controller_address ∧
    (¬ (packet.command = .READ_REGISTER_CMD ∧
        packet.read_register_cmd_infos = k.GVBS_CONTROL_CHANNEL_PRIVILEGE_OFFSET) →
      (arvgvcpproxy.dispatch k vtable state packet write_access time).1.controller_time
        = state.controller_time) := by
  unfold arvgvcpproxy.dispatch
  cases hc : packet.command <;> simp only [] <;> (try split_ifs) <;> simp_all

/-- The command switch of the sink never touches the controller peer, and
touches the last-contact time only for a READ_REGISTER_CMD at the privilege
offset. -/
theorem sink_dispatch_record (k : ArvConstants) (cam : ArvFakeCamera σ)
    (state : GstAravisSinkPrivate σ) (camera : σ) (packet : ArvGvcpPacket)
    (write_access : Bool) (time : Int) :
    (gstaravissink.dispatch k cam state camera packet write_access time).1.controller_address
      = state.controller_address ∧
    (¬ (packet.command = .READ_REGISTER_CMD ∧
        packet.read_register_cmd_infos = k.GVBS_CONTROL_CHANNEL_PRIVILEGE_OFFSET) →
      (gstaravissink.dispatch k cam state camera packet write_access time).1.controller_time
        = state.controller_time) := by
  unfold gstaravissink.dispatch
  cases hc : packet.command <;> simp only [] <;> (try split_ifs) <;> simp_all

/-- C17 (heartbeat refresh).  A READ_REGISTER_CMD at the privilege offset sets
last_contact to a clock reading taken while it is handled (the one of the
read, or the one of the ownership update when that changes the record); in
state Controlled(P) with the heartbeat alive and the privilege register
non-zero it leaves Controlled(P, time of the read).  No other packet
refreshes: handled in state Controlled(P, t) with the heartbeat alive, a packet
that is not a READ_REGISTER_CMD at the privilege offset and after which the
record is still Controlled(P) leaves last_contact at t. -/
theorem C17_heartbeat_refresh (k : ArvConstants)
    (vtable : ArvGvcpProxyBackendVTable σ) (cam : ArvFakeCamera σ)
    (proxy : ArvGvcpProxy σ) (priv : GstAravisSinkPrivate σ) (camera : σ)
    (P Q : GInetSocketAddress) (packet : ArvGvcpPacket) (now : RealTime)
    (hproxy : proxy.controller_address = some P)
    (hpriv : priv.controller_address = some P)
    (hcamera : priv.camera = some camera)
    (halive_proxy : elapsed_ms now.at_check proxy.controller_time ≤
      arvgvcpproxy._backend_read_register vtable proxy.backend
        k.GVBS_HEARTBEAT_TIMEOUT_OFFSET 3000)
    (halive_sink : elapsed_ms now.at_check priv.controller_time ≤
      arv_fake_camera_get_heartbeat_timeout k cam camera) :
    ((packet.packet_type = k.GVCP_PACKET_TYPE_CMD → packet.command = .READ_REGISTER_CMD →
        packet.read_register_cmd_infos = k.GVBS_CONTROL_CHANNEL_PRIVILEGE_OFFSET →
        ((arvgvcpproxy._handle_control_packet k vtable proxy Q packet now).proxy.controller_time = now.at_read ∨
          (arvgvcpproxy._handle_control_packet k vtable proxy Q packet now).proxy.controller_time = now.at_update) ∧
        (arvgvcpproxy._backend_read_register vtable proxy.backend k.GVBS_CONTROL_CHANNEL_PRIVILEGE_OFFSET 0 ≠ 0 →
          (arvgvcpproxy._handle_control_packet k vtable proxy Q packet now).proxy = { proxy with controller_time := now.at_read })) ∧
      (¬ (packet.packet_type = k.GVCP_PACKET_TYPE_CMD ∧ packet.command = .READ_REGISTER_CMD ∧
          packet.read_register_cmd_infos = k.GVBS_CONTROL_CHANNEL_PRIVILEGE_OFFSET) →
        (arvgvcpproxy._handle_control_packet k vtable proxy Q packet now).proxy.controller_address = some P →
        (arvgvcpproxy._handle_control_packet k vtable proxy Q packet now).proxy.controller_time = proxy.controller_time)) ∧
    ((packet.packet_type = k.GVCP_PACKET_TYPE_CMD → packet.command = .READ_REGISTER_CMD →
        packet.read_register_cmd_infos = k.GVBS_CONTROL_CHANNEL_PRIVILEGE_OFFSET →
        ((gstaravissink._handle_control_packet k cam priv Q packet now).priv.controller_time = now.at_read ∨
          (gstaravissink._handle_control_packet k cam priv Q packet now).priv.controller_time = now.at_update) ∧
        (arv_fake_camera_get_control_channel_privilege k cam camera ≠ 0 →
          (gstaravissink._handle_control_packet k cam priv Q packet now).priv = { priv with controller_time := now.at_read })) ∧
      (¬ (packet.packet_type = k.GVCP_PACKET_TYPE_CMD ∧ packet.command = .READ_REGISTER_CMD ∧
          packet.read_register_cmd_infos = k.GVBS_CONTROL_CHANNEL_PRIVILEGE_OFFSET) →
        (gstaravissink._handle_control_packet k cam priv Q packet now).priv.controller_address = some P →
        (gstaravissink._handle_control_packet k cam priv Q packet now).priv.controller_time = priv.controller_time)) := by
  have hcp : arvgvcpproxy.controller_check k vtable proxy Q now.at_check
      = (proxy, _g_inet_socket_address_is_equal Q P) := by
    simp only [arvgvcpproxy.controller_check, hproxy]
    rw [if_neg (Nat.not_lt.mpr halive_proxy)]
  have hcs : gstaravissink.controller_check k cam priv camera Q now.at_check
      = (priv, camera, _g_inet_socket_address_is_equal Q P) := by
    simp only [gstaravissink.controller_check, hpriv]
    rw [if_neg (Nat.not_lt.mpr halive_sink)]
  have hback : { priv with camera := some camera } = priv := by
    cases priv; simp_all
  constructor
  · constructor
    · intro htype hcmd haddr
      have hrun : (arvgvcpproxy._handle_control_packet k vtable proxy Q packet now).proxy = arvgvcpproxy.controller_update k vtable
          { proxy with controller_time := now.at_read } Q now.at_update := by
        simp [arvgvcpproxy._handle_control_packet, hcp, htype, arvgvcpproxy.dispatch, hcmd,
          haddr]
      rw [hrun]
      constructor
      · unfold arvgvcpproxy.controller_update
        split_ifs
        · right; rfl
        · right; rfl
        · left; rfl
      · intro hnz
        simp [arvgvcpproxy.controller_update, hproxy, hnz]
    · intro hnot hstill
      by_cases htype : packet.packet_type = k.GVCP_PACKET_TYPE_CMD
      · have hnot2 : ¬ (packet.command = .READ_REGISTER_CMD ∧
            packet.read_register_cmd_infos = k.GVBS_CONTROL_CHANNEL_PRIVILEGE_OFFSET) := fun h => hnot ⟨htype, h⟩
        obtain ⟨hd1, hd2⟩ := proxy_dispatch_record k vtable proxy packet
          (_g_inet_socket_address_is_equal Q P) now.at_read
        have hd2 := hd2 hnot2
        have hrun : (arvgvcpproxy._handle_control_packet k vtable proxy Q packet now).proxy = arvgvcpproxy.controller_update k vtable
            (arvgvcpproxy.dispatch k vtable proxy packet
              (_g_inet_socket_address_is_equal Q P) now.at_read).1 Q now.at_update := by
          simp [arvgvcpproxy._handle_control_packet, hcp, htype]
        rw [hrun] at hstill ⊢
        revert hstill hd1 hd2
        generalize (arvgvcpproxy.dispatch k vtable proxy packet
          (_g_inet_socket_address_is_equal Q P) now.at_read).1 = mid
        intro hstill hd1 hd2
        unfold arvgvcpproxy.controller_update at hstill ⊢
        split_ifs at hstill ⊢ with h1 h2
        · rw [hd1, hproxy] at h1
          exact absurd h1.1 (by simp)
        · exfalso
          simp [arvgvcpproxy._proxy_release_controller, hd1, hproxy] at hstill
        · exact hd2
      · simp [arvgvcpproxy._handle_control_packet, hcp, htype]
  · constructor
    · intro htype hcmd haddr
      have hrun : (gstaravissink._handle_control_packet k cam priv Q packet now).priv = { gstaravissink.controller_update k cam
          { priv with controller_time := now.at_read } camera Q now.at_update
          with camera := some camera } := by
        simp [gstaravissink._handle_control_packet, hcamera, hcs, htype,
          gstaravissink.dispatch, hcmd, haddr]
      rw [hrun]
      constructor
      · unfold gstaravissink.controller_update
        split_ifs
        · right; rfl
        · right; rfl
        · left; rfl
      · intro hnz
        simp only [gstaravissink.controller_update, hpriv, hnz]
        cases priv; simp_all
    · intro hnot hstill
      by_cases htype : packet.packet_type = k.GVCP_PACKET_TYPE_CMD
      · have hnot2 : ¬ (packet.command = .READ_REGISTER_CMD ∧
            packet.read_register_cmd_infos = k.GVBS_CONTROL_CHANNEL_PRIVILEGE_OFFSET) := fun h => hnot ⟨htype, h⟩
        obtain ⟨hd1, hd2⟩ := sink_dispatch_record k cam priv camera packet
          (_g_inet_socket_address_is_equal Q P) now.at_read
        have hd2 := hd2 hnot2
        have hrun : (gstaravissink._handle_control_packet k cam priv Q packet now).priv = { gstaravissink.controller_update k cam
            (gstaravissink.dispatch k cam priv camera packet
              (_g_inet_socket_address_is_equal Q P) now.at_read).1
            (gstaravissink.dispatch k cam priv camera packet
              (_g_inet_socket_address_is_equal Q P) now.at_read).2.1 Q now.at_update
            with camera := some (gstaravissink.dispatch k cam priv camera packet
              (_g_inet_socket_address_is_equal Q P) now.at_read).2.1 } := by
          simp [gstaravissink._handle_control_packet, hcamera, hcs, htype]
        rw [hrun] at hstill ⊢
        revert hstill hd1 hd2
        generalize (gstaravissink.dispatch k cam priv camera packet
          (_g_inet_socket_address_is_equal Q P) now.at_read) = mid
        intro hstill hd1 hd2
        simp only [gstaravissink.controller_update] at hstill ⊢
        split_ifs at hstill ⊢ with h1 h2
        · rw [hd1, hpriv] at h1
          exact absurd h1.1 (by simp)
        · exact hd2
      · simp [gstaravissink._handle_control_packet, hcamera, hcs, htype, hback]

/-- C17 on a concrete run: controller A reads the privilege register one
second after its last contact. -/
theorem C17_heartbeat_refresh_witness :
    (arvgvcpproxy._handle_control_packet gige_constants
        (arvgvcpproxy_backend.fake_vtable memory_camera) proxy_controlled_by_A peer_A
        (command_packet .READ_REGISTER_CMD 8 0x0a00 0) one_second_later).proxy
      = { proxy_controlled_by_A with controller_time := one_second_later.at_read } ∧
    (gstaravissink._handle_control_packet gige_constants memory_camera sink_controlled_by_A
        peer_A (command_packet .READ_REGISTER_CMD 8 0x0a00 0) one_second_later).priv
      = { sink_controlled_by_A with controller_time := one_second_later.at_read } :=
  have h := C17_heartbeat_refresh gige_constants
    (arvgvcpproxy_backend.fake_vtable memory_camera) memory_camera proxy_controlled_by_A
    sink_controlled_by_A controlled_memory peer_A peer_A
    (command_packet .READ_REGISTER_CMD 8 0x0a00 0) one_second_later
    rfl rfl rfl (by decide) (by decide)
  ⟨(h.1.1 rfl rfl rfl).2 (by decide), (h.2.1 rfl rfl rfl).2 (by decide)⟩

end ownership

section packet_size

/-- The size field of the packet-size register when the field sits in the low
16 bits. -/
theorem size_field_low_16 (r : Nat) : (r >>> 0) &&& 0xffff = r % 65536 := by
  have h := Nat.and_pow_two_sub_one_eq_mod r 16
  norm_num at h
  simpa using h

/-- C18 (packet-size limit).  With the size field in the low 16 bits of the
STREAM_CHANNEL_0_PACKET_SIZE register and MINIMUM ≤ 1400 ≤ MAXIMUM: for every
register value `r` the effective packet size is 1400 when the field is zero
and otherwise the field clamped into [MINIMUM, MAXIMUM]; in every case it lies
in [MINIMUM, MAXIMUM], and the data bytes per packet are the effective size
minus the GVSP overhead. -/
theorem C18_packet_size_limit (k : ArvConstants) (r : Nat)
    (hpos : k.GVBS_STREAM_CHANNEL_0_PACKET_SIZE_POS = 0)
    (hmask : k.GVBS_STREAM_CHANNEL_0_PACKET_SIZE_MASK = 0xffff)
    (hmin : k.GVSP_MINIMUM_PACKET_SIZE ≤ 1400)
    (hmax : 1400 ≤ k.GVSP_MAXIMUM_PACKET_SIZE)
    (hovh : k.GVSP_PACKET_PROTOCOL_OVERHEAD ≤ k.GVSP_MINIMUM_PACKET_SIZE)
    (hmax32 : k.GVSP_MAXIMUM_PACKET_SIZE < 4294967296) :
    (r % 65536 = 0 → gstaravissink.gv_packet_size k r = 1400) ∧
    (r % 65536 ≠ 0 →
      gstaravissink.gv_packet_size k r
        = max k.GVSP_MINIMUM_PACKET_SIZE (min (r % 65536) k.GVSP_MAXIMUM_PACKET_SIZE)) ∧
    k.GVSP_MINIMUM_PACKET_SIZE ≤ gstaravissink.gv_packet_size k r ∧
    gstaravissink.gv_packet_size k r ≤ k.GVSP_MAXIMUM_PACKET_SIZE ∧
    gstaravissink.gv_packet_payload k (gstaravissink.gv_packet_size k r)
      = gstaravissink.gv_packet_size k r - k.GVSP_PACKET_PROTOCOL_OVERHEAD := by
  have hfield : (r >>> k.GVBS_STREAM_CHANNEL_0_PACKET_SIZE_POS) &&&
      k.GVBS_STREAM_CHANNEL_0_PACKET_SIZE_MASK = r % 65536 := by
    rw [hpos, hmask]; exact size_field_low_16 r
  have hsize : gstaravissink.gv_packet_size k r =
      if (if r % 65536 = 0 then 1400 else r % 65536) > k.GVSP_MAXIMUM_PACKET_SIZE then
        k.GVSP_MAXIMUM_PACKET_SIZE
      else if (if r % 65536 = 0 then 1400 else r % 65536) < k.GVSP_MINIMUM_PACKET_SIZE then
        k.GVSP_MINIMUM_PACKET_SIZE
      else (if r % 65536 = 0 then 1400 else r % 65536) := by
    unfold gstaravissink.gv_packet_size
    simp only [hfield]
  have hbounds := gv_packet_size_bounds k r (by omega)
  refine ⟨?_, ?_, hbounds.1, hbounds.2, ?_⟩
  · intro h0
    rw [hsize]
    simp only [h0, if_true]
    split_ifs <;> omega
  · intro h0
    rw [hsize]
    simp only [h0, if_false]
    split_ifs <;> omega
  · unfold gstaravissink.gv_packet_payload
    omega

/-- C18 on the sample constants: register value 1500. -/
theorem C18_packet_size_limit_witness :
    gstaravissink.gv_packet_size gige_constants 1500
      = max gige_constants.GVSP_MINIMUM_PACKET_SIZE
          (min (1500 % 65536) gige_constants.GVSP_MAXIMUM_PACKET_SIZE) :=
  (C18_packet_size_limit gige_constants 1500 rfl rfl (by decide) (by decide) (by decide)
    (by decide)).2.1 (by decide)

end packet_size

section notification

variable {σ : Type}

/-- Bitwise and commutes with division by a power of two. -/
theorem and_div_two_pow (a b n : Nat) : (a &&& b) / 2 ^ n = a / 2 ^ n &&& b / 2 ^ n := by
  induction n generalizing a b with
  | zero => simp
  | succ n ih =>
    rw [Nat.pow_succ, ← Nat.div_div_eq_div_mul, ← Nat.div_div_eq_div_mul,
      ← Nat.div_div_eq_div_mul, ih, Nat.and_div_two]

/-- The top nibble of a 32-bit value, as the multicast test of
`_maybe_notify_stream_config` sees it. -/
theorem top_nibble_test (x : Nat) (hx : x < 4294967296) :
    (x &&& 0xf0000000) = 0xe0000000 ↔ (224 ≤ x / 16777216 ∧ x / 16777216 ≤ 239) := by
  have hdiv : (x &&& 0xf0000000) / 2 ^ 28 = x / 2 ^ 28 % 16 := by
    rw [and_div_two_pow]
    have h := Nat.and_pow_two_sub_one_eq_mod (x / 2 ^ 28) 4
    norm_num at h ⊢
    exact h
  have hmod : (x &&& 0xf0000000) % 2 ^ 28 = 0 := by
    have hz : (0xf0000000 : Nat) &&& (2 ^ 28 - 1) = 0 := by decide
    rw [← Nat.and_pow_two_sub_one_eq_mod, Nat.and_assoc, hz, Nat.and_zero]
  have hsplit := Nat.div_add_mod (x &&& 0xf0000000) (2 ^ 28)
  rw [hdiv, hmod] at hsplit
  norm_num at hsplit
  omega

/-- The three low MAC octets as `_maybe_notify_stream_config` computes them. -/
theorem mac_octets (x : Nat) :
    (x >>> 16) &&& 0x7f = x / 65536 % 128 ∧
    (x >>> 8) &&& 0xff = x / 256 % 256 ∧
    x &&& 0xff = x % 256 := by
  refine ⟨?_, ?_, ?_⟩
  · have h := Nat.and_pow_two_sub_one_eq_mod (x >>> 16) 7
    rw [Nat.shiftRight_eq_div_pow] at h ⊢
    norm_num at h ⊢
    exact h
  · have h := Nat.and_pow_two_sub_one_eq_mod (x >>> 8) 8
    rw [Nat.shiftRight_eq_div_pow] at h ⊢
    norm_num at h ⊢
    exact h
  · have h := Nat.and_pow_two_sub_one_eq_mod x 8
    norm_num at h ⊢
    exact h

/-- C19, as stated, fails.  (a) With the table `fake_vtable`, the only one the
sources define, controller A writes the stream port register, is
acknowledged, and no notification is raised: no callback is registered.
(b) With both callbacks registered, on a little-endian host, controller A
programs the multicast address 224.0.0.1 (register value 0xE0000001): the
extended notification carries that address with is_multicast = false and an
all-zero MAC. -/
theorem C19_no_callback_no_notification :
    (arvgvcpproxy._handle_control_packet gige_constants
        (arvgvcpproxy_backend.fake_vtable memory_camera) proxy_controlled_by_A peer_A
        (command_packet .WRITE_REGISTER_CMD 7 0x0d00 20202) one_second_later).sent
      = [(peer_A, .write_register_ack 1 7)] ∧
    (arvgvcpproxy._handle_control_packet gige_constants
        (arvgvcpproxy_backend.fake_vtable memory_camera) proxy_controlled_by_A peer_A
        (command_packet .WRITE_REGISTER_CMD 7 0x0d00 20202) one_second_later).notified = [] ∧
    gige_constants.host_is_little_endian = true ∧
    (arvgvcpproxy._handle_control_packet gige_constants (notifying_vtable memory_camera)
        proxy_controlled_by_A peer_A
        (command_packet .WRITE_REGISTER_CMD 7 0x0d18 0xE0000001) one_second_later).notified
      = [{ extended := false, stream_ip := 0xE0000001, stream_port := 20202,
           packet_size := 1500, mac := [], is_multicast := false },
         { extended := true, stream_ip := 0xE0000001, stream_port := 20202,
           packet_size := 1500, mac := [0, 0, 0, 0, 0, 0], is_multicast := false }] := by
  refine ⟨?_, ?_, ?_, ?_⟩ <;> decide

/-- C19, amended.  For a granted WRITE_REGISTER_CMD(a, v) in the proxy, with
the three stream registers readable after the write, on any host: a
notification is raised exactly when `a` is one of STREAM_CHANNEL_0_IP_ADDRESS,
STREAM_CHANNEL_0_PORT, STREAM_CHANNEL_0_PACKET_SIZE and a callback is
registered, one call per registered callback (the plain one first), each
carrying the register values read after the write (the port cut to 16 bits).
On a host where `g_htonl` is the identity the extended call has
is_multicast = true and MAC 01:00:5e followed by the second octet with its
top bit cleared, the third and the fourth octet when the first octet of the
address is in 224..239, and is_multicast = false with an all-zero MAC
otherwise. -/
theorem C19_stream_config_notification (k : ArvConstants)
    (vtable : ArvGvcpProxyBackendVTable σ)
    (read_register : σ → Nat → Bool × Nat) (write_register : σ → Nat → Nat → Bool × σ)
    (proxy : ArvGvcpProxy σ) (Q : GInetSocketAddress) (packet : ArvGvcpPacket) (now : RealTime)
    (a v ip port size : Nat)
    (hrr : vtable.read_register = some read_register)
    (hwr : vtable.write_register = some write_register)
    (htype : packet.packet_type = k.GVCP_PACKET_TYPE_CMD)
    (hcmd : packet.command = .WRITE_REGISTER_CMD)
    (hinfo : packet.write_register_cmd_infos = (a, v))
    (haccess : (arvgvcpproxy.controller_check k vtable proxy Q now.at_check).2 = true)
    (hip : read_register (write_register (arvgvcpproxy.controller_check k vtable proxy Q now.at_check).1.backend a v).2 k.GVBS_STREAM_CHANNEL_0_IP_ADDRESS_OFFSET = (true, ip))
    (hport : read_register (write_register (arvgvcpproxy.controller_check k vtable proxy Q now.at_check).1.backend a v).2 k.GVBS_STREAM_CHANNEL_0_PORT_OFFSET = (true, port))
    (hsize : read_register (write_register (arvgvcpproxy.controller_check k vtable proxy Q now.at_check).1.backend a v).2 k.GVBS_STREAM_CHANNEL_0_PACKET_SIZE_OFFSET = (true, size))
    (hip32 : ip < 4294967296) :
    ((arvgvcpproxy._handle_control_packet k vtable proxy Q packet now).notified ≠ [] ↔
      (a = k.GVBS_STREAM_CHANNEL_0_IP_ADDRESS_OFFSET ∨
       a = k.GVBS_STREAM_CHANNEL_0_PORT_OFFSET ∨
       a = k.GVBS_STREAM_CHANNEL_0_PACKET_SIZE_OFFSET) ∧
      (vtable.stream_config_changed = true ∨ vtable.stream_config_changed_ex = true)) ∧
    ((arvgvcpproxy._handle_control_packet k vtable proxy Q packet now).notified.map
        (fun call => (call.extended, call.stream_ip, call.stream_port, call.packet_size)) =
      if a = k.GVBS_STREAM_CHANNEL_0_IP_ADDRESS_OFFSET ∨
         a = k.GVBS_STREAM_CHANNEL_0_PORT_OFFSET ∨
         a = k.GVBS_STREAM_CHANNEL_0_PACKET_SIZE_OFFSET then
        (if vtable.stream_config_changed then [(false, ip, port % 65536, size)] else []) ++
        (if vtable.stream_config_changed_ex then [(true, ip, port % 65536, size)] else [])
      else []) ∧
    (k.host_is_little_endian = false →
      (arvgvcpproxy._handle_control_packet k vtable proxy Q packet now).notified =
        if a = k.GVBS_STREAM_CHANNEL_0_IP_ADDRESS_OFFSET ∨
           a = k.GVBS_STREAM_CHANNEL_0_PORT_OFFSET ∨
           a = k.GVBS_STREAM_CHANNEL_0_PACKET_SIZE_OFFSET then
          (if vtable.stream_config_changed then
            [{ extended := false, stream_ip := ip, stream_port := port % 65536,
               packet_size := size, mac := [], is_multicast := false }]
           else []) ++
          (if vtable.stream_config_changed_ex then
            [{ extended := true, stream_ip := ip, stream_port := port % 65536,
               packet_size := size,
               mac := if 224 ≤ ip / 16777216 ∧ ip / 16777216 ≤ 239 then
                        [0x01, 0x00, 0x5e, ip / 65536 % 128, ip / 256 % 256, ip % 256]
                      else [0, 0, 0, 0, 0, 0],
               is_multicast := decide (224 ≤ ip / 16777216 ∧ ip / 16777216 ≤ 239) }]
           else [])
        else []) := by
  have hrun : (arvgvcpproxy._handle_control_packet k vtable proxy Q packet now).notified = arvgvcpproxy._maybe_notify_stream_config k vtable (write_register (arvgvcpproxy.controller_check k vtable proxy Q now.at_check).1.backend a v).2 a := by
    simp [arvgvcpproxy._handle_control_packet, htype, arvgvcpproxy.dispatch, hcmd, haccess,
      hwr, hinfo]
  rw [hrun]
  generalize (write_register (arvgvcpproxy.controller_check k vtable proxy Q now.at_check).1.backend a v).2 = backend at hip hport hsize
  obtain ⟨hm1, hm2, hm3⟩ := mac_octets ip
  have hnib := top_nibble_test ip hip32
  unfold arvgvcpproxy._maybe_notify_stream_config
  by_cases haddr : a = k.GVBS_STREAM_CHANNEL_0_IP_ADDRESS_OFFSET ∨
      a = k.GVBS_STREAM_CHANNEL_0_PORT_OFFSET ∨ a = k.GVBS_STREAM_CHANNEL_0_PACKET_SIZE_OFFSET
  · have haddr2 : ¬ (a ≠ k.GVBS_STREAM_CHANNEL_0_IP_ADDRESS_OFFSET ∧
        a ≠ k.GVBS_STREAM_CHANNEL_0_PORT_OFFSET ∧
        a ≠ k.GVBS_STREAM_CHANNEL_0_PACKET_SIZE_OFFSET) := by
      intro h
      rcases haddr with h1 | h1 | h1
      · exact h.1 h1
      · exact h.2.1 h1
      · exact h.2.2 h1
    rw [if_pos haddr, if_pos haddr, if_neg haddr2]
    simp only [hrr, hip, hport, hsize, Bool.not_true, Bool.false_eq_true, if_false]
    refine ⟨?_, ?_, ?_⟩
    · cases vtable.stream_config_changed <;> cases vtable.stream_config_changed_ex <;>
        simp [haddr]
    · cases vtable.stream_config_changed <;> cases vtable.stream_config_changed_ex <;> simp
    · intro hhost
      simp only [arvgvcpproxy.g_htonl, hhost, Bool.false_eq_true, if_false, hm1, hm2, hm3]
      by_cases hmc : 224 ≤ ip / 16777216 ∧ ip / 16777216 ≤ 239
      · have hb : ((ip &&& 0xf0000000) == 0xe0000000) = true := by
          rw [beq_iff_eq]; exact hnib.mpr hmc
        simp only [hb, hmc, and_self, if_true, decide_True]
        cases vtable.stream_config_changed <;> cases vtable.stream_config_changed_ex <;> simp
      · have hb : ((ip &&& 0xf0000000) == 0xe0000000) = false := by
          rw [beq_eq_false_iff_ne]
          exact fun h => hmc (hnib.mp h)
        simp only [hb, hmc, if_false, decide_False, Bool.false_eq_true]
        cases vtable.stream_config_changed <;> cases vtable.stream_config_changed_ex <;> simp
  · have haddr2 : a ≠ k.GVBS_STREAM_CHANNEL_0_IP_ADDRESS_OFFSET ∧
        a ≠ k.GVBS_STREAM_CHANNEL_0_PORT_OFFSET ∧
        a ≠ k.GVBS_STREAM_CHANNEL_0_PACKET_SIZE_OFFSET :=
      ⟨fun h => haddr (Or.inl h), fun h => haddr (Or.inr (Or.inl h)),
        fun h => haddr (Or.inr (Or.inr h))⟩
    rw [if_neg haddr, if_neg haddr, if_pos haddr2]
    refine ⟨?_, ?_, ?_⟩
    · split_ifs <;> simp [haddr]
    · split_ifs <;> rfl
    · intro _
      split_ifs <;> rfl

/-- C19 (amended) on concrete runs, with both callbacks registered.  On a
little-endian host controller A programs the stream port: two calls carrying
the address, the port and the packet size read after the write.  On a
big-endian host controller A programs the stream address 224.129.130.3: the
extended call is multicast with MAC 01:00:5e:01:82:03. -/
theorem C19_stream_config_notification_witness :
    (arvgvcpproxy._handle_control_packet gige_constants (notifying_vtable memory_camera)
        proxy_controlled_by_A peer_A
        (command_packet .WRITE_REGISTER_CMD 7 0x0d00 30303) one_second_later).notified.map
        (fun call => (call.extended, call.stream_ip, call.stream_port, call.packet_size))
      = [(false, 0x7f000001, 30303, 1500), (true, 0x7f000001, 30303, 1500)] ∧
    (arvgvcpproxy._handle_control_packet gige_constants_big_endian
        (notifying_vtable memory_camera) proxy_controlled_by_A peer_A
        (command_packet .WRITE_REGISTER_CMD 7 0x0d18 0xE0818203) one_second_later).notified
      = [{ extended := false, stream_ip := 0xE0818203, stream_port := 20202,
           packet_size := 1500, mac := [], is_multicast := false },
         { extended := true, stream_ip := 0xE0818203, stream_port := 20202,
           packet_size := 1500, mac := [0x01, 0x00, 0x5e, 1, 130, 3], is_multicast := true }] :=
  ⟨(C19_stream_config_notification gige_constants (notifying_vtable memory_camera)
      (arvgvcpproxy_backend._fake_read_register memory_camera)
      (arvgvcpproxy_backend._fake_write_register memory_camera)
      proxy_controlled_by_A peer_A (command_packet .WRITE_REGISTER_CMD 7 0x0d00 30303)
      one_second_later 0x0d00 30303 0x7f000001 30303 1500
      rfl rfl rfl rfl rfl (by decide) (by decide) (by decide) (by decide)
      (by decide)).2.1.trans (by decide),
   ((C19_stream_config_notification gige_constants_big_endian (notifying_vtable memory_camera)
      (arvgvcpproxy_backend._fake_read_register memory_camera)
      (arvgvcpproxy_backend._fake_write_register memory_camera)
      proxy_controlled_by_A peer_A (command_packet .WRITE_REGISTER_CMD 7 0x0d18 0xE0818203)
      one_second_later 0x0d18 0xE0818203 0xE0818203 20202 1500
      rfl rfl rfl rfl rfl (by decide) (by decide) (by decide) (by decide)
      (by decide)).2.2 rfl).trans (by decide)⟩

end notification

section factory

variable {σ : Type}

/-- C20 (backend factory selection).  For the names "fake" and "memory" and
for an absent name, `arv_gvcp_proxy_backend_new` builds the fake backend from
the simulated camera created for (serial, genicam): it is named "fake" and
all six operations of its table are present (when the camera cannot be
created the result is no backend, with error FAILED).  For every other name
the result is no backend with error NOT_SUPPORTED; the match is exact and
case-sensitive. -/
theorem C20_backend_factory_selection (cam : ArvFakeCamera σ)
    (arv_fake_camera_new_full : Option String → Option String → Option σ)
    (name serial_number genicam_filename : Option String) (camera : σ)
    (hcamera : arv_fake_camera_new_full serial_number genicam_filename = some camera) :
    ((name = none ∨ name = some "fake" ∨ name = some "memory") →
      ∃ backend : ArvGvcpProxyBackendFake σ,
        arvgvcpproxy_backend.arv_gvcp_proxy_backend_new cam arv_fake_camera_new_full
          name serial_number genicam_filename = .ok backend ∧
        backend.name = "fake" ∧ backend.camera = camera ∧
        backend.vtable = arvgvcpproxy_backend.fake_vtable cam ∧
        backend.vtable.read_memory.isSome = true ∧
        backend.vtable.write_memory.isSome = true ∧
        backend.vtable.read_register.isSome = true ∧
        backend.vtable.write_register.isSome = true ∧
        backend.vtable.set_inet_address.isSome = true ∧
        backend.vtable.destroy.isSome = true) ∧
    (¬ (name = none ∨ name = some "fake" ∨ name = some "memory") →
      arvgvcpproxy_backend.arv_gvcp_proxy_backend_new cam arv_fake_camera_new_full
        name serial_number genicam_filename = .error .G_IO_ERROR_NOT_SUPPORTED) ∧
    (∀ other : String, other ∈ ["Fake", "FAKE", "Memory", "fake ", "", "mem"] →
      arvgvcpproxy_backend.arv_gvcp_proxy_backend_new cam arv_fake_camera_new_full
        (some other) serial_number genicam_filename = .error .G_IO_ERROR_NOT_SUPPORTED) ∧
    (∀ failing : Option String → Option String → Option σ,
      failing serial_number genicam_filename = none →
      (name = none ∨ name = some "fake" ∨ name = some "memory") →
      arvgvcpproxy_backend.arv_gvcp_proxy_backend_new cam failing
        name serial_number genicam_filename = .error .G_IO_ERROR_FAILED) := by
  refine ⟨?_, ?_, ?_, ?_⟩
  · intro hname
    refine ⟨{ vtable := arvgvcpproxy_backend.fake_vtable cam, name := "fake", camera := camera },
      ?_, rfl, rfl, rfl, rfl, rfl, rfl, rfl, rfl, rfl⟩
    unfold arvgvcpproxy_backend.arv_gvcp_proxy_backend_new
    rw [if_pos hname, hcamera]
    rfl
  · intro hname
    unfold arvgvcpproxy_backend.arv_gvcp_proxy_backend_new
    rw [if_neg hname]
  · intro other hother
    unfold arvgvcpproxy_backend.arv_gvcp_proxy_backend_new
    have hne : ¬ (some other = none ∨ some other = some "fake" ∨ some other = some "memory") := by
      simp only [List.mem_cons, List.mem_singleton, List.not_mem_nil, or_false] at hother
      rcases hother with h | h | h | h | h | h <;> subst h <;> decide
    rw [if_neg hne]
  · intro failing hfail hname
    unfold arvgvcpproxy_backend.arv_gvcp_proxy_backend_new
    rw [if_pos hname, hfail]
    rfl

/-- C20 on a concrete call: the name "memory" with the default serial. -/
theorem C20_backend_factory_selection_witness :
    ∃ backend : ArvGvcpProxyBackendFake (Nat → Nat),
      arvgvcpproxy_backend.arv_gvcp_proxy_backend_new memory_camera
        (fun _ _ => some controlled_memory) (some "memory") (some "GVCP01") none
        = .ok backend ∧
      backend.name = "fake" ∧ backend.camera = controlled_memory ∧
      backend.vtable = arvgvcpproxy_backend.fake_vtable memory_camera ∧
      backend.vtable.read_memory.isSome = true ∧
      backend.vtable.write_memory.isSome = true ∧
      backend.vtable.read_register.isSome = true ∧
      backend.vtable.write_register.isSome = true ∧
      backend.vtable.set_inet_address.isSome = true ∧
      backend.vtable.destroy.isSome = true :=
  (C20_backend_factory_selection memory_camera (fun _ _ => some controlled_memory)
    (some "memory") (some "GVCP01") none controlled_memory rfl).1 (Or.inr (Or.inr rfl))

end factory

section malformed

variable {σ : Type}

/-- A byte inside the received part is the same in the buffer and in its
received prefix. -/
theorem getD_take_of_lt (l : List Nat) (n i : Nat) (h : i < n) :
    (l.take n).getD i 0 = l.getD i 0 := by
  rw [List.getD_eq_getElem?_getD, List.getD_eq_getElem?_getD, List.getElem?_take_of_lt h]

/-- Whether the codec refuses a datagram depends on its received bytes only. -/
theorem refused_of_same_received (buffer other : List Nat) (size : Nat)
    (hsame : other.take size = buffer.take size) :
    arv_gvcp_packet_refused other size = arv_gvcp_packet_refused buffer size := by
  unfold arv_gvcp_packet_refused
  by_cases hsize : size < 8
  · simp only [decide_eq_true hsize, Bool.true_or]
  · have h4 : other.getD 4 0 = buffer.getD 4 0 := by
      rw [← getD_take_of_lt other size 4 (by omega), hsame, getD_take_of_lt buffer size 4 (by omega)]
    have h5 : other.getD 5 0 = buffer.getD 5 0 := by
      rw [← getD_take_of_lt other size 5 (by omega), hsame, getD_take_of_lt buffer size 5 (by omega)]
    rw [h4, h5]

/-- A malformed datagram is refused by the codec. -/
theorem refused_of_malformed (buffer : List Nat) (size : Nat)
    (hmalformed : size < 8 ∨ size - 8 < buffer.getD 4 0 * 256 + buffer.getD 5 0) :
    arv_gvcp_packet_refused buffer size = true := by
  unfold arv_gvcp_packet_refused
  rcases hmalformed with h | h
  · rw [decide_eq_true h]; exact Bool.true_or _
  · rw [decide_eq_true h]; exact Bool.or_true _

/-- A datagram that the codec refuses is reported with a packet type that is
not a command. -/
theorem refused_packet_is_not_command (k : ArvConstants) (codec : ArvGvcpCodec)
    (buffer : List Nat) (size : Nat)
    (hrefused : codec.refused_packet_type ≠ k.GVCP_PACKET_TYPE_CMD)
    (hmalformed : size < 8 ∨ size - 8 < buffer.getD 4 0 * 256 + buffer.getD 5 0) :
    (received_packet codec buffer size).packet_type ≠ k.GVCP_PACKET_TYPE_CMD := by
  have h := refused_of_malformed buffer size hmalformed
  simp only [received_packet, arv_gvcp_packet_get_packet_type, h, if_true]
  exact hrefused

/-- C13, as stated, fails.  Controller A, four seconds after its last contact
(timeout 3000 ms): peer B sends a datagram of 4 bytes, shorter than the GVCP
header.  No ack is sent, but the backend is written: the heartbeat step, which
runs before the packet is looked at, stores 0 in the privilege register, which
read 2 before.  Proxy and sink alike. -/
theorem C13_short_datagram_triggers_privilege_reset :
    (memory_camera.read_register proxy_controlled_by_A.backend 0x0a00).2 = 2 ∧
    (arvgvcpproxy._handle_control_packet gige_constants
        (arvgvcpproxy_backend.fake_vtable memory_camera) proxy_controlled_by_A peer_B
        (received_packet sample_codec stale_write_buffer 4) four_seconds_later).sent = [] ∧
    (memory_camera.read_register
      (arvgvcpproxy._handle_control_packet gige_constants
        (arvgvcpproxy_backend.fake_vtable memory_camera) proxy_controlled_by_A peer_B
        (received_packet sample_codec stale_write_buffer 4) four_seconds_later).proxy.backend
      0x0a00).2 = 0 ∧
    (gstaravissink._handle_control_packet gige_constants memory_camera sink_controlled_by_A
        peer_B (received_packet sample_codec stale_write_buffer 4) four_seconds_later).sent
      = [] ∧
    ((gstaravissink._handle_control_packet gige_constants memory_camera sink_controlled_by_A
        peer_B (received_packet sample_codec stale_write_buffer 4)
        four_seconds_later).priv.camera.map
      (fun camera => (memory_camera.read_register camera 0x0a00).2)) = some 0 := by
  refine ⟨?_, ?_, ?_, ?_, ?_⟩ <;> decide

/-- C13, amended.  For every received datagram that is shorter than the 8-byte
GVCP header, or whose header `data_length` exceeds the bytes received after
the header: no ack is sent, the handler returns FALSE, no notification is
raised, and the state is left as the heartbeat step leaves it, so the only
backend write there can be is the reset of the privilege register to 0 on
heartbeat expiry; with no controller or a live heartbeat the state is
unchanged.  The result does not depend on the bytes of the buffer beyond the
received length. -/
theorem C13_malformed_packets_refused (k : ArvConstants)
    (vtable : ArvGvcpProxyBackendVTable σ) (cam : ArvFakeCamera σ) (codec : ArvGvcpCodec)
    (proxy : ArvGvcpProxy σ) (priv : GstAravisSinkPrivate σ) (camera : σ)
    (Q : GInetSocketAddress) (buffer : List Nat) (size : Nat) (now : RealTime)
    (hcamera : priv.camera = some camera)
    (hrefused : codec.refused_packet_type ≠ k.GVCP_PACKET_TYPE_CMD)
    (hmalformed : size < 8 ∨ size - 8 < buffer.getD 4 0 * 256 + buffer.getD 5 0) :
    ((arvgvcpproxy._handle_control_packet k vtable proxy Q
        (received_packet codec buffer size) now).sent = [] ∧
      (arvgvcpproxy._handle_control_packet k vtable proxy Q
        (received_packet codec buffer size) now).success = false ∧
      (arvgvcpproxy._handle_control_packet k vtable proxy Q
        (received_packet codec buffer size) now).notified = [] ∧
      (arvgvcpproxy._handle_control_packet k vtable proxy Q
        (received_packet codec buffer size) now).proxy = (arvgvcpproxy.controller_check k vtable proxy Q now.at_check).1 ∧
      ((proxy.controller_address = none ∨
          elapsed_ms now.at_check proxy.controller_time ≤
            arvgvcpproxy._backend_read_register vtable proxy.backend
              k.GVBS_HEARTBEAT_TIMEOUT_OFFSET 3000) →
        (arvgvcpproxy._handle_control_packet k vtable proxy Q
        (received_packet codec buffer size) now).proxy = proxy) ∧
      (∀ other : List Nat, other.take size = buffer.take size →
        arvgvcpproxy._handle_control_packet k vtable proxy Q
          (received_packet codec other size) now
        = (arvgvcpproxy._handle_control_packet k vtable proxy Q
        (received_packet codec buffer size) now))) ∧
    ((gstaravissink._handle_control_packet k cam priv Q
        (received_packet codec buffer size) now).sent = [] ∧
      (gstaravissink._handle_control_packet k cam priv Q
        (received_packet codec buffer size) now).success = false ∧
      (gstaravissink._handle_control_packet k cam priv Q
        (received_packet codec buffer size) now).priv =
        { priv with
          camera := some (gstaravissink.controller_check k cam priv camera Q now.at_check).2.1
          controller_address :=
            (gstaravissink.controller_check k cam priv camera Q now.at_check).1.controller_address } ∧
      ((priv.controller_address = none ∨
          elapsed_ms now.at_check priv.controller_time ≤
            arv_fake_camera_get_heartbeat_timeout k cam camera) →
        (gstaravissink._handle_control_packet k cam priv Q
        (received_packet codec buffer size) now).priv = priv) ∧
      (∀ other : List Nat, other.take size = buffer.take size →
        gstaravissink._handle_control_packet k cam priv Q
          (received_packet codec other size) now
        = (gstaravissink._handle_control_packet k cam priv Q
        (received_packet codec buffer size) now))) := by
  have htype := refused_packet_is_not_command k codec buffer size hrefused hmalformed
  have hother : ∀ other : List Nat, other.take size = buffer.take size →
      (received_packet codec other size).packet_type ≠ k.GVCP_PACKET_TYPE_CMD := by
    intro other hsame
    have h := refused_of_malformed buffer size hmalformed
    rw [← refused_of_same_received buffer other size hsame] at h
    simp only [received_packet, arv_gvcp_packet_get_packet_type, h, if_true]
    exact hrefused
  have hback : { priv with camera := some camera } = priv := by
    cases priv; simp_all
  constructor
  · refine ⟨?_, ?_, ?_, ?_, ?_, ?_⟩
    · simp [arvgvcpproxy._handle_control_packet, htype]
    · simp [arvgvcpproxy._handle_control_packet, htype]
    · simp [arvgvcpproxy._handle_control_packet, htype]
    · simp [arvgvcpproxy._handle_control_packet, htype]
    · intro hstate
      simp only [arvgvcpproxy._handle_control_packet, ne_eq, htype, not_false_eq_true, if_true]
      unfold arvgvcpproxy.controller_check
      rcases hstate with h | h
      · simp [h]
      · cases hc : proxy.controller_address with
        | none => rfl
        | some P => simp only []; rw [if_neg (Nat.not_lt.mpr h)]
    · intro other hsame
      simp [arvgvcpproxy._handle_control_packet, htype, hother other hsame]
  · refine ⟨?_, ?_, ?_, ?_, ?_⟩
    · simp [gstaravissink._handle_control_packet, hcamera, htype]
    · simp [gstaravissink._handle_control_packet, hcamera, htype]
    · simp only [gstaravissink._handle_control_packet, hcamera, ne_eq, htype,
        not_false_eq_true, if_true]
      unfold gstaravissink.controller_check
      cases hc : priv.controller_address with
      | none => rfl
      | some P =>
        simp only []
        split_ifs
        · rfl
        · rfl
    · intro hstate
      simp only [gstaravissink._handle_control_packet, hcamera, ne_eq, htype,
        not_false_eq_true, if_true]
      unfold gstaravissink.controller_check
      cases hc : priv.controller_address with
      | none => simp only []; exact hback
      | some P =>
        rcases hstate with h | h
        · rw [hc] at h; exact absurd h (by simp)
        · simp only []; rw [if_neg (Nat.not_lt.mpr h)]; exact hback
    · intro other hsame
      simp [gstaravissink._handle_control_packet, hcamera, htype, hother other hsame]

/-- C13 (amended) on a concrete run: a header announcing 8 data bytes of which
none was received, sent by B one second after the last contact of A. -/
theorem C13_malformed_packets_refused_witness :
    (arvgvcpproxy._handle_control_packet gige_constants
        (arvgvcpproxy_backend.fake_vtable memory_camera) proxy_controlled_by_A peer_B
        (received_packet sample_codec stale_write_buffer 8) one_second_later).sent = [] ∧
    (arvgvcpproxy._handle_control_packet gige_constants
        (arvgvcpproxy_backend.fake_vtable memory_camera) proxy_controlled_by_A peer_B
        (received_packet sample_codec stale_write_buffer 8) one_second_later).proxy
      = proxy_controlled_by_A ∧
    (gstaravissink._handle_control_packet gige_constants memory_camera sink_controlled_by_A
        peer_B (received_packet sample_codec stale_write_buffer 8) one_second_later).sent
      = [] ∧
    (gstaravissink._handle_control_packet gige_constants memory_camera sink_controlled_by_A
        peer_B (received_packet sample_codec stale_write_buffer 8) one_second_later).priv
      = sink_controlled_by_A :=
  have h := C13_malformed_packets_refused gige_constants
    (arvgvcpproxy_backend.fake_vtable memory_camera) memory_camera sample_codec
    proxy_controlled_by_A sink_controlled_by_A controlled_memory peer_B stale_write_buffer 8
    one_second_later rfl (by decide) (Or.inr (by decide))
  ⟨h.1.1, h.1.2.2.2.2.1 (Or.inr (by decide)), h.2.1, h.2.2.2.2.1 (Or.inr (by decide))⟩

end malformed

section clock

variable {σ : Type}

/-- A clock that stepped back: for a negative time difference inside the
`gint64` range the stored `elapsed_ms` is 0 when the step is shorter than one
millisecond, and otherwise `2 ^ 64` minus the whole milliseconds of the step. -/
theorem elapsed_ms_of_neg (time controller_time : Int)
    (h0 : time - controller_time < 0)
    (h1 : -9223372036854775808 ≤ time - controller_time) :
    (elapsed_ms time controller_time : Int)
      = (if controller_time - time < 1000 then 0
         else 18446744073709551616 - (controller_time - time) / 1000) := by
  unfold elapsed_ms
  have hneg : time - controller_time = -(controller_time - time) := by omega
  rw [hneg, Int.neg_tdiv, Int.tdiv_eq_ediv (by omega) (by norm_num)]
  split_ifs with h <;> omega

/-- C25 (elapsed-time arithmetic).  With the clock difference `now -
last_contact` inside the `gint64` range: `elapsed_ms` is the difference divided
by 1000 with truncation toward zero, taken modulo `2 ^ 64`; so it is the
floor of the quotient for a non-negative difference, 0 for a step back of less
than 1000 µs, and `2 ^ 64` minus the whole milliseconds of the step
otherwise.  In state Controlled(P, last_contact) the heartbeat check releases
the controller exactly when that value is strictly greater than the timeout;
a difference below (timeout + 1) ms leaves the state alone; and a clock with
`now ≤ last_contact - 1000` yields a value of at least `2 ^ 64 - 2 ^ 63 / 1000`
and, the timeout being a 32-bit value, releases the controller.  Proxy and
sink alike. -/
theorem C25_elapsed_time_arithmetic (k : ArvConstants)
    (vtable : ArvGvcpProxyBackendVTable σ) (cam : ArvFakeCamera σ)
    (proxy : ArvGvcpProxy σ) (priv : GstAravisSinkPrivate σ) (camera : σ)
    (P Q : GInetSocketAddress) (now last_contact : Int)
    (hproxy : proxy.controller_address = some P)
    (hpriv : priv.controller_address = some P)
    (hlast_proxy : proxy.controller_time = last_contact)
    (hlast_sink : priv.controller_time = last_contact)
    (hlow : -9223372036854775808 ≤ now - last_contact)
    (hhigh : now - last_contact < 9223372036854775808)
    (htimeout_proxy : arvgvcpproxy._backend_read_register vtable proxy.backend
      k.GVBS_HEARTBEAT_TIMEOUT_OFFSET 3000 < 4294967296)
    (htimeout_sink : arv_fake_camera_get_heartbeat_timeout k cam camera < 4294967296) :
    (elapsed_ms now last_contact : Int)
      = (Int.tdiv (now - last_contact) 1000) % 18446744073709551616 ∧
    (0 ≤ now - last_contact →
      (elapsed_ms now last_contact : Int) = (now - last_contact) / 1000) ∧
    (now - last_contact < 0 →
      (elapsed_ms now last_contact : Int)
        = (if last_contact - now < 1000 then 0
           else 18446744073709551616 - (last_contact - now) / 1000)) ∧
    ((arvgvcpproxy.controller_check k vtable proxy Q now).1.controller_address = none ↔
      elapsed_ms now last_contact >
        arvgvcpproxy._backend_read_register vtable proxy.backend
          k.GVBS_HEARTBEAT_TIMEOUT_OFFSET 3000) ∧
    ((gstaravissink.controller_check k cam priv camera Q now).1.controller_address = none ↔
      elapsed_ms now last_contact > arv_fake_camera_get_heartbeat_timeout k cam camera) ∧
    (0 ≤ now - last_contact →
      now - last_contact <
        ((arvgvcpproxy._backend_read_register vtable proxy.backend
          k.GVBS_HEARTBEAT_TIMEOUT_OFFSET 3000 : Nat) + 1) * 1000 →
      (arvgvcpproxy.controller_check k vtable proxy Q now).1 = proxy) ∧
    (0 ≤ now - last_contact →
      now - last_contact <
        ((arv_fake_camera_get_heartbeat_timeout k cam camera : Nat) + 1) * 1000 →
      (gstaravissink.controller_check k cam priv camera Q now).1 = priv ∧
      (gstaravissink.controller_check k cam priv camera Q now).2.1 = camera) ∧
    (now ≤ last_contact - 1000 →
      18437520701672696841 ≤ elapsed_ms now last_contact ∧
      (arvgvcpproxy.controller_check k vtable proxy Q now).1.controller_address = none ∧
      (gstaravissink.controller_check k cam priv camera Q now).1.controller_address = none) := by
  have hnonneg : 0 ≤ now - last_contact →
      (elapsed_ms now last_contact : Int) = (now - last_contact) / 1000 :=
    fun h => elapsed_ms_of_nonneg now last_contact h hhigh
  have hnegative : now - last_contact < 0 →
      (elapsed_ms now last_contact : Int)
        = (if last_contact - now < 1000 then 0
           else 18446744073709551616 - (last_contact - now) / 1000) :=
    fun h => elapsed_ms_of_neg now last_contact h hlow
  have hproxy_iff : (arvgvcpproxy.controller_check k vtable proxy Q now).1.controller_address
      = none ↔ elapsed_ms now last_contact >
        arvgvcpproxy._backend_read_register vtable proxy.backend
          k.GVBS_HEARTBEAT_TIMEOUT_OFFSET 3000 := by
    simp only [arvgvcpproxy.controller_check, hproxy, hlast_proxy]
    split_ifs with h
    · simp [arvgvcpproxy._proxy_release_controller, hproxy, h]
    · simp [hproxy, h]
  have hsink_iff : (gstaravissink.controller_check k cam priv camera Q now).1.controller_address
      = none ↔ elapsed_ms now last_contact >
        arv_fake_camera_get_heartbeat_timeout k cam camera := by
    simp only [gstaravissink.controller_check, hpriv, hlast_sink]
    split_ifs with h
    · simp [h]
    · simp [hpriv, h]
  refine ⟨?_, hnonneg, hnegative, hproxy_iff, hsink_iff, ?_, ?_, ?_⟩
  · unfold elapsed_ms
    exact Int.toNat_of_nonneg (Int.emod_nonneg _ (by norm_num))
  · intro h0 hlt
    have he := hnonneg h0
    have hle : elapsed_ms now last_contact ≤
        arvgvcpproxy._backend_read_register vtable proxy.backend
          k.GVBS_HEARTBEAT_TIMEOUT_OFFSET 3000 := by
      omega
    simp only [arvgvcpproxy.controller_check, hproxy, hlast_proxy]
    rw [if_neg (Nat.not_lt.mpr hle)]
  · intro h0 hlt
    have he := hnonneg h0
    have hle : elapsed_ms now last_contact ≤
        arv_fake_camera_get_heartbeat_timeout k cam camera := by
      omega
    simp only [gstaravissink.controller_check, hpriv, hlast_sink]
    rw [if_neg (Nat.not_lt.mpr hle)]
    exact ⟨rfl, rfl⟩
  · intro hback
    have he := hnegative (by omega)
    rw [if_neg (by omega)] at he
    have hbig : 18437520701672696841 ≤ elapsed_ms now last_contact := by omega
    exact ⟨hbig, hproxy_iff.mpr (by omega), hsink_iff.mpr (by omega)⟩

/-- C25 on a concrete run: the wall clock reads 0, one second before the last
contact of controller A; `elapsed_ms` is `2 ^ 64 - 1000` and the heartbeat
check releases A, in the proxy and in the sink. -/
theorem C25_elapsed_time_arithmetic_witness :
    18437520701672696841 ≤ elapsed_ms 0 1000000 ∧
    (arvgvcpproxy.controller_check gige_constants
      (arvgvcpproxy_backend.fake_vtable memory_camera) proxy_controlled_by_A peer_A
      0).1.controller_address = none ∧
    (gstaravissink.controller_check gige_constants memory_camera sink_controlled_by_A
      controlled_memory peer_A 0).1.controller_address = none :=
  (C25_elapsed_time_arithmetic gige_constants
    (arvgvcpproxy_backend.fake_vtable memory_camera) memory_camera proxy_controlled_by_A
    sink_controlled_by_A controlled_memory peer_A peer_A 0 1000000
    rfl rfl rfl rfl (by decide) (by decide) (by decide) (by decide)).2.2.2.2.2.2.2 (by decide)

end clock

section refresh

variable {σ : Type}

/-- C24 (heartbeat refresh ignores the sender).  In state Controlled(P, t)
with the heartbeat alive, a READ_REGISTER_CMD at the privilege offset from a
peer Q ≠ P is handled without write access, and the command switch stores the
clock reading into last_contact whatever the write access and whatever the
backend read reports; the state the handler leaves is the one P's own read
would leave, with last_contact a clock reading of this run.  With the
privilege register reading non-zero the record is Controlled(P, time of the
read), so that a later heartbeat check within the timeout of Q's read finds
the controller alive.  Proxy and sink alike. -/
theorem C24_refresh_ignores_sender (k : ArvConstants)
    (vtable : ArvGvcpProxyBackendVTable σ) (cam : ArvFakeCamera σ)
    (proxy : ArvGvcpProxy σ) (priv : GstAravisSinkPrivate σ) (camera : σ)
    (P Q : GInetSocketAddress) (packet : ArvGvcpPacket) (now : RealTime) (later : Int)
    (hproxy : proxy.controller_address = some P)
    (hpriv : priv.controller_address = some P)
    (hcamera : priv.camera = some camera)
    (halive_proxy : elapsed_ms now.at_check proxy.controller_time ≤
      arvgvcpproxy._backend_read_register vtable proxy.backend
        k.GVBS_HEARTBEAT_TIMEOUT_OFFSET 3000)
    (halive_sink : elapsed_ms now.at_check priv.controller_time ≤
      arv_fake_camera_get_heartbeat_timeout k cam camera)
    (hQ : Q ≠ P)
    (htype : packet.packet_type = k.GVCP_PACKET_TYPE_CMD)
    (hcmd : packet.command = .READ_REGISTER_CMD)
    (haddr : packet.read_register_cmd_infos = k.GVBS_CONTROL_CHANNEL_PRIVILEGE_OFFSET) :
    ((arvgvcpproxy.controller_check k vtable proxy Q now.at_check).2 = false ∧
     (∀ write_access : Bool,
       (arvgvcpproxy.dispatch k vtable proxy packet write_access now.at_read).1
         = { proxy with controller_time := now.at_read }) ∧
     (arvgvcpproxy._handle_control_packet k vtable proxy Q packet now).proxy
       = (arvgvcpproxy._handle_control_packet k vtable proxy P packet now).proxy ∧
     ((arvgvcpproxy._handle_control_packet k vtable proxy Q packet now).proxy.controller_time
         = now.at_read ∨
       (arvgvcpproxy._handle_control_packet k vtable proxy Q packet now).proxy.controller_time
         = now.at_update) ∧
     (arvgvcpproxy._backend_read_register vtable proxy.backend
         k.GVBS_CONTROL_CHANNEL_PRIVILEGE_OFFSET 0 ≠ 0 →
       (arvgvcpproxy._handle_control_packet k vtable proxy Q packet now).proxy
         = { proxy with controller_time := now.at_read } ∧
       (elapsed_ms later now.at_read ≤
           arvgvcpproxy._backend_read_register vtable proxy.backend
             k.GVBS_HEARTBEAT_TIMEOUT_OFFSET 3000 →
         arvgvcpproxy.controller_check k vtable
             (arvgvcpproxy._handle_control_packet k vtable proxy Q packet now).proxy P later
           = ((arvgvcpproxy._handle_control_packet k vtable proxy Q packet now).proxy, true)))) ∧
    ((gstaravissink.controller_check k cam priv camera Q now.at_check).2.2 = false ∧
     (∀ write_access : Bool,
       (gstaravissink.dispatch k cam priv camera packet write_access now.at_read).1
         = { priv with controller_time := now.at_read }) ∧
     (gstaravissink._handle_control_packet k cam priv Q packet now).priv
       = (gstaravissink._handle_control_packet k cam priv P packet now).priv ∧
     ((gstaravissink._handle_control_packet k cam priv Q packet now).priv.controller_time
         = now.at_read ∨
       (gstaravissink._handle_control_packet k cam priv Q packet now).priv.controller_time
         = now.at_update) ∧
     (arv_fake_camera_get_control_channel_privilege k cam camera ≠ 0 →
       (gstaravissink._handle_control_packet k cam priv Q packet now).priv
         = { priv with controller_time := now.at_read } ∧
       (elapsed_ms later now.at_read ≤ arv_fake_camera_get_heartbeat_timeout k cam camera →
         gstaravissink.controller_check k cam
             (gstaravissink._handle_control_packet k cam priv Q packet now).priv camera P later
           = ((gstaravissink._handle_control_packet k cam priv Q packet now).priv, camera,
              true)))) := by
  have hne : _g_inet_socket_address_is_equal Q P = false := by
    cases h : _g_inet_socket_address_is_equal Q P
    · rfl
    · exact absurd ((is_equal_iff Q P).mp h) hQ
  have hcp : ∀ R : GInetSocketAddress, arvgvcpproxy.controller_check k vtable proxy R now.at_check
      = (proxy, _g_inet_socket_address_is_equal R P) := by
    intro R
    simp only [arvgvcpproxy.controller_check, hproxy]
    rw [if_neg (Nat.not_lt.mpr halive_proxy)]
  have hcs : ∀ R : GInetSocketAddress,
      gstaravissink.controller_check k cam priv camera R now.at_check
      = (priv, camera, _g_inet_socket_address_is_equal R P) := by
    intro R
    simp only [gstaravissink.controller_check, hpriv]
    rw [if_neg (Nat.not_lt.mpr halive_sink)]
  have hdp : ∀ write_access : Bool,
      (arvgvcpproxy.dispatch k vtable proxy packet write_access now.at_read).1
        = { proxy with controller_time := now.at_read } := by
    intro write_access
    simp [arvgvcpproxy.dispatch, hcmd, haddr]
  have hds : ∀ write_access : Bool,
      (gstaravissink.dispatch k cam priv camera packet write_access now.at_read).1
        = { priv with controller_time := now.at_read } := by
    intro write_access
    simp [gstaravissink.dispatch, hcmd, haddr]
  have hrunp : ∀ R : GInetSocketAddress,
      (arvgvcpproxy._handle_control_packet k vtable proxy R packet now).proxy
        = arvgvcpproxy.controller_update k vtable
            { proxy with controller_time := now.at_read } R now.at_update := by
    intro R
    simp [arvgvcpproxy._handle_control_packet, hcp, htype, arvgvcpproxy.dispatch, hcmd, haddr]
  have hruns : ∀ R : GInetSocketAddress,
      (gstaravissink._handle_control_packet k cam priv R packet now).priv
        = { gstaravissink.controller_update k cam
              { priv with controller_time := now.at_read } camera R now.at_update
            with camera := some camera } := by
    intro R
    simp [gstaravissink._handle_control_packet, hcamera, hcs, htype, gstaravissink.dispatch,
      hcmd, haddr]
  have hupp : ∀ R : GInetSocketAddress,
      arvgvcpproxy.controller_update k vtable
          { proxy with controller_time := now.at_read } R now.at_update
        = arvgvcpproxy.controller_update k vtable
          { proxy with controller_time := now.at_read } P now.at_update := by
    intro R
    simp [arvgvcpproxy.controller_update, hproxy]
  have hups : ∀ R : GInetSocketAddress,
      gstaravissink.controller_update k cam
          { priv with controller_time := now.at_read } camera R now.at_update
        = gstaravissink.controller_update k cam
          { priv with controller_time := now.at_read } camera P now.at_update := by
    intro R
    simp [gstaravissink.controller_update, hpriv]
  constructor
  · refine ⟨?_, hdp, ?_, ?_, ?_⟩
    · rw [hcp Q, hne]
    · rw [hrunp Q, hrunp P, hupp Q]
    · rw [hrunp Q]
      unfold arvgvcpproxy.controller_update
      split_ifs
      · right; rfl
      · right; rfl
      · left; rfl
    · intro hnz
      have hfinal : (arvgvcpproxy._handle_control_packet k vtable proxy Q packet now).proxy
          = { proxy with controller_time := now.at_read } := by
        rw [hrunp Q]
        simp [arvgvcpproxy.controller_update, hproxy, hnz]
      refine ⟨hfinal, ?_⟩
      intro hlater
      rw [hfinal]
      simp only [arvgvcpproxy.controller_check, hproxy]
      rw [if_neg (Nat.not_lt.mpr hlater), is_equal_self]
  · refine ⟨?_, hds, ?_, ?_, ?_⟩
    · rw [hcs Q, hne]
    · rw [hruns Q, hruns P, hups Q]
    · rw [hruns Q]
      unfold gstaravissink.controller_update
      split_ifs
      · right; rfl
      · right; rfl
      · left; rfl
    · intro hnz
      have hfinal : (gstaravissink._handle_control_packet k cam priv Q packet now).priv
          = { priv with controller_time := now.at_read } := by
        rw [hruns Q]
        simp only [gstaravissink.controller_update, hpriv, hnz]
        cases priv; simp_all
      refine ⟨hfinal, ?_⟩
      intro hlater
      rw [hfinal]
      simp only [gstaravissink.controller_check, hpriv]
      rw [if_neg (Nat.not_lt.mpr hlater), is_equal_self]

/-- C24 on a concrete run: A controls since t = 1 s (timeout 3000 ms); B reads
the privilege register at 2 s; the record is Controlled(A, time of B's read),
and the heartbeat check of a packet from A at 4.5 s, which is 3500 ms after
A's last own contact, finds A alive. -/
theorem C24_refresh_ignores_sender_witness :
    ((arvgvcpproxy._handle_control_packet gige_constants
        (arvgvcpproxy_backend.fake_vtable memory_camera) proxy_controlled_by_A peer_B
        (command_packet .READ_REGISTER_CMD 8 0x0a00 0) one_second_later).proxy
      = { proxy_controlled_by_A with controller_time := one_second_later.at_read } ∧
     arvgvcpproxy.controller_check gige_constants
        (arvgvcpproxy_backend.fake_vtable memory_camera)
        (arvgvcpproxy._handle_control_packet gige_constants
          (arvgvcpproxy_backend.fake_vtable memory_camera) proxy_controlled_by_A peer_B
          (command_packet .READ_REGISTER_CMD 8 0x0a00 0) one_second_later).proxy peer_A 4500000
      = ((arvgvcpproxy._handle_control_packet gige_constants
          (arvgvcpproxy_backend.fake_vtable memory_camera) proxy_controlled_by_A peer_B
          (command_packet .READ_REGISTER_CMD 8 0x0a00 0) one_second_later).proxy, true)) ∧
    ((gstaravissink._handle_control_packet gige_constants memory_camera sink_controlled_by_A
        peer_B (command_packet .READ_REGISTER_CMD 8 0x0a00 0) one_second_later).priv
      = { sink_controlled_by_A with controller_time := one_second_later.at_read } ∧
     gstaravissink.controller_check gige_constants memory_camera
        (gstaravissink._handle_control_packet gige_constants memory_camera sink_controlled_by_A
          peer_B (command_packet .READ_REGISTER_CMD 8 0x0a00 0) one_second_later).priv
        controlled_memory peer_A 4500000
      = ((gstaravissink._handle_control_packet gige_constants memory_camera
          sink_controlled_by_A peer_B (command_packet .READ_REGISTER_CMD 8 0x0a00 0)
          one_second_later).priv, controlled_memory, true)) :=
  have h := C24_refresh_ignores_sender gige_constants
    (arvgvcpproxy_backend.fake_vtable memory_camera) memory_camera proxy_controlled_by_A
    sink_controlled_by_A controlled_memory peer_A peer_B
    (command_packet .READ_REGISTER_CMD 8 0x0a00 0) one_second_later 4500000
    rfl rfl rfl (by decide) (by decide) (by decide) rfl rfl rfl
  ⟨⟨(h.1.2.2.2.2 (by decide)).1, (h.1.2.2.2.2 (by decide)).2 (by decide)⟩,
   ⟨(h.2.2.2.2.2 (by decide)).1, (h.2.2.2.2.2 (by decide)).2 (by decide)⟩⟩

end refresh

section fragmentation_loop

variable {σ : Type}

/-- The payload loop, run with enough fuel from `offset` with a positive piece
size, ends; every iteration takes at least one byte and at most the piece
size, the sizes taken add up to the bytes that were left, and there are at
most that many iterations. -/
theorem payload_loop_steps (frame_id p : Nat) (payload : List Nat) (hp : 0 < p) :
    ∀ (fuel offset block_id : Nat), offset ≤ payload.length →
      payload.length - offset < fuel →
      ∃ (packets : List ArvGvspPacket) (last : Nat),
        gstaravissink.payload_loop frame_id p payload fuel offset block_id
          = some (packets, last) ∧
        (∀ x ∈ packets, 1 ≤ x.data.length ∧ x.data.length ≤ p) ∧
        offset + (packets.map (fun x => x.data.length)).sum = payload.length ∧
        packets.length ≤ payload.length - offset := by
  intro fuel
  induction fuel with
  | zero => intro offset block_id _ h; omega
  | succ fuel ih =>
    intro offset block_id hoff hfuel
    by_cases hlt : offset < payload.length
    · have hds : 0 < min p (payload.length - offset) := by
        rw [Nat.lt_min]; omega
      have hle : min p (payload.length - offset) ≤ payload.length - offset :=
        Nat.min_le_right _ _
      obtain ⟨rest, last, hloop, hsizes, hsum, hcount⟩ :=
        ih (offset + min p (payload.length - offset)) ((block_id + 1) % 65536) (by omega)
          (by omega)
      refine ⟨ArvGvspPacket.payload frame_id block_id
        ((payload.drop offset).take (min p (payload.length - offset))) :: rest, last,
        ?_, ?_, ?_, ?_⟩
      · rw [gstaravissink.payload_loop, if_pos hlt]
        simp only [hloop]
      · intro x hx
        rcases List.mem_cons.mp hx with h | h
        · subst h
          simp only [ArvGvspPacket.data, List.length_take, List.length_drop]
          have := Nat.min_le_left p (payload.length - offset)
          omega
        · exact hsizes x h
      · have hd : (ArvGvspPacket.payload frame_id block_id
            ((payload.drop offset).take (min p (payload.length - offset)))).data.length
            = min p (payload.length - offset) := by
          simp only [ArvGvspPacket.data, List.length_take, List.length_drop]
          exact Nat.min_eq_left hle
        simp only [List.map_cons, List.sum_cons, hd]
        omega
      · simp only [List.length_cons]
        omega
    · refine ⟨[], block_id, ?_, ?_, ?_, ?_⟩
      · rw [gstaravissink.payload_loop, if_neg hlt]
      · intro x hx; cases hx
      · simp only [List.map_nil, List.sum_nil]
        omega
      · simp

/-- A successful start leaves a transmit buffer of `GVSP_MAXIMUM_PACKET_SIZE`
bytes. -/
theorem start_packet_buffer_size (k : ArvConstants) (cam : ArvFakeCamera σ)
    (priv : GstAravisSinkPrivate σ) (gvsp_socket : Option GSocket) (sockets : InputSockets)
    (new_camera : Option σ) (env : StartEnvironment)
    (hstart : (gstaravissink.gst_aravis_sink_start k cam priv gvsp_socket sockets new_camera
      env).success = true) :
    (gstaravissink.gst_aravis_sink_start k cam priv gvsp_socket sockets new_camera
      env).priv.packet_buffer_size = k.GVSP_MAXIMUM_PACKET_SIZE := by
  unfold gstaravissink.gst_aravis_sink_start at hstart ⊢
  cases new_camera with
  | none => simp at hstart
  | some camera =>
    cases hi : env.iface with
    | none => simp [hi] at hstart
    | some iface =>
      simp only [hi] at hstart ⊢
      split_ifs at hstart ⊢ <;>
        first
        | (simp at hstart; done)
        | simp [gstaravissink._apply_default_registers]

/-- C23 (the fragmentation loop terminates and fits the buffer).  With
OVERHEAD < MINIMUM ≤ MAXIMUM (32-bit) and a GVSP header no larger than the
overhead: for every value of the packet-size register and every payload, the
loop of `gst_aravis_sink_render`, given more fuel than payload bytes, ends;
each iteration advances `offset` by the data size of its packet, which is at
least 1 and at most S - OVERHEAD; these advances add up to the payload length,
so the loop stops with `offset = L`, after at most L iterations; and every
packet built, header plus data, is no larger than the transmit buffer that a
successful start allocated, of GVSP_MAXIMUM_PACKET_SIZE bytes. -/
theorem C23_fragmentation_loop_terminates (k : ArvConstants) (cam : ArvFakeCamera σ)
    (priv : GstAravisSinkPrivate σ) (gvsp_socket : Option GSocket) (sockets : InputSockets)
    (new_camera : Option σ) (env : StartEnvironment)
    (register frame_id fuel header_size : Nat) (payload : List Nat)
    (hovh : k.GVSP_PACKET_PROTOCOL_OVERHEAD < k.GVSP_MINIMUM_PACKET_SIZE)
    (hminmax : k.GVSP_MINIMUM_PACKET_SIZE ≤ k.GVSP_MAXIMUM_PACKET_SIZE)
    (hmax : k.GVSP_MAXIMUM_PACKET_SIZE < 4294967296)
    (hheader : header_size ≤ k.GVSP_PACKET_PROTOCOL_OVERHEAD)
    (hstart : (gstaravissink.gst_aravis_sink_start k cam priv gvsp_socket sockets new_camera
      env).success = true)
    (hfuel : payload.length < fuel) :
    ∃ (packets : List ArvGvspPacket) (last : Nat),
      gstaravissink.payload_loop frame_id
          (gstaravissink.gv_packet_payload k (gstaravissink.gv_packet_size k register))
          payload fuel 0 1 = some (packets, last) ∧
      (∀ x ∈ packets, 1 ≤ x.data.length ∧
        x.data.length ≤
          gstaravissink.gv_packet_size k register - k.GVSP_PACKET_PROTOCOL_OVERHEAD) ∧
      (packets.map (fun x => x.data.length)).sum = payload.length ∧
      packets.length ≤ payload.length ∧
      (gstaravissink.gst_aravis_sink_start k cam priv gvsp_socket sockets new_camera
        env).priv.packet_buffer_size = k.GVSP_MAXIMUM_PACKET_SIZE ∧
      (∀ x ∈ packets, arv_gvsp_packet_size header_size x ≤
        (gstaravissink.gst_aravis_sink_start k cam priv gvsp_socket sockets new_camera
          env).priv.packet_buffer_size) := by
  obtain ⟨hpay, hpos⟩ := gv_packet_payload_eq k register hovh hminmax hmax
  obtain ⟨_, hsize⟩ := gv_packet_size_bounds k register hminmax
  have hbuffer := start_packet_buffer_size k cam priv gvsp_socket sockets new_camera env hstart
  obtain ⟨packets, last, hloop, hsizes, hsum, hcount⟩ :=
    payload_loop_steps frame_id _ payload hpos fuel 0 1 (Nat.zero_le _) (by omega)
  refine ⟨packets, last, ?_, hsizes, by omega, by omega, hbuffer, ?_⟩
  · rw [hpay]; exact hloop
  · intro x hx
    have := (hsizes x hx).2
    rw [hbuffer]
    unfold arv_gvsp_packet_size
    omega

/-- C23 on a concrete run: the sink started on 192.168.1.10, packet-size
register 1500, a payload of 3000 bytes, a GVSP header of 8 bytes. -/
theorem C23_fragmentation_loop_terminates_witness :
    ∃ (packets : List ArvGvspPacket) (last : Nat),
      gstaravissink.payload_loop 1
          (gstaravissink.gv_packet_payload gige_constants
            (gstaravissink.gv_packet_size gige_constants 1500))
          (List.replicate 3000 0) 3001 0 1 = some (packets, last) ∧
      (∀ x ∈ packets, 1 ≤ x.data.length ∧
        x.data.length ≤ gstaravissink.gv_packet_size gige_constants 1500
          - gige_constants.GVSP_PACKET_PROTOCOL_OVERHEAD) ∧
      (packets.map (fun x => x.data.length)).sum = (List.replicate 3000 0).length ∧
      packets.length ≤ (List.replicate 3000 0).length ∧
      (gstaravissink.gst_aravis_sink_start gige_constants memory_camera
        (gstaravissink.gst_aravis_sink_init (Nat → Nat) 0x01080001 0x01100007) none
        InputSockets.zeroed (some controlled_memory)
        { iface := some sample_interface, gvsp := bind_ok 10, gvcp := bind_ok 11,
          global_discovery := bind_ok 12, subnet_discovery := bind_ok 13 }).priv.packet_buffer_size
        = gige_constants.GVSP_MAXIMUM_PACKET_SIZE ∧
      (∀ x ∈ packets, arv_gvsp_packet_size 8 x ≤
        (gstaravissink.gst_aravis_sink_start gige_constants memory_camera
          (gstaravissink.gst_aravis_sink_init (Nat → Nat) 0x01080001 0x01100007) none
          InputSockets.zeroed (some controlled_memory)
          { iface := some sample_interface, gvsp := bind_ok 10, gvcp := bind_ok 11,
            global_discovery := bind_ok 12, subnet_discovery := bind_ok 13
            }).priv.packet_buffer_size) :=
  C23_fragmentation_loop_terminates gige_constants memory_camera
    (gstaravissink.gst_aravis_sink_init (Nat → Nat) 0x01080001 0x01100007) none
    InputSockets.zeroed (some controlled_memory)
    { iface := some sample_interface, gvsp := bind_ok 10, gvcp := bind_ok 11,
      global_discovery := bind_ok 12, subnet_discovery := bind_ok 13 }
    1500 1 3001 8 (List.replicate 3000 0)
    (by decide) (by decide) (by decide) (by decide) rfl
    (by rw [List.length_replicate]; decide)

end fragmentation_loop

section format_update

variable {σ : Type}

/-- Reading a register after a run of writes to other registers gives what it
held before, for a camera whose registers do not overlap. -/
theorem read_after_other_writes (cam : ArvFakeCamera σ) (registers : List Nat)
    (hother : ∀ (s : σ) (a b v : Nat), a ∈ registers → b ∈ registers → a ≠ b →
      (cam.read_register (cam.write_register s a v).2 b).2 = (cam.read_register s b).2)
    (b : Nat) (hb : b ∈ registers) :
    ∀ (writes : List (Nat × Nat)) (camera : σ),
      (∀ w ∈ writes, w.1 ∈ registers ∧ w.1 ≠ b) →
      (cam.read_register (write_registers cam camera writes) b).2
        = (cam.read_register camera b).2 := by
  intro writes
  induction writes with
  | nil => intro camera _; rfl
  | cons w rest ih =>
    intro camera hw
    obtain ⟨a, v⟩ := w
    rw [write_registers, ih _ (fun x hx => hw x (List.mem_cons_of_mem _ hx))]
    exact hother camera a b v (hw (a, v) (List.mem_cons_self _ _)).1 hb
      (hw (a, v) (List.mem_cons_self _ _)).2

/-- After a run of writes to pairwise distinct registers, each register reads
the value written to it, for a camera whose registers store 32-bit values and
do not overlap. -/
theorem read_after_writes (cam : ArvFakeCamera σ) (registers : List Nat)
    (hsame : ∀ (s : σ) (a v : Nat), a ∈ registers → v < 4294967296 →
      (cam.read_register (cam.write_register s a v).2 a).2 = v)
    (hother : ∀ (s : σ) (a b v : Nat), a ∈ registers → b ∈ registers → a ≠ b →
      (cam.read_register (cam.write_register s a v).2 b).2 = (cam.read_register s b).2) :
    ∀ (writes : List (Nat × Nat)) (camera : σ), (writes.map Prod.fst).Nodup →
      (∀ w ∈ writes, w.1 ∈ registers ∧ w.2 < 4294967296) →
      ∀ w ∈ writes, (cam.read_register (write_registers cam camera writes) w.1).2 = w.2 := by
  intro writes
  induction writes with
  | nil => intro camera _ _ w hw; cases hw
  | cons w0 rest ih =>
    intro camera hnodup hall w hw
    obtain ⟨a, v⟩ := w0
    rw [List.map_cons, List.nodup_cons] at hnodup
    rcases List.mem_cons.mp hw with h | h
    · subst h
      rw [write_registers,
        read_after_other_writes cam registers hother a (hall (a, v) (List.mem_cons_self _ _)).1]
      · exact hsame camera a v (hall (a, v) (List.mem_cons_self _ _)).1
          (hall (a, v) (List.mem_cons_self _ _)).2
      · intro x hx
        refine ⟨(hall x (List.mem_cons_of_mem _ hx)).1, ?_⟩
        intro hxa
        exact hnodup.1 (List.mem_map.mpr ⟨x, hx, hxa⟩)
    · rw [write_registers]
      exact ih _ hnodup.2 (fun x hx => hall x (List.mem_cons_of_mem _ hx)) w h

/-- A register of `memory_camera` reads back the 32-bit value written to it. -/
theorem memory_camera_write_read (memory : Nat → Nat) (a v : Nat) (ha : a + 4 ≤ 65536)
    (hv : v < 4294967296) :
    (memory_camera.read_register (memory_camera.write_register memory a v).2 a).2 = v := by
  simp only [memory_camera, if_neg (Nat.not_lt.mpr ha)]
  simp only [if_true, Nat.add_right_eq_self, Nat.add_right_cancel_iff, OfNat.ofNat_ne_zero,
    OfNat.ofNat_ne_one, if_false, Nat.succ_ne_self, Nat.reduceEqDiff]
  omega

/-- Writing a register of `memory_camera` leaves a register at four bytes'
distance or more as it was. -/
theorem memory_camera_write_other (memory : Nat → Nat) (a b v : Nat) (ha : a + 4 ≤ 65536)
    (hab : a + 4 ≤ b ∨ b + 4 ≤ a) :
    (memory_camera.read_register (memory_camera.write_register memory a v).2 b).2
      = (memory_camera.read_register memory b).2 := by
  simp only [memory_camera, if_neg (Nat.not_lt.mpr ha)]
  have h0 : b ≠ a ∧ b ≠ a + 1 ∧ b ≠ a + 2 ∧ b ≠ a + 3 := by omega
  have h1 : b + 1 ≠ a ∧ b + 1 ≠ a + 1 ∧ b + 1 ≠ a + 2 ∧ b + 1 ≠ a + 3 := by omega
  have h2 : b + 2 ≠ a ∧ b + 2 ≠ a + 1 ∧ b + 2 ≠ a + 2 ∧ b + 2 ≠ a + 3 := by omega
  have h3 : b + 3 ≠ a ∧ b + 3 ≠ a + 1 ∧ b + 3 ≠ a + 2 ∧ b + 3 ≠ a + 3 := by omega
  rw [if_neg h0.1, if_neg h0.2.1, if_neg h0.2.2.1, if_neg h0.2.2.2,
    if_neg h1.1, if_neg h1.2.1, if_neg h1.2.2.1, if_neg h1.2.2.2,
    if_neg h2.1, if_neg h2.2.1, if_neg h2.2.2.1, if_neg h2.2.2.2,
    if_neg h3.1, if_neg h3.2.1, if_neg h3.2.2.1, if_neg h3.2.2.2]

/-- C22 (format update).  `gst_aravis_sink_set_caps` returns FALSE exactly when
the caps translate to no pixel format (translation 0), and then the whole sink
state, width, height, pixel format and camera included, is unchanged.
Otherwise, with a camera whose nine geometry registers are pairwise distinct,
store 32-bit values and do not overlap, the sink holds the new width, height
and pixel format and the camera reads SENSOR_WIDTH = WIDTH = width,
SENSOR_HEIGHT = HEIGHT = height, X_OFFSET = Y_OFFSET = 0, BINNING_HORIZONTAL =
BINNING_VERTICAL = 1, PIXEL_FORMAT = the translated format; the camera is the
one `_apply_default_registers` leaves when the defaults are these values, the
same registers being written in the same order. -/
theorem C22_format_update (k : ArvConstants) (cam : ArvFakeCamera σ)
    (arv_pixel_format_from_gst_caps : String → Option String → Int → Int → Nat)
    (priv : GstAravisSinkPrivate σ) (camera : σ) (caps : GstStructure)
    (hdistinct : (geometry_registers k).Nodup)
    (hsame : ∀ (s : σ) (a v : Nat), a ∈ geometry_registers k → v < 4294967296 →
      (cam.read_register (cam.write_register s a v).2 a).2 = v)
    (hother : ∀ (s : σ) (a b v : Nat), a ∈ geometry_registers k → b ∈ geometry_registers k →
      a ≠ b →
      (cam.read_register (cam.write_register s a v).2 b).2 = (cam.read_register s b).2)
    (hformat : arv_pixel_format_from_gst_caps caps.name caps.format caps.bpp caps.depth < 4294967296) :
    ((gstaravissink.gst_aravis_sink_set_caps k cam arv_pixel_format_from_gst_caps priv caps).1 = false ↔ arv_pixel_format_from_gst_caps caps.name caps.format caps.bpp caps.depth = 0) ∧
    (arv_pixel_format_from_gst_caps caps.name caps.format caps.bpp caps.depth = 0 → (gstaravissink.gst_aravis_sink_set_caps k cam arv_pixel_format_from_gst_caps priv caps).2 = priv) ∧
    (arv_pixel_format_from_gst_caps caps.name caps.format caps.bpp caps.depth ≠ 0 → priv.camera = some camera →
      ∃ written : σ,
        (gstaravissink.gst_aravis_sink_set_caps k cam arv_pixel_format_from_gst_caps priv caps).1 = true ∧
        (gstaravissink.gst_aravis_sink_set_caps k cam arv_pixel_format_from_gst_caps priv caps).2 =
          { priv with
            camera := some written
            width := (caps.width % 4294967296).toNat
            height := (caps.height % 4294967296).toNat
            pixel_format := arv_pixel_format_from_gst_caps caps.name caps.format caps.bpp caps.depth } ∧
        (cam.read_register written k.FAKE_CAMERA_REGISTER_SENSOR_WIDTH).2 = (caps.width % 4294967296).toNat ∧
        (cam.read_register written k.FAKE_CAMERA_REGISTER_WIDTH).2 = (caps.width % 4294967296).toNat ∧
        (cam.read_register written k.FAKE_CAMERA_REGISTER_SENSOR_HEIGHT).2 = (caps.height % 4294967296).toNat ∧
        (cam.read_register written k.FAKE_CAMERA_REGISTER_HEIGHT).2 = (caps.height % 4294967296).toNat ∧
        (cam.read_register written k.FAKE_CAMERA_REGISTER_X_OFFSET).2 = 0 ∧
        (cam.read_register written k.FAKE_CAMERA_REGISTER_Y_OFFSET).2 = 0 ∧
        (cam.read_register written k.FAKE_CAMERA_REGISTER_BINNING_HORIZONTAL).2 = 1 ∧
        (cam.read_register written k.FAKE_CAMERA_REGISTER_BINNING_VERTICAL).2 = 1 ∧
        (cam.read_register written k.FAKE_CAMERA_REGISTER_PIXEL_FORMAT).2 = arv_pixel_format_from_gst_caps caps.name caps.format caps.bpp caps.depth ∧
        (gstaravissink._apply_default_registers k cam
          { priv with
            default_width := (caps.width % 4294967296).toNat
            default_height := (caps.height % 4294967296).toNat
            default_pixel_format := arv_pixel_format_from_gst_caps caps.name caps.format caps.bpp caps.depth }).camera = some written) := by
  refine ⟨?_, ?_, ?_⟩
  · unfold gstaravissink.gst_aravis_sink_set_caps
    simp only []
    split_ifs with h
    · simp [h]
    · cases hc : priv.camera <;> simp [h]
  · intro h
    simp [gstaravissink.gst_aravis_sink_set_caps, h]
  · intro h hcamera
    have hwidth : (caps.width % 4294967296).toNat < 4294967296 := by omega
    have hheight : (caps.height % 4294967296).toNat < 4294967296 := by omega
    have hreads := read_after_writes cam (geometry_registers k) hsame hother
      [(k.FAKE_CAMERA_REGISTER_SENSOR_WIDTH, (caps.width % 4294967296).toNat),
       (k.FAKE_CAMERA_REGISTER_SENSOR_HEIGHT, (caps.height % 4294967296).toNat),
       (k.FAKE_CAMERA_REGISTER_WIDTH, (caps.width % 4294967296).toNat),
       (k.FAKE_CAMERA_REGISTER_HEIGHT, (caps.height % 4294967296).toNat),
       (k.FAKE_CAMERA_REGISTER_X_OFFSET, 0),
       (k.FAKE_CAMERA_REGISTER_Y_OFFSET, 0),
       (k.FAKE_CAMERA_REGISTER_BINNING_HORIZONTAL, 1),
       (k.FAKE_CAMERA_REGISTER_BINNING_VERTICAL, 1),
       (k.FAKE_CAMERA_REGISTER_PIXEL_FORMAT, arv_pixel_format_from_gst_caps caps.name caps.format caps.bpp caps.depth)] camera hdistinct
      (by
        intro w hw
        simp only [List.mem_cons, List.mem_singleton, List.not_mem_nil, or_false] at hw
        rcases hw with rfl | rfl | rfl | rfl | rfl | rfl | rfl | rfl | rfl <;>
          exact ⟨by simp [geometry_registers], by first | assumption | norm_num⟩)
    refine ⟨_, ?_, ?_,
      hreads (k.FAKE_CAMERA_REGISTER_SENSOR_WIDTH, (caps.width % 4294967296).toNat)
        (List.mem_cons_self _ _),
      hreads (k.FAKE_CAMERA_REGISTER_WIDTH, (caps.width % 4294967296).toNat)
        (List.mem_cons_of_mem _ (List.mem_cons_of_mem _ (List.mem_cons_self _ _))),
      hreads (k.FAKE_CAMERA_REGISTER_SENSOR_HEIGHT, (caps.height % 4294967296).toNat)
        (List.mem_cons_of_mem _ (List.mem_cons_self _ _)),
      hreads (k.FAKE_CAMERA_REGISTER_HEIGHT, (caps.height % 4294967296).toNat)
        (List.mem_cons_of_mem _ (List.mem_cons_of_mem _ (List.mem_cons_of_mem _ (List.mem_cons_self _ _)))),
      hreads (k.FAKE_CAMERA_REGISTER_X_OFFSET, 0)
        (List.mem_cons_of_mem _ (List.mem_cons_of_mem _ (List.mem_cons_of_mem _ (List.mem_cons_of_mem _ (List.mem_cons_self _ _))))),
      hreads (k.FAKE_CAMERA_REGISTER_Y_OFFSET, 0)
        (List.mem_cons_of_mem _ (List.mem_cons_of_mem _ (List.mem_cons_of_mem _ (List.mem_cons_of_mem _ (List.mem_cons_of_mem _ (List.mem_cons_self _ _)))))),
      hreads (k.FAKE_CAMERA_REGISTER_BINNING_HORIZONTAL, 1)
        (List.mem_cons_of_mem _ (List.mem_cons_of_mem _ (List.mem_cons_of_mem _ (List.mem_cons_of_mem _ (List.mem_cons_of_mem _ (List.mem_cons_of_mem _ (List.mem_cons_self _ _))))))),
      hreads (k.FAKE_CAMERA_REGISTER_BINNING_VERTICAL, 1)
        (List.mem_cons_of_mem _ (List.mem_cons_of_mem _ (List.mem_cons_of_mem _ (List.mem_cons_of_mem _ (List.mem_cons_of_mem _ (List.mem_cons_of_mem _ (List.mem_cons_of_mem _ (List.mem_cons_self _ _)))))))),
      hreads (k.FAKE_CAMERA_REGISTER_PIXEL_FORMAT, arv_pixel_format_from_gst_caps caps.name caps.format caps.bpp caps.depth)
        (List.mem_cons_of_mem _ (List.mem_cons_of_mem _ (List.mem_cons_of_mem _ (List.mem_cons_of_mem _ (List.mem_cons_of_mem _ (List.mem_cons_of_mem _ (List.mem_cons_of_mem _ (List.mem_cons_of_mem _ (List.mem_cons_self _ _))))))))),
      ?_⟩
    · simp [gstaravissink.gst_aravis_sink_set_caps, h, hcamera]
    · simp [gstaravissink.gst_aravis_sink_set_caps, h, hcamera, write_registers]
    · simp [gstaravissink._apply_default_registers, hcamera, write_registers]

/-- C22 on a concrete run: the sink of `sink_controlled_by_A` is given raw
8-bit grey caps of 320 x 240. -/
theorem C22_format_update_witness :
    ∃ written : Nat → Nat,
      (gstaravissink.gst_aravis_sink_set_caps gige_constants memory_camera
          sample_pixel_format_from_gst_caps sink_controlled_by_A
          { name := "video/x-raw", format := some "GRAY8", width := 320, height := 240,
            depth := 8, bpp := 8 }).1 = true ∧
      (gstaravissink.gst_aravis_sink_set_caps gige_constants memory_camera
          sample_pixel_format_from_gst_caps sink_controlled_by_A
          { name := "video/x-raw", format := some "GRAY8", width := 320, height := 240,
            depth := 8, bpp := 8 }).2 =
        { sink_controlled_by_A with
          camera := some written
          width := 320
          height := 240
          pixel_format := 0x01080001 } ∧
      (memory_camera.read_register written 0x11c).2 = 320 ∧
      (memory_camera.read_register written 0x100).2 = 320 ∧
      (memory_camera.read_register written 0x118).2 = 240 ∧
      (memory_camera.read_register written 0x104).2 = 240 ∧
      (memory_camera.read_register written 0x130).2 = 0 ∧
      (memory_camera.read_register written 0x134).2 = 0 ∧
      (memory_camera.read_register written 0x108).2 = 1 ∧
      (memory_camera.read_register written 0x10c).2 = 1 ∧
      (memory_camera.read_register written 0x128).2 = 0x01080001 ∧
      (gstaravissink._apply_default_registers gige_constants memory_camera
        { sink_controlled_by_A with
          default_width := 320
          default_height := 240
          default_pixel_format := 0x01080001 }).camera
        = some written :=
  (C22_format_update gige_constants memory_camera sample_pixel_format_from_gst_caps
    sink_controlled_by_A controlled_memory
    { name := "video/x-raw", format := some "GRAY8", width := 320, height := 240, depth := 8,
      bpp := 8 }
    (by decide)
    (fun s a v ha hv => memory_camera_write_read s a v
      (by simp [geometry_registers, gige_constants] at ha; omega) hv)
    (fun s a b v ha hb hab => memory_camera_write_other s a b v
      (by simp [geometry_registers, gige_constants] at ha; omega)
      (by simp [geometry_registers, gige_constants] at ha hb; omega))
    (by decide)).2.2 (by decide) rfl

end format_update

section start

variable {σ : Type}

/-- The fill loop counts the sockets: the counter ends at the number of socket
slots that hold a socket. -/
theorem fill_socket_fds_count (a b c : Option GSocket) (socket_fds : List GPollFD) :
    (fill_socket_fds [a, b, c] 3 0 socket_fds 0).2
      = ([a, b, c].filter Option.isSome).length := by
  cases a <;> cases b <;> cases c <;> rfl

/-- With an interface found, `_proxy_start` returns TRUE whatever the bind
attempts did. -/
theorem proxy_start_ignores_binds (vtable : ArvGvcpProxyBackendVTable σ)
    (proxy : ArvGvcpProxy σ) (sockets : InputSockets) (env : StartEnvironment)
    (iface : ArvNetworkInterface) (hiface : env.iface = some iface) :
    (arvgvcpproxy._proxy_start vtable proxy sockets env).success = true := by
  simp [arvgvcpproxy._proxy_start, hiface]

/-- The start of the sink reports failure when the primary GVCP socket does
not bind. -/
theorem sink_start_fails_without_primary (k : ArvConstants) (cam : ArvFakeCamera σ)
    (priv : GstAravisSinkPrivate σ) (gvsp_socket : Option GSocket) (sockets : InputSockets)
    (new_camera : Option σ) (env : StartEnvironment)
    (hgvcp : (_create_and_bind_input_socket env.gvcp).2 = false) :
    (gstaravissink.gst_aravis_sink_start k cam priv gvsp_socket sockets new_camera
      env).success = false := by
  unfold gstaravissink.gst_aravis_sink_start
  cases new_camera with
  | none => rfl
  | some camera =>
    cases hi : env.iface with
    | none => rfl
    | some iface =>
      simp only [hgvcp]
      split_ifs with h1 h2
      · rfl
      · rfl
      · exact absurd rfl h2

/-- When the camera, the interface, the GVSP socket and the primary GVCP
socket are there, both starts succeed whatever the discovery sockets did, and
the poll-set size is the number of input sockets that are bound. -/
theorem start_poll_set_size (k : ArvConstants) (vtable : ArvGvcpProxyBackendVTable σ)
    (cam : ArvFakeCamera σ) (proxy : ArvGvcpProxy σ) (priv : GstAravisSinkPrivate σ)
    (gvsp_socket : Option GSocket) (socket_fds : List GPollFD) (n_socket_fds : Nat)
    (camera : σ) (env : StartEnvironment) (iface : ArvNetworkInterface)
    (hiface : env.iface = some iface)
    (hgvsp : (_create_and_bind_input_socket env.gvsp).2 = true)
    (hgvcp : (_create_and_bind_input_socket env.gvcp).2 = true) :
    ((arvgvcpproxy._proxy_start vtable proxy
        { input_sockets := [none, none, none], socket_fds := socket_fds,
          n_socket_fds := n_socket_fds } env).success = true ∧
     (arvgvcpproxy._proxy_start vtable proxy
        { input_sockets := [none, none, none], socket_fds := socket_fds,
          n_socket_fds := n_socket_fds } env).sockets.n_socket_fds
       = ((arvgvcpproxy._proxy_start vtable proxy
            { input_sockets := [none, none, none], socket_fds := socket_fds,
              n_socket_fds := n_socket_fds } env).sockets.input_sockets.filter
            Option.isSome).length) ∧
    ((gstaravissink.gst_aravis_sink_start k cam priv gvsp_socket
        { input_sockets := [none, none, none], socket_fds := socket_fds,
          n_socket_fds := n_socket_fds } (some camera) env).success = true ∧
     (gstaravissink.gst_aravis_sink_start k cam priv gvsp_socket
        { input_sockets := [none, none, none], socket_fds := socket_fds,
          n_socket_fds := n_socket_fds } (some camera) env).sockets.n_socket_fds
       = ((gstaravissink.gst_aravis_sink_start k cam priv gvsp_socket
            { input_sockets := [none, none, none], socket_fds := socket_fds,
              n_socket_fds := n_socket_fds } (some camera) env).sockets.input_sockets.filter
            Option.isSome).length) := by
  constructor
  · simp only [arvgvcpproxy._proxy_start, hiface, List.set_cons_zero, List.set_cons_succ]
    split_ifs <;> exact ⟨trivial, fill_socket_fds_count _ _ _ _⟩
  · simp only [gstaravissink.gst_aravis_sink_start, hiface, hgvsp, hgvcp, Bool.not_true,
      Bool.false_eq_true, if_false, List.set_cons_zero, List.set_cons_succ]
    split_ifs <;> exact ⟨trivial, fill_socket_fds_count _ _ _ _⟩

/-- C21, as stated, fails for the proxy.  On the interface 192.168.1.10, with
every bind attempt failing, `_proxy_start` returns TRUE and leaves an empty
poll set; with only the primary GVCP bind failing it returns TRUE with the two
discovery sockets in the poll set.  The start of the sink, given the same
outcomes, returns FALSE. -/
theorem C21_proxy_start_succeeds_without_primary :
    ((arvgvcpproxy._proxy_start (arvgvcpproxy_backend.fake_vtable memory_camera)
        (arvgvcpproxy.initial_proxy controlled_memory) InputSockets.zeroed
        { iface := some sample_interface, gvsp := bind_fails 10, gvcp := bind_fails 11,
          global_discovery := bind_fails 12, subnet_discovery := bind_fails 13 }).success = true ∧
     (arvgvcpproxy._proxy_start (arvgvcpproxy_backend.fake_vtable memory_camera)
        (arvgvcpproxy.initial_proxy controlled_memory) InputSockets.zeroed
        { iface := some sample_interface, gvsp := bind_fails 10, gvcp := bind_fails 11,
          global_discovery := bind_fails 12, subnet_discovery := bind_fails 13 }).sockets
       = InputSockets.zeroed) ∧
    ((arvgvcpproxy._proxy_start (arvgvcpproxy_backend.fake_vtable memory_camera)
        (arvgvcpproxy.initial_proxy controlled_memory) InputSockets.zeroed
        { iface := some sample_interface, gvsp := bind_ok 10, gvcp := bind_fails 11,
          global_discovery := bind_ok 12, subnet_discovery := bind_ok 13 }).success = true ∧
     (arvgvcpproxy._proxy_start (arvgvcpproxy_backend.fake_vtable memory_camera)
        (arvgvcpproxy.initial_proxy controlled_memory) InputSockets.zeroed
        { iface := some sample_interface, gvsp := bind_ok 10, gvcp := bind_fails 11,
          global_discovery := bind_ok 12, subnet_discovery := bind_ok 13 }).sockets.input_sockets
       = [none, some { fd := 12 }, some { fd := 13 }] ∧
     (arvgvcpproxy._proxy_start (arvgvcpproxy_backend.fake_vtable memory_camera)
        (arvgvcpproxy.initial_proxy controlled_memory) InputSockets.zeroed
        { iface := some sample_interface, gvsp := bind_ok 10, gvcp := bind_fails 11,
          global_discovery := bind_ok 12, subnet_discovery := bind_ok 13 }).sockets.n_socket_fds
       = 2) ∧
    (gstaravissink.gst_aravis_sink_start gige_constants memory_camera
        (gstaravissink.gst_aravis_sink_init (Nat → Nat) 0x01080001 0x01100007) none
        InputSockets.zeroed (some controlled_memory)
        { iface := some sample_interface, gvsp := bind_fails 10, gvcp := bind_fails 11,
          global_discovery := bind_fails 12, subnet_discovery := bind_fails 13 }).success = false ∧
    (gstaravissink.gst_aravis_sink_start gige_constants memory_camera
        (gstaravissink.gst_aravis_sink_init (Nat → Nat) 0x01080001 0x01100007) none
        InputSockets.zeroed (some controlled_memory)
        { iface := some sample_interface, gvsp := bind_ok 10, gvcp := bind_fails 11,
          global_discovery := bind_ok 12, subnet_discovery := bind_ok 13 }).success = false := by
  refine ⟨⟨rfl, by decide⟩, ⟨rfl, by decide, by decide⟩, rfl, rfl⟩

/-- When every input socket that is bound comes before every slot that is
not, each readiness clear of the receive loop gets the poll entry of its own
socket; otherwise, starting from zeroed poll entries, some clear does not. -/
theorem readiness_clears_agree_iff (a b c : Option GSocket) :
    (∀ clear ∈ readiness_clears
        { input_sockets := [a, b, c]
          socket_fds := (fill_socket_fds [a, b, c] 3 0 InputSockets.zeroed.socket_fds 0).1
          n_socket_fds := (fill_socket_fds [a, b, c] 3 0 InputSockets.zeroed.socket_fds 0).2 },
      clear.2.1 = { fd := clear.2.2.fd, events := G_IO_IN, revents := 0 }) ↔
    ((b.isSome = true → a.isSome = true) ∧ (c.isSome = true → b.isSome = true)) := by
  cases a <;> cases b <;> cases c <;>
    simp [readiness_clears, fill_socket_fds, InputSockets.zeroed, List.range, List.range.loop,
      G_IO_IN]

/-- C26, as stated, fails.  On the interface 192.168.1.10 the global discovery
socket does not bind while the primary (descriptor 11) and the subnet
discovery socket (descriptor 13) do.  Both starts put the entry of descriptor
13 at index 1 of the poll array and leave index 2 zeroed, so the receive loop,
at socket slot 2, clears readiness on a zeroed entry and not on the entry of
descriptor 13.  Proxy and sink alike. -/
theorem C26_poll_entry_of_another_slot :
    ((arvgvcpproxy._proxy_start (arvgvcpproxy_backend.fake_vtable memory_camera)
        (arvgvcpproxy.initial_proxy controlled_memory) InputSockets.zeroed
        { iface := some sample_interface, gvsp := bind_ok 10, gvcp := bind_ok 11,
          global_discovery := bind_fails 12, subnet_discovery := bind_ok 13 }).success = true ∧
     (arvgvcpproxy._proxy_start (arvgvcpproxy_backend.fake_vtable memory_camera)
        (arvgvcpproxy.initial_proxy controlled_memory) InputSockets.zeroed
        { iface := some sample_interface, gvsp := bind_ok 10, gvcp := bind_ok 11,
          global_discovery := bind_fails 12, subnet_discovery := bind_ok 13 }).sockets
       = { input_sockets := [some { fd := 11 }, none, some { fd := 13 }]
           socket_fds := [{ fd := 11, events := G_IO_IN, revents := 0 },
                          { fd := 13, events := G_IO_IN, revents := 0 },
                          { fd := 0, events := 0, revents := 0 }]
           n_socket_fds := 2 } ∧
     readiness_clears
        (arvgvcpproxy._proxy_start (arvgvcpproxy_backend.fake_vtable memory_camera)
          (arvgvcpproxy.initial_proxy controlled_memory) InputSockets.zeroed
          { iface := some sample_interface, gvsp := bind_ok 10, gvcp := bind_ok 11,
            global_discovery := bind_fails 12, subnet_discovery := bind_ok 13 }).sockets
       = [(0, { fd := 11, events := G_IO_IN, revents := 0 }, { fd := 11 }),
          (2, { fd := 0, events := 0, revents := 0 }, { fd := 13 })]) ∧
    ((gstaravissink.gst_aravis_sink_start gige_constants memory_camera
        (gstaravissink.gst_aravis_sink_init (Nat → Nat) 0x01080001 0x01100007) none
        InputSockets.zeroed (some controlled_memory)
        { iface := some sample_interface, gvsp := bind_ok 10, gvcp := bind_ok 11,
          global_discovery := bind_fails 12, subnet_discovery := bind_ok 13 }).success = true ∧
     (gstaravissink.gst_aravis_sink_start gige_constants memory_camera
        (gstaravissink.gst_aravis_sink_init (Nat → Nat) 0x01080001 0x01100007) none
        InputSockets.zeroed (some controlled_memory)
        { iface := some sample_interface, gvsp := bind_ok 10, gvcp := bind_ok 11,
          global_discovery := bind_fails 12, subnet_discovery := bind_ok 13 }).sockets
       = { input_sockets := [some { fd := 11 }, none, some { fd := 13 }]
           socket_fds := [{ fd := 11, events := G_IO_IN, revents := 0 },
                          { fd := 13, events := G_IO_IN, revents := 0 },
                          { fd := 0, events := 0, revents := 0 }]
           n_socket_fds := 2 } ∧
     readiness_clears
        (gstaravissink.gst_aravis_sink_start gige_constants memory_camera
          (gstaravissink.gst_aravis_sink_init (Nat → Nat) 0x01080001 0x01100007) none
          InputSockets.zeroed (some controlled_memory)
          { iface := some sample_interface, gvsp := bind_ok 10, gvcp := bind_ok 11,
            global_discovery := bind_fails 12, subnet_discovery := bind_ok 13 }).sockets
       = [(0, { fd := 11, events := G_IO_IN, revents := 0 }, { fd := 11 }),
          (2, { fd := 0, events := 0, revents := 0 }, { fd := 13 })]) := by
  refine ⟨⟨rfl, by decide, by decide⟩, ⟨rfl, by decide, by decide⟩⟩

end start

end Aravis
